import Mathlib

/-!
# Water-object registry: geometry validation and record lifecycle

A shallow embedding of the Go backend

* `internal/domain/entity/water_object.go` (object types, statuses, the record, the
  permitted-shape table),
* `internal/infrastructure/validator/geometry.go` (the geometry validator),
* `internal/adapter/repository/postgres/water_object.go` (the SQL repository),
* `internal/adapter/handler/water_object.go` and `admin.go` (the create, update and
  reject handlers),

followed by theorems about it.

Conventions of the embedding.

* A `float64` coordinate is the rational number it denotes, and every arithmetic step of
  the validator (a difference, a product, a sum, a halving) rounds its exact result to
  binary64, to nearest with ties to even, overflowing to an infinity; each operation is
  rounded on its own (no fused multiply-add, as the compiler emits for amd64).  The
  claims that speak of exact arithmetic are stated about the same expressions without
  the rounding (`directionExact`, `segmentsIntersectExact`).
* The table `water_objects` is a list of rows carrying the columns the repository's
  statements name.  Each SQL statement is read by its text:
  `UPDATE .. SET .. WHERE c` rewrites the named columns of every row satisfying `c` and
  leaves every other column alone, `DELETE .. WHERE c` removes the rows satisfying `c`,
  `INSERT` appends a row.  No trigger is declared anywhere in the sources.  Of the
  schema in `cmd/init/main.go` the embedding takes the `PRIMARY KEY` on `id`, the
  `UNIQUE` constraint on `canonical_id` and the column defaults (`version` 1,
  `created_at` and `updated_at` `NOW()`).
* Failures of the environment (serialisation, the connection, a statement, the commit)
  are an explicit input of type `Fault`, so that every error path of the Go code is
  present in the embedding.
* The JSON functions of the environment (`json.Marshal`, `json.Unmarshal`, the GeoJSON
  decoder, the `jsonb` type of the database) are parameters, gathered in `Codec`.  A row
  of the table carries the geometry of the object it was written from; what a query
  reads from the `geometry` column is the `jsonb` rendering of that geometry's
  serialisation, decoded again.
-/

namespace WaterMap

/-! ## internal/domain/entity/water_object.go -/

/-- Go `type ObjectType string`. -/
abbrev ObjectType := String

def ObjectTypeRiver : ObjectType := "river"
def ObjectTypeLake : ObjectType := "lake"
def ObjectTypeReservoir : ObjectType := "reservoir"
def ObjectTypeCanal : ObjectType := "canal"
def ObjectTypeGlacier : ObjectType := "glacier"
def ObjectTypeSpring : ObjectType := "spring"

/-- Method `ObjectType.IsValid`: the switch over the six constants. -/
def ObjectType.IsValid (o : ObjectType) : Bool :=
  o == ObjectTypeRiver || o == ObjectTypeLake || o == ObjectTypeReservoir ||
    o == ObjectTypeCanal || o == ObjectTypeGlacier || o == ObjectTypeSpring

/-- Go `type ObjectStatus string`. -/
abbrev ObjectStatus := String

def StatusDraft : ObjectStatus := "draft"
def StatusPending : ObjectStatus := "pending"
def StatusPublished : ObjectStatus := "published"
def StatusArchived : ObjectStatus := "archived"
def StatusRejected : ObjectStatus := "rejected"

/-- Values of `time.Time` and of SQL `NOW()`. -/
abbrev Time := Nat

/-- Values of `uuid.UUID`, the type of `canonical_id`. -/
abbrev UUID := String

/-- Struct `entity.Geometry`: the GeoJSON type tag and the raw JSON text of the
coordinates (a `json.RawMessage`). -/
structure Geometry where
  GeomType : String
  Coordinates : String
deriving DecidableEq, Repr

/-- Struct `entity.WaterObject`, field for field.  Pointer fields are options, `int64`
and `int` are integers, `float64` measurements (stored and copied, never computed with)
are rationals. -/
structure WaterObject where
  ID : Int
  CanonicalID : UUID
  Version : Int
  NameKZ : String
  NameRU : Option String
  NameEN : Option String
  ObjectType : WaterMap.ObjectType
  Geometry : WaterMap.Geometry
  LengthKm : Option Rat
  AreaKm2 : Option Rat
  MaxDepthM : Option Rat
  AvgDepthM : Option Rat
  WaterVolumeKm3 : Option Rat
  BasinAreaKm2 : Option Rat
  AvgDischargeM3s : Option Rat
  SalinityLevel : Option String
  PollutionIndex : Option Rat
  EcologicalStatus : Option String
  DescriptionKZ : Option String
  DescriptionRU : Option String
  DescriptionEN : Option String
  HistoricalNotes : Option String
  Status : ObjectStatus
  RejectionReason : Option String
  CreatedBy : Int
  UpdatedBy : Option Int
  ReviewedBy : Option Int
  CreatedAt : Time
  UpdatedAt : Time
  PublishedAt : Option Time
deriving DecidableEq, Repr

/-- Map `AllowedGeometryTypes`; a key absent from the Go map is `none`. -/
def AllowedGeometryTypes (objType : ObjectType) : Option (List String) :=
  if objType = ObjectTypeRiver then some ["LineString", "MultiLineString"]
  else if objType = ObjectTypeCanal then some ["LineString", "MultiLineString"]
  else if objType = ObjectTypeLake then some ["Polygon", "MultiPolygon"]
  else if objType = ObjectTypeReservoir then some ["Polygon", "MultiPolygon"]
  else if objType = ObjectTypeGlacier then some ["Polygon", "MultiPolygon"]
  else if objType = ObjectTypeSpring then some ["Point"]
  else none

/-- Function `IsGeometryTypeValid`: look the object type up, then scan its list. -/
def IsGeometryTypeValid (geomType : String) (objType : ObjectType) : Bool :=
  match AllowedGeometryTypes objType with
  | none => false
  | some allowed => allowed.any (fun t => t == geomType)

/-- The two domain errors `WaterObject.Validate` returns. -/
inductive DomainError where
  | ErrNameRequired
  | ErrInvalidObjectType
deriving DecidableEq, Repr

/-- Method `WaterObject.Validate`: the name check, then the object-type check. -/
def WaterObject.Validate (w : WaterObject) : Except DomainError Unit :=
  if w.NameKZ = "" then .error .ErrNameRequired
  else if !ObjectType.IsValid w.ObjectType then .error .ErrInvalidObjectType
  else .ok ()

/-! ## float64 arithmetic -/

/-- Values of Go's `float64` (IEEE 754 binary64): a finite number, given as the rational
it denotes, an infinity, or NaN.  The two zeros are the one value `fin 0`: the validator
adds, subtracts, multiplies, halves and compares, and none of these tells them apart. -/
inductive Float64 where
  | fin (q : Rat)
  | inf (negative : Bool)
  | nan
deriving DecidableEq, Repr

/-- The number of binary digits of `n`, counted by halving; `fuel` bounds the number of
halvings. -/
def bitLength : Nat → Nat → Nat
  | 0, _ => 0
  | fuel + 1, n => if n = 0 then 0 else bitLength fuel (n / 2) + 1

/-- The binary exponent of a rational `q ≠ 0`: the integer `e` with
`2 ^ e ≤ |q| < 2 ^ (e + 1)`.  The difference of the digit counts of numerator and
denominator is `e` or `e + 1`; the comparison tells which. -/
def floorLog2 (q : Rat) : Int :=
  let e : Int :=
    (bitLength q.num.natAbs q.num.natAbs : Int) - (bitLength q.den q.den : Int)
  if (2 : Rat) ^ e ≤ |q| then e else e - 1

/-- The integer nearest to `x`, the even one of the two when `x` lies half way. -/
def roundHalfEven (x : Rat) : Int :=
  let n := ⌊x⌋
  if x - n < 1 / 2 then n
  else if 1 / 2 < x - n then n + 1
  else if n % 2 = 0 then n else n + 1

/-- The binary64 number nearest to `q`, ties to even, before the overflow test: a
multiple of `2 ^ (e - 52)`, where `e` is the binary exponent of `q`, and of
`2 ^ (-1074)` in the subnormal range.  It is also the `float64` value of a decimal
literal of the source and of a JSON number. -/
def roundFinite (q : Rat) : Rat :=
  if q = 0 then 0
  else
    let e := max (floorLog2 q) (-1022)
    roundHalfEven (q / (2 : Rat) ^ (e - 52)) * (2 : Rat) ^ (e - 52)

/-- The `float64` result of an operation whose exact result is `q`: the nearest binary64
number, or the infinity of the sign of `q` when that number is `2 ^ 1024` or beyond. -/
def Float64.ofRat (q : Rat) : Float64 :=
  if (2 : Rat) ^ (1024 : Nat) ≤ |roundFinite q| then .inf (decide (q < 0))
  else .fin (roundFinite q)

/-- The constant `0`. -/
def Float64.zero : Float64 := .fin 0

/-- Unary minus, exact. -/
def Float64.neg : Float64 → Float64
  | .fin x => .fin (-x)
  | .inf s => .inf (!s)
  | .nan => .nan

/-- Operator `x + y` on `float64`: the rounded sum; infinities of opposite sign give
NaN. -/
def Float64.add : Float64 → Float64 → Float64
  | .fin x, .fin y => .ofRat (x + y)
  | .fin _, .inf s => .inf s
  | .inf s, .fin _ => .inf s
  | .inf s, .inf t => if s = t then .inf s else .nan
  | _, _ => .nan

/-- Operator `x - y` on `float64`. -/
def Float64.sub (x y : Float64) : Float64 := x.add y.neg

/-- Operator `x * y` on `float64`: the rounded product; zero times an infinity is
NaN. -/
def Float64.mul : Float64 → Float64 → Float64
  | .fin x, .fin y => .ofRat (x * y)
  | .fin x, .inf s => if x = 0 then .nan else .inf (xor (decide (x < 0)) s)
  | .inf s, .fin y => if y = 0 then .nan else .inf (xor s (decide (y < 0)))
  | .inf s, .inf t => .inf (xor s t)
  | _, _ => .nan

/-- Expression `x / 2.0` on `float64`. -/
def Float64.half : Float64 → Float64
  | .fin x => .ofRat (x / 2)
  | .inf s => .inf s
  | .nan => .nan

/-- Operator `x < y` on `float64`; false when either side is NaN. -/
def Float64.lt : Float64 → Float64 → Bool
  | .fin x, .fin y => decide (x < y)
  | .fin _, .inf s => !s
  | .inf s, .fin _ => s
  | .inf s, .inf t => s && !t
  | _, _ => false

/-- Operator `x <= y` on `float64`; false when either side is NaN. -/
def Float64.le : Float64 → Float64 → Bool
  | .fin x, .fin y => decide (x ≤ y)
  | .fin _, .inf s => !s
  | .inf s, .fin _ => s
  | .inf s, .inf t => s || !t
  | _, _ => false

/-- Operator `x > y` on `float64`. -/
def Float64.gt (x y : Float64) : Bool := Float64.lt y x

/-- Operator `x >= y` on `float64`. -/
def Float64.ge (x y : Float64) : Bool := Float64.le y x

/-! ## Geometry values handed to the validator -/

/-- Modelled from the spec: a (longitude, latitude) pair; the geometry library's point
type `[2]float64`, whose source is not part of the repository.  A decoded coordinate is a
finite `float64`, here the rational it denotes. -/
abbrev Point := Rat × Rat

/-- Modelled from the spec: a linear ring, an ordered sequence of points. -/
abbrev Ring := List Point

/-- Modelled from the spec: a polygon, an ordered sequence of linear rings, the first
ring exterior. -/
abbrev Polygon := List Ring

/-- Modelled from the spec: the decoded `GeometryShape`, a tagged union over Point,
LineString, MultiLineString, Polygon and MultiPolygon carrying ordered (lon, lat)
pairs.  In the program these are the value types of the geometry library, whose
source is not part of the repository. -/
inductive OrbGeometry where
  | Point (p : WaterMap.Point)
  | LineString (ls : List WaterMap.Point)
  | MultiLineString (mls : List (List WaterMap.Point))
  | Polygon (poly : WaterMap.Polygon)
  | MultiPolygon (mpoly : List WaterMap.Polygon)
deriving DecidableEq, Repr

/-- Modelled from the spec: the shape tag of a decoded geometry, the library method
`GeoJSONType`. -/
def OrbGeometry.GeoJSONType : OrbGeometry → String
  | .Point _ => "Point"
  | .LineString _ => "LineString"
  | .MultiLineString _ => "MultiLineString"
  | .Polygon _ => "Polygon"
  | .MultiPolygon _ => "MultiPolygon"

/-- Modelled from the spec: a bounding box, its corner of smallest and its corner of
largest coordinates; the geometry library's `Bound` type. -/
structure Bound where
  Min : Point
  Max : Point
deriving DecidableEq, Repr

/-- Modelled from the spec: the box the geometry library returns for a geometry without
points (minimum above maximum). -/
def emptyBound : Bound := ⟨(1, 1), (-1, -1)⟩

/-- Modelled from the spec: a box whose minimum lies above its maximum covers nothing. -/
def Bound.IsEmpty (b : Bound) : Bool :=
  decide (b.Min.1 > b.Max.1) || decide (b.Min.2 > b.Max.2)

/-- Modelled from the spec: the box grown to cover one more point. -/
def Bound.Extend (b : Bound) (p : Point) : Bound :=
  ⟨(min b.Min.1 p.1, min b.Min.2 p.2), (max b.Max.1 p.1, max b.Max.2 p.2)⟩

/-- Modelled from the spec: the smallest box covering two boxes; an empty second box
changes nothing. -/
def Bound.Union (b other : Bound) : Bound :=
  if other.IsEmpty then b
  else (b.Extend other.Min).Extend other.Max

/-- Modelled from the spec: the bounding box of a sequence of points. -/
def pointsBound : List Point → Bound
  | [] => emptyBound
  | p :: ps => ps.foldl Bound.Extend ⟨p, p⟩

/-- Modelled from the spec: the bounding box of a polygon, that of its exterior
ring. -/
def polygonBound : Polygon → Bound
  | [] => emptyBound
  | ring :: _ => pointsBound ring

/-- Modelled from the spec: the bounding box of several boxes, folded from the first. -/
def unionBounds : List Bound → Bound
  | [] => emptyBound
  | b :: bs => bs.foldl Bound.Union b

/-- Modelled from the spec: the geometry's bounding box, smallest and largest longitude
and latitude over its points (for a polygon, over its exterior ring).  In the program it
is computed by the geometry library (`g.Bound()`), whose source is not part of the
repository. -/
def OrbGeometry.Bound : OrbGeometry → WaterMap.Bound
  | .Point p => ⟨p, p⟩
  | .LineString ls => pointsBound ls
  | .MultiLineString mls => unionBounds (mls.map pointsBound)
  | .Polygon poly => polygonBound poly
  | .MultiPolygon mpoly => unionBounds (mpoly.map polygonBound)

/-- Modelled from the spec: the bounding-box center point
((minLon + maxLon) / 2, (minLat + maxLat) / 2), the library call `Bound.Center()`,
computed as the program computes it: per axis one `float64` addition and one halving. -/
def Bound.Center (b : Bound) : Float64 × Float64 :=
  (Float64.half (Float64.add (.fin b.Min.1) (.fin b.Max.1)),
    Float64.half (Float64.add (.fin b.Min.2) (.fin b.Max.2)))

/-- Modelled from the spec: the same center point in exact arithmetic, the number that
the formula ((minLon + maxLon) / 2, (minLat + maxLat) / 2) denotes. -/
def Bound.exactCenter (b : Bound) : Point :=
  ((b.Min.1 + b.Max.1) / 2, (b.Min.2 + b.Max.2) / 2)

/-! ## internal/infrastructure/validator/geometry.go -/

/-- The error values of the validator.  `ErrInvalidGeoJSON` carries the decoder's
message, `ErrGeometryTypeMismatch` the two values formatted into its message: the
permitted tags and the tag received. -/
inductive ValidateError where
  | ErrInvalidGeoJSON (msg : String)
  | ErrSelfIntersecting
  | ErrOutsideBounds
  | ErrGeometryTypeMismatch (expected : List String) (got : String)
  | ErrEmptyGeometry
deriving DecidableEq, Repr

/-- Variable `kazakhstanBounds`: the four decimal literals as `float64` constants. -/
def kazakhstanBounds : Bound :=
  ⟨(roundFinite 46.49, roundFinite 40.57), (roundFinite 87.36, roundFinite 55.44)⟩

/-- Method `isWithinBounds`; its argument is the computed center. -/
def isWithinBounds (p : Float64 × Float64) : Bool :=
  Float64.ge p.1 (.fin kazakhstanBounds.Min.1) &&
    Float64.le p.1 (.fin kazakhstanBounds.Max.1) &&
    Float64.ge p.2 (.fin kazakhstanBounds.Min.2) &&
    Float64.le p.2 (.fin kazakhstanBounds.Max.2)

/-- Method `direction`: four `float64` differences, two products, one difference. -/
def direction (a b c : Point) : Float64 :=
  Float64.sub
    (Float64.mul (Float64.sub (.fin c.1) (.fin a.1)) (Float64.sub (.fin b.2) (.fin a.2)))
    (Float64.mul (Float64.sub (.fin b.1) (.fin a.1)) (Float64.sub (.fin c.2) (.fin a.2)))

/-- Method `segmentsIntersect`. -/
def segmentsIntersect (a b c d : Point) : Bool :=
  let d1 := direction c d a
  let d2 := direction c d b
  let d3 := direction a b c
  let d4 := direction a b d
  ((d1.gt .zero && d2.lt .zero) || (d1.lt .zero && d2.gt .zero)) &&
    ((d3.gt .zero && d4.lt .zero) || (d3.lt .zero && d4.gt .zero))

/-- The expression of `direction` in exact arithmetic: the determinant itself, no step
rounded. -/
def directionExact (a b c : Point) : Rat :=
  (c.1 - a.1) * (b.2 - a.2) - (b.1 - a.1) * (c.2 - a.2)

/-- The body of `segmentsIntersect` in exact arithmetic: the same sign tests on the
determinants `directionExact`. -/
def segmentsIntersectExact (a b c d : Point) : Bool :=
  let d1 := directionExact c d a
  let d2 := directionExact c d b
  let d3 := directionExact a b c
  let d4 := directionExact a b d
  ((decide (d1 > 0) && decide (d2 < 0)) || (decide (d1 < 0) && decide (d2 > 0))) &&
    ((decide (d3 > 0) && decide (d4 < 0)) || (decide (d3 < 0) && decide (d4 > 0)))

/-- The point `ring[i]`; every index the scan uses is within the ring. -/
def ringAt (ring : Ring) (i : Nat) : Point := ring.getD i (0, 0)

/-- Method `isSelfIntersecting`: the two nested loops over the exterior ring `poly[0]`,
`i` from `0` below `n-1`, `j` from `i+2` below `n-1`, skipping the pair
`(0, n-2)`; the first crossing pair returns true. -/
def isSelfIntersecting (poly : Polygon) : Bool :=
  match poly with
  | [] => false
  | ring :: _ =>
    if ring.length < 4 then false
    else
      let n := ring.length
      (List.range (n - 1)).any fun i =>
        (List.range' (i + 2) (n - 1 - (i + 2))).any fun j =>
          if i = 0 ∧ j = n - 2 then false
          else segmentsIntersect (ringAt ring i) (ringAt ring (i + 1))
            (ringAt ring j) (ringAt ring (j + 1))

/-- Method `Validate`.  The GeoJSON decoder of the geometry library is the parameter
`UnmarshalGeometry`: it yields an error message, or the decoded geometry, which may be
absent (`geom.Geometry() == nil`). -/
def Validate (UnmarshalGeometry : List UInt8 → Except String (Option OrbGeometry))
    (geomJSON : List UInt8) (objType : ObjectType) : Except ValidateError Unit :=
  if geomJSON.length = 0 then .error .ErrEmptyGeometry
  else
    match UnmarshalGeometry geomJSON with
    | .error msg => .error (.ErrInvalidGeoJSON msg)
    | .ok none => .error .ErrEmptyGeometry
    | .ok (some g) =>
      if !IsGeometryTypeValid g.GeoJSONType objType then
        .error (.ErrGeometryTypeMismatch ((AllowedGeometryTypes objType).getD [])
          g.GeoJSONType)
      else if !isWithinBounds g.Bound.Center then .error .ErrOutsideBounds
      else
        match g with
        | .Polygon poly =>
          if isSelfIntersecting poly then .error .ErrSelfIntersecting else .ok ()
        | .MultiPolygon mpoly =>
          if mpoly.any isSelfIntersecting then .error .ErrSelfIntersecting else .ok ()
        | _ => .ok ()

/-- Result of `ValidateFromEntity`: the serialisation error, or what `Validate` said. -/
inductive EntityValidateError where
  | marshal (msg : String)
  | validate (e : ValidateError)
deriving DecidableEq, Repr

/-- Method `ValidateFromEntity`: serialise the entity geometry, then `Validate` the
bytes.  `Marshal` is `json.Marshal` on an `entity.Geometry`. -/
def ValidateFromEntity (UnmarshalGeometry : List UInt8 → Except String (Option OrbGeometry))
    (Marshal : Geometry → Except String (List UInt8)) (geom : Geometry)
    (objType : ObjectType) : Except EntityValidateError Unit :=
  match Marshal geom with
  | .error msg => .error (.marshal msg)
  | .ok geomJSON =>
    match Validate UnmarshalGeometry geomJSON objType with
    | .error e => .error (.validate e)
    | .ok _ => .ok ()

/-! ## internal/adapter/repository/postgres/water_object.go -/

/-- The table `water_objects`: its rows, in insertion order. -/
abbrev Table := List WaterObject

/-- Constraint `id SERIAL PRIMARY KEY` of the table (`cmd/init/main.go`): no two rows
carry the same id. -/
def PrimaryKey (s : Table) : Prop := (s.map (fun r => r.ID)).Nodup

instance (s : Table) : Decidable (PrimaryKey s) := by
  unfold PrimaryKey
  infer_instance

/-- Errors of the repository: the sentinel `entity.ErrNotFound`, or an error of the
driver, wrapped by `fmt.Errorf` under the given context string. -/
inductive RepoError where
  | ErrNotFound
  | storage (context : String)
deriving DecidableEq, Repr

/-- What the environment does to one call of a repository method: nothing, or the
failure of one of its steps.  `marshal` is `json.Marshal` failing, `begin` is
`pool.Begin`, `query` is the method's single statement (for `Approve`, its `SELECT`),
`archive` and `publish` are the two `UPDATE`s of `Approve`, `commit` is `tx.Commit`.
A statement fails when the connection does, or when the database refuses it (a foreign
key on a user id, for one).  A method ignores the faults of steps it does not have. -/
inductive Fault where
  | none
  | marshal
  | begin
  | query
  | archive
  | publish
  | commit
deriving DecidableEq, Repr

/-- The row `INSERT`ed by `Create`: the nineteen bound columns from `obj`, status
`'draft'`, the generated `id` and `canonical_id`, `version` by its column default 1,
`created_at` and `updated_at` by their default `NOW()`, every other column null. -/
def insertedRow (dbID : Int) (dbCanonicalID : UUID) (now : Time) (obj : WaterObject) :
    WaterObject :=
  { obj with
    ID := dbID, CanonicalID := dbCanonicalID, Version := 1, HistoricalNotes := none,
    Status := StatusDraft, RejectionReason := none, UpdatedBy := none,
    ReviewedBy := none, CreatedAt := now, UpdatedAt := now, PublishedAt := none }

/-- Method `Create`.  The statement binds neither `id` nor `canonical_id` and reads both
back with `RETURNING`: `dbID` and `dbCanonicalID` are the values the database generates
for the new row.  The `INSERT` fails when one of them is already taken (`PRIMARY KEY`
and `UNIQUE` in the schema of `cmd/init/main.go`).  On success the scan fills `ID`,
`CanonicalID`, `Version`, `CreatedAt`, `UpdatedAt` of `obj`, and `obj.Status` is set to
draft. -/
def Create (f : Fault) (dbID : Int) (dbCanonicalID : UUID) (now : Time) (s : Table)
    (obj : WaterObject) : Table × Except RepoError WaterObject :=
  if f = .marshal then (s, .error (.storage "marshal geometry"))
  else if f = .query ∨
      s.any (fun r => r.ID == dbID || r.CanonicalID == dbCanonicalID) = true then
    (s, .error (.storage "insert water object"))
  else
    (s ++ [insertedRow dbID dbCanonicalID now obj],
      .ok { obj with
        ID := dbID, CanonicalID := dbCanonicalID, Version := 1, CreatedAt := now,
        UpdatedAt := now, Status := StatusDraft })

/-- The `WHERE` clause of `Update`: `id = $19 AND status IN ('draft', 'rejected')`. -/
def updateWhere (id : Int) (r : WaterObject) : Bool :=
  r.ID == id && (r.Status == StatusDraft || r.Status == StatusRejected)

/-- The `SET` list of `Update`, applied to one row: the three names, the geometry, the
seven measurements, the three quality fields, the three descriptions, `updated_by`, and
`updated_at = NOW()`. -/
def updateSet (obj : WaterObject) (now : Time) (r : WaterObject) : WaterObject :=
  { r with
    NameKZ := obj.NameKZ, NameRU := obj.NameRU, NameEN := obj.NameEN,
    Geometry := obj.Geometry,
    LengthKm := obj.LengthKm, AreaKm2 := obj.AreaKm2, MaxDepthM := obj.MaxDepthM,
    AvgDepthM := obj.AvgDepthM, WaterVolumeKm3 := obj.WaterVolumeKm3,
    BasinAreaKm2 := obj.BasinAreaKm2, AvgDischargeM3s := obj.AvgDischargeM3s,
    SalinityLevel := obj.SalinityLevel, PollutionIndex := obj.PollutionIndex,
    EcologicalStatus := obj.EcologicalStatus,
    DescriptionKZ := obj.DescriptionKZ, DescriptionRU := obj.DescriptionRU,
    DescriptionEN := obj.DescriptionEN,
    UpdatedBy := obj.UpdatedBy, UpdatedAt := now }

/-- Method `Update`.  The statement rewrites the rows matching its `WHERE` clause and
returns `version, updated_at` of the rewritten row, which the scan stores into `obj`;
no row (`pgx.ErrNoRows`) is `ErrNotFound`. -/
def Update (f : Fault) (now : Time) (s : Table) (obj : WaterObject) :
    Table × Except RepoError WaterObject :=
  if f = .marshal then (s, .error (.storage "marshal geometry"))
  else if f = .query then (s, .error (.storage "update water object"))
  else
    match s.find? (updateWhere obj.ID) with
    | none => (s, .error .ErrNotFound)
    | some row =>
      (s.map (fun r => if updateWhere obj.ID r then updateSet obj now r else r),
        .ok { obj with Version := (updateSet obj now row).Version, UpdatedAt := now })

/-- The `WHERE` clause of `Delete`: `id = $1 AND created_by = $2 AND status = 'draft'`. -/
def deleteWhere (id userID : Int) (r : WaterObject) : Bool :=
  r.ID == id && r.CreatedBy == userID && r.Status == StatusDraft

/-- Method `Delete`; no row affected is `ErrNotFound`. -/
def Delete (f : Fault) (s : Table) (id userID : Int) : Table × Except RepoError Unit :=
  if f = .query then (s, .error (.storage "delete water object"))
  else if s.any (deleteWhere id userID) then
    (s.filter (fun r => !deleteWhere id userID r), .ok ())
  else (s, .error .ErrNotFound)

/-- The `WHERE` clause of `SubmitForReview`:
`id = $1 AND created_by = $2 AND status IN ('draft', 'rejected')`. -/
def submitWhere (id userID : Int) (r : WaterObject) : Bool :=
  r.ID == id && r.CreatedBy == userID &&
    (r.Status == StatusDraft || r.Status == StatusRejected)

/-- Method `SubmitForReview`: `SET status = 'pending', updated_at = NOW()`; no row
affected is `ErrNotFound`. -/
def SubmitForReview (f : Fault) (now : Time) (s : Table) (id userID : Int) :
    Table × Except RepoError Unit :=
  if f = .query then (s, .error (.storage "submit for review"))
  else if s.any (submitWhere id userID) then
    (s.map (fun r =>
        if submitWhere id userID r then { r with Status := StatusPending, UpdatedAt := now }
        else r),
      .ok ())
  else (s, .error .ErrNotFound)

/-- The `WHERE` clause of `Reject`, and of the `SELECT` of `Approve`:
`id = $1 AND status = 'pending'`. -/
def pendingWhere (id : Int) (r : WaterObject) : Bool :=
  r.ID == id && r.Status == StatusPending

/-- Method `Reject`: `SET status = 'rejected', rejection_reason = $1, reviewed_by = $2,
updated_at = NOW()`; no row affected is `ErrNotFound`. -/
def Reject (f : Fault) (now : Time) (s : Table) (id reviewerID : Int) (reason : String) :
    Table × Except RepoError Unit :=
  if f = .query then (s, .error (.storage "reject water object"))
  else if s.any (pendingWhere id) then
    (s.map (fun r =>
        if pendingWhere id r then
          { r with
            Status := StatusRejected, RejectionReason := some reason,
            ReviewedBy := some reviewerID, UpdatedAt := now }
        else r),
      .ok ())
  else (s, .error .ErrNotFound)

/-- First `UPDATE` of `Approve`:
`SET status = 'archived' WHERE canonical_id = $1 AND status = 'published'`. -/
def archiveStmt (canonicalID : UUID) (s : Table) : Table :=
  s.map (fun r =>
    if r.CanonicalID = canonicalID ∧ r.Status = StatusPublished then
      { r with Status := StatusArchived }
    else r)

/-- Second `UPDATE` of `Approve`:
`SET status = 'published', published_at = NOW(), reviewed_by = $1 WHERE id = $2`. -/
def publishStmt (reviewerID id : Int) (now : Time) (s : Table) : Table :=
  s.map (fun r =>
    if r.ID = id then
      { r with
        Status := StatusPublished, PublishedAt := some now, ReviewedBy := some reviewerID }
    else r)

/-- Method `Approve`.  The statements run inside one transaction, on the snapshot `s`;
every `return` before `tx.Commit` runs the deferred `tx.Rollback`, which leaves the
table as it was, and only a commit that succeeds installs the transaction's table. -/
def Approve (f : Fault) (now : Time) (s : Table) (id reviewerID : Int) :
    Table × Except RepoError Unit :=
  if f = .begin then (s, .error (.storage "begin tx"))
  else if f = .query then (s, .error (.storage "get canonical_id"))
  else
    match s.find? (pendingWhere id) with
    | none => (s, .error .ErrNotFound)
    | some row =>
      let canonicalID := row.CanonicalID
      if f = .archive then (s, .error (.storage "archive old version"))
      else
        let tx1 := archiveStmt canonicalID s
        if f = .publish then (s, .error (.storage "publish version"))
        else
          let tx2 := publishStmt reviewerID id now tx1
          if f = .commit then (s, .error (.storage "commit"))
          else (tx2, .ok ())

/-- What the two `UPDATE`s of `Approve`, run one after the other, make of one row. -/
def approveRow (canonicalID : UUID) (reviewerID id : Int) (now : Time) (r : WaterObject) :
    WaterObject :=
  if r.ID = id then
    { r with
      Status := StatusPublished, PublishedAt := some now, ReviewedBy := some reviewerID }
  else if r.CanonicalID = canonicalID ∧ r.Status = StatusPublished then
    { r with Status := StatusArchived }
  else r

/-- One call of a repository method that writes, with all its arguments. -/
inductive Op where
  | create (f : Fault) (dbID : Int) (dbCanonicalID : UUID) (now : Time) (obj : WaterObject)
  | update (f : Fault) (now : Time) (obj : WaterObject)
  | submit (f : Fault) (now : Time) (id userID : Int)
  | approve (f : Fault) (now : Time) (id reviewerID : Int)
  | reject (f : Fault) (now : Time) (id reviewerID : Int) (reason : String)
  | delete (f : Fault) (id userID : Int)

/-- The table after the call, whether the call succeeded or failed. -/
def Op.run : Op → Table → Table
  | .create f dbID dbCanonicalID now obj, s => (Create f dbID dbCanonicalID now s obj).1
  | .update f now obj, s => (Update f now s obj).1
  | .submit f now id userID, s => (SubmitForReview f now s id userID).1
  | .approve f now id reviewerID, s => (Approve f now s id reviewerID).1
  | .reject f now id reviewerID reason, s => (Reject f now s id reviewerID reason).1
  | .delete f id userID, s => (Delete f s id userID).1

/-- Successive fault-free `Update` calls, each with its own clock reading and request
object; the table after the last one. -/
def updateAll (s : Table) (calls : List (Time × WaterObject)) : Table :=
  calls.foldl (fun st c => (Update .none c.1 st c.2).1) s

/-- The JSON functions of the environment that the handlers, the validator and the
repository go through, as parameters: `UnmarshalGeometry` is the GeoJSON decoder handed
to `Validate`, `Unmarshal` is `json.Unmarshal` into an `entity.Geometry`, `Marshal` is
`json.Marshal` of an `entity.Geometry`, and `Jsonb` is the database's `jsonb` type: the
text a `SELECT` returns for a column into which the given JSON text was written through
the cast `::jsonb`. -/
structure Codec where
  UnmarshalGeometry : List UInt8 → Except String (Option OrbGeometry)
  Unmarshal : List UInt8 → Except String Geometry
  Marshal : Geometry → Except String (List UInt8)
  Jsonb : List UInt8 → List UInt8

/-- The text the database returns for the `geometry` column of a row.  `Create` and
`Update` bind `string(geometryJSON)`, the output of `json.Marshal` on the geometry of the
object, to `$5::jsonb` and `$4::jsonb`; the geometry a row of the table carries is that
object's, and the column holds the `jsonb` value of its serialisation.  A geometry that
does not serialise has no column text: no row is ever written from it. -/
def geometryColumn (codec : Codec) (g : Geometry) : Option (List UInt8) :=
  match codec.Marshal g with
  | .error _ => none
  | .ok text => some (codec.Jsonb text)

/-- Method `GetByCanonicalID` with `scanSingleWaterObject`: the first row with the given
canonical id and status; no row is `ErrNotFound`.  The 29 selected columns are the
columns of the 29 destinations, in the same order, so the scan copies them into a fresh
object (which leaves `HistoricalNotes`, not selected, at nil), the `geometry` column into
the local `geometryJSON`; then `json.Unmarshal` decodes `geometryJSON` into the geometry
of the object.  Here `query` is the scan failing. -/
def GetByCanonicalID (codec : Codec) (f : Fault) (s : Table) (canonicalID : String)
    (status : ObjectStatus) : Except RepoError WaterObject :=
  if f = .query then .error (.storage "scan row")
  else
    match s.find? (fun r => r.CanonicalID == canonicalID && r.Status == status) with
    | none => .error .ErrNotFound
    | some row =>
      match geometryColumn codec row.Geometry with
      | none => .error (.storage "scan row")
      | some geometryJSON =>
        match codec.Unmarshal geometryJSON with
        | .error _ => .error (.storage "unmarshal geometry")
        | .ok geom => .ok { row with Geometry := geom, HistoricalNotes := none }

/-- The table after a sequence of repository calls, run in order. -/
def runOps (ops : List Op) (s : Table) : Table :=
  ops.foldl (fun st op => op.run st) s

/-- A table reachable from the empty table by repository calls. -/
def Reachable (s : Table) : Prop := ∃ ops : List Op, runOps ops [] = s

/-! ## internal/adapter/handler/water_object.go and admin.go -/

/-- Struct `CreateWaterObjectRequest`, the body of the create and of the update
request; `Geometry` is the raw JSON of the geometry. -/
structure CreateWaterObjectRequest where
  NameKZ : String
  NameRU : Option String
  NameEN : Option String
  ObjectType : String
  Geometry : List UInt8
  LengthKm : Option Rat
  AreaKm2 : Option Rat
  MaxDepthM : Option Rat
  AvgDepthM : Option Rat
  WaterVolumeKm3 : Option Rat
  BasinAreaKm2 : Option Rat
  AvgDischargeM3s : Option Rat
  SalinityLevel : Option String
  PollutionIndex : Option Rat
  EcologicalStatus : Option String
  DescriptionKZ : Option String
  DescriptionRU : Option String
  DescriptionEN : Option String
deriving DecidableEq, Repr

/-- Struct `RejectRequest`. -/
structure RejectRequest where
  Reason : String
deriving DecidableEq, Repr

/-- Modelled from the spec: the required name field, object type and geometry of a
create or update request.  In the program this is `c.ShouldBindJSON` of the web
framework (whose source is not part of the repository) reading the struct tags
`binding:"required"` on `name_kz`, `object_type` and `geometry`: `body` is the decoded
request body, absent when it does not decode, and a required field must be non-empty. -/
def ShouldBindJSON (body : Option CreateWaterObjectRequest) :
    Except String CreateWaterObjectRequest :=
  match body with
  | none => .error "invalid request body"
  | some req =>
    if req.NameKZ = "" ∨ req.ObjectType = "" ∨ req.Geometry = [] then
      .error "required field missing"
    else .ok req

/-- Modelled from the spec: the reason of a reject is required (non-empty).  In the
program this is `c.ShouldBindJSON` of the web framework reading the struct tag
`binding:"required"` on `reason`. -/
def ShouldBindRejectJSON (body : Option RejectRequest) : Except String RejectRequest :=
  match body with
  | none => .error "invalid request body"
  | some req => if req.Reason = "" then .error "required field missing" else .ok req

/-- What a handler writes with `c.JSON`: the HTTP status, the `error` key of the body
(on success its `message`), and the `data` object when there is one. -/
structure Response where
  status : Nat
  code : String
  data : Option WaterObject
deriving DecidableEq, Repr

/-- An `entity.WaterObject` with every field at its Go zero value. -/
def zeroWaterObject : WaterObject :=
  { ID := 0, CanonicalID := "", Version := 0, NameKZ := "", NameRU := none,
    NameEN := none, ObjectType := "", Geometry := ⟨"", ""⟩,
    LengthKm := none, AreaKm2 := none, MaxDepthM := none, AvgDepthM := none,
    WaterVolumeKm3 := none, BasinAreaKm2 := none, AvgDischargeM3s := none,
    SalinityLevel := none, PollutionIndex := none, EcologicalStatus := none,
    DescriptionKZ := none, DescriptionRU := none, DescriptionEN := none,
    HistoricalNotes := none, Status := "", RejectionReason := none,
    CreatedBy := 0, UpdatedBy := none, ReviewedBy := none,
    CreatedAt := 0, UpdatedAt := 0, PublishedAt := none }

/-- The fields both handlers copy from the request into the object they hand to the
repository: the names, the object type, the decoded geometry, the measurements, the
quality fields and the descriptions. -/
def requestObject (req : CreateWaterObjectRequest) (objType : ObjectType)
    (geom : Geometry) : WaterObject :=
  { zeroWaterObject with
    NameKZ := req.NameKZ, NameRU := req.NameRU, NameEN := req.NameEN,
    ObjectType := objType, Geometry := geom,
    LengthKm := req.LengthKm, AreaKm2 := req.AreaKm2, MaxDepthM := req.MaxDepthM,
    AvgDepthM := req.AvgDepthM, WaterVolumeKm3 := req.WaterVolumeKm3,
    BasinAreaKm2 := req.BasinAreaKm2, AvgDischargeM3s := req.AvgDischargeM3s,
    SalinityLevel := req.SalinityLevel, PollutionIndex := req.PollutionIndex,
    EcologicalStatus := req.EcologicalStatus,
    DescriptionKZ := req.DescriptionKZ, DescriptionRU := req.DescriptionRU,
    DescriptionEN := req.DescriptionEN }

/-- Method `WaterObjectHandler.Create`: bind the body, check the object type, validate
the geometry, decode it into an `entity.Geometry`, build the object with `CreatedBy` the
caller, call the repository.  `userID` is `c.GetInt64("user_id")`. -/
def WaterObjectHandler.Create (codec : Codec) (f : Fault) (dbID : Int)
    (dbCanonicalID : UUID) (now : Time) (s : Table)
    (body : Option CreateWaterObjectRequest) (userID : Int) : Table × Response :=
  match ShouldBindJSON body with
  | .error _ => (s, ⟨400, "validation_error", none⟩)
  | .ok req =>
    let objType : ObjectType := req.ObjectType
    if !ObjectType.IsValid objType then (s, ⟨400, "validation_error", none⟩)
    else
      match Validate codec.UnmarshalGeometry req.Geometry objType with
      | .error _ => (s, ⟨400, "geometry_error", none⟩)
      | .ok _ =>
        match codec.Unmarshal req.Geometry with
        | .error _ => (s, ⟨400, "geometry_parse_error", none⟩)
        | .ok geom =>
          let obj := { requestObject req objType geom with CreatedBy := userID }
          match WaterMap.Create f dbID dbCanonicalID now s obj with
          | (s2, .error _) => (s2, ⟨500, "create_failed", none⟩)
          | (s2, .ok result) => (s2, ⟨201, "draft created", some result⟩)

/-- Method `WaterObjectHandler.Update`: parse the id (`idParam` is the outcome of
`strconv.ParseInt`), bind the body, validate the geometry against the object type of
the request, decode it, build the object with `ID` the path id and `UpdatedBy` the
caller, call the repository. -/
def WaterObjectHandler.Update (codec : Codec) (f : Fault) (now : Time) (s : Table)
    (idParam : Option Int) (body : Option CreateWaterObjectRequest) (userID : Int) :
    Table × Response :=
  match idParam with
  | none => (s, ⟨400, "invalid_id", none⟩)
  | some id =>
    match ShouldBindJSON body with
    | .error _ => (s, ⟨400, "validation_error", none⟩)
    | .ok req =>
      let objType : ObjectType := req.ObjectType
      match Validate codec.UnmarshalGeometry req.Geometry objType with
      | .error _ => (s, ⟨400, "geometry_error", none⟩)
      | .ok _ =>
        match codec.Unmarshal req.Geometry with
        | .error _ => (s, ⟨400, "geometry_parse_error", none⟩)
        | .ok geom =>
          let obj :=
            { requestObject req objType geom with ID := id, UpdatedBy := some userID }
          match WaterMap.Update f now s obj with
          | (s2, .error .ErrNotFound) => (s2, ⟨404, "not_found", none⟩)
          | (s2, .error _) => (s2, ⟨500, "update_failed", none⟩)
          | (s2, .ok result) => (s2, ⟨200, "draft updated", some result⟩)

/-- Method `AdminHandler.Reject`: parse the id, bind the body, call the repository
with the caller as reviewer. -/
def AdminHandler.Reject (f : Fault) (now : Time) (s : Table) (idParam : Option Int)
    (body : Option RejectRequest) (reviewerID : Int) : Table × Response :=
  match idParam with
  | none => (s, ⟨400, "invalid_id", none⟩)
  | some id =>
    match ShouldBindRejectJSON body with
    | .error _ => (s, ⟨400, "validation_error", none⟩)
    | .ok req =>
      match WaterMap.Reject f now s id reviewerID req.Reason with
      | (s2, .error .ErrNotFound) => (s2, ⟨404, "not_found", none⟩)
      | (s2, .error _) => (s2, ⟨500, "reject_failed", none⟩)
      | (s2, .ok _) => (s2, ⟨200, "object rejected", none⟩)

/-- One request on the create or the update path, with everything the environment
contributes to it. -/
inductive Request where
  | create (f : Fault) (dbID : Int) (dbCanonicalID : UUID) (now : Time)
      (body : Option CreateWaterObjectRequest) (userID : Int)
  | update (f : Fault) (now : Time) (idParam : Option Int)
      (body : Option CreateWaterObjectRequest) (userID : Int)

/-- The table after the request has been handled. -/
def Request.run (codec : Codec) : Request → Table → Table
  | .create f dbID dbCanonicalID now body userID, s =>
    (WaterObjectHandler.Create codec f dbID dbCanonicalID now s body userID).1
  | .update f now idParam body userID, s =>
    (WaterObjectHandler.Update codec f now s idParam body userID).1

/-- The table after a sequence of requests, handled in order. -/
def runRequests (codec : Codec) (reqs : List Request) (s : Table) : Table :=
  reqs.foldl (fun st r => r.run codec st) s

/-! ## The list queries and the shared row scanner -/

/-- The destinations of `rows.Scan` in `scanWaterObjects`, in order; the geometry goes
through the local `geometryJSON`. -/
def scanWaterObjectsDests : List String :=
  ["ID", "CanonicalID", "Version", "NameKZ", "NameRU", "NameEN", "ObjectType",
    "geometryJSON", "LengthKm", "AreaKm2", "MaxDepthM", "AvgDepthM", "WaterVolumeKm3",
    "BasinAreaKm2", "AvgDischargeM3s", "SalinityLevel", "PollutionIndex",
    "EcologicalStatus", "DescriptionKZ", "DescriptionRU", "DescriptionEN", "Status",
    "CreatedBy", "CreatedAt", "UpdatedAt"]

/-- The `SELECT` list of `GetPublished`. -/
def getPublishedColumns : List String :=
  ["id", "canonical_id", "version", "name_kz", "name_ru", "name_en", "object_type",
    "geometry", "length_km", "area_km2", "max_depth_m", "avg_depth_m",
    "water_volume_km3", "basin_area_km2", "avg_discharge_m3s", "salinity_level",
    "pollution_index", "ecological_status", "description_kz", "description_ru",
    "description_en", "status", "created_by", "created_at", "published_at"]

/-- The `SELECT` list of `GetVersionHistory`. -/
def getVersionHistoryColumns : List String :=
  ["id", "canonical_id", "version", "name_kz", "name_ru", "name_en", "object_type",
    "geometry", "length_km", "area_km2", "max_depth_m", "avg_depth_m",
    "water_volume_km3", "basin_area_km2", "avg_discharge_m3s", "salinity_level",
    "pollution_index", "ecological_status", "description_kz", "description_ru",
    "description_en", "status", "created_by", "created_at", "published_at"]

/-- The `SELECT` list of `GetDraftsByUser`. -/
def getDraftsByUserColumns : List String :=
  ["id", "canonical_id", "version", "name_kz", "name_ru", "name_en", "object_type",
    "geometry", "length_km", "area_km2", "max_depth_m", "avg_depth_m",
    "water_volume_km3", "basin_area_km2", "avg_discharge_m3s", "salinity_level",
    "pollution_index", "ecological_status", "description_kz", "description_ru",
    "description_en", "status", "rejection_reason", "created_by", "created_at",
    "updated_at"]

/-- The `SELECT` list of `GetPending` (each column under the alias `wo`). -/
def getPendingColumns : List String :=
  ["id", "canonical_id", "version", "name_kz", "name_ru", "name_en", "object_type",
    "geometry", "length_km", "area_km2", "max_depth_m", "avg_depth_m",
    "water_volume_km3", "basin_area_km2", "avg_discharge_m3s", "salinity_level",
    "pollution_index", "ecological_status", "description_kz", "description_ru",
    "description_en", "status", "created_by", "created_at", "updated_at"]

/-- A value in a row of a query result: SQL `NULL`, an integer, a text, a number, the
text of a `jsonb` value, a timestamp. -/
inductive Cell where
  | null
  | int (v : Int)
  | text (v : String)
  | float (v : Rat)
  | jsonb (v : List UInt8)
  | timestamp (v : Time)
deriving DecidableEq, Repr

/-- The cell of a nullable column: `NULL` when the value is absent. -/
def Cell.ofOption {α : Type} (f : α → Cell) : Option α → Cell
  | none => .null
  | some v => f v

/-- The value of the named column in a row of the table; `none` for a name that is not a
column of the table. -/
def columnValue (codec : Codec) (r : WaterObject) (column : String) : Option Cell :=
  if column = "id" then some (.int r.ID)
  else if column = "canonical_id" then some (.text r.CanonicalID)
  else if column = "version" then some (.int r.Version)
  else if column = "name_kz" then some (.text r.NameKZ)
  else if column = "name_ru" then some (Cell.ofOption .text r.NameRU)
  else if column = "name_en" then some (Cell.ofOption .text r.NameEN)
  else if column = "object_type" then some (.text r.ObjectType)
  else if column = "geometry" then (geometryColumn codec r.Geometry).map .jsonb
  else if column = "length_km" then some (Cell.ofOption .float r.LengthKm)
  else if column = "area_km2" then some (Cell.ofOption .float r.AreaKm2)
  else if column = "max_depth_m" then some (Cell.ofOption .float r.MaxDepthM)
  else if column = "avg_depth_m" then some (Cell.ofOption .float r.AvgDepthM)
  else if column = "water_volume_km3" then some (Cell.ofOption .float r.WaterVolumeKm3)
  else if column = "basin_area_km2" then some (Cell.ofOption .float r.BasinAreaKm2)
  else if column = "avg_discharge_m3s" then some (Cell.ofOption .float r.AvgDischargeM3s)
  else if column = "salinity_level" then some (Cell.ofOption .text r.SalinityLevel)
  else if column = "pollution_index" then some (Cell.ofOption .float r.PollutionIndex)
  else if column = "ecological_status" then some (Cell.ofOption .text r.EcologicalStatus)
  else if column = "description_kz" then some (Cell.ofOption .text r.DescriptionKZ)
  else if column = "description_ru" then some (Cell.ofOption .text r.DescriptionRU)
  else if column = "description_en" then some (Cell.ofOption .text r.DescriptionEN)
  else if column = "historical_notes" then some (Cell.ofOption .text r.HistoricalNotes)
  else if column = "status" then some (.text r.Status)
  else if column = "rejection_reason" then some (Cell.ofOption .text r.RejectionReason)
  else if column = "created_by" then some (.int r.CreatedBy)
  else if column = "updated_by" then some (Cell.ofOption .int r.UpdatedBy)
  else if column = "reviewed_by" then some (Cell.ofOption .int r.ReviewedBy)
  else if column = "created_at" then some (.timestamp r.CreatedAt)
  else if column = "updated_at" then some (.timestamp r.UpdatedAt)
  else if column = "published_at" then some (Cell.ofOption .timestamp r.PublishedAt)
  else none

/-- Scan of a cell into an integer field (`*int64`, `*int`): `NULL` and every other kind
of value are refused. -/
def scanInt (c : Cell) : Option Int :=
  match c with
  | .int v => some v
  | _ => none

/-- Scan of a cell into a string field (`*string`, `*uuid.UUID`, `*ObjectType`,
`*ObjectStatus`). -/
def scanText (c : Cell) : Option String :=
  match c with
  | .text v => some v
  | _ => none

/-- Scan of a cell into a nullable string field (`**string`): `NULL` gives nil. -/
def scanOptText (c : Cell) : Option (Option String) :=
  match c with
  | .null => some none
  | .text v => some (some v)
  | _ => none

/-- Scan of a cell into a nullable number field (`**float64`): `NULL` gives nil. -/
def scanOptFloat (c : Cell) : Option (Option Rat) :=
  match c with
  | .null => some none
  | .float v => some (some v)
  | _ => none

/-- Scan of a cell into a `*time.Time` field: `NULL` is refused. -/
def scanTime (c : Cell) : Option Time :=
  match c with
  | .timestamp v => some v
  | _ => none

/-- Scan of a cell into the local `geometryJSON []byte`: `NULL` gives the nil slice. -/
def scanBytes (c : Cell) : Option (List UInt8) :=
  match c with
  | .null => some []
  | .jsonb v => some v
  | _ => none

/-- One destination of `rows.Scan` in `scanWaterObjects` receiving one cell: the object
and the local `geometryJSON` after it, or `none` when the driver refuses the cell for the
type of the destination. -/
def scanInto (dest : String) (c : Cell) (obj : WaterObject) (geometryJSON : List UInt8) :
    Option (WaterObject × List UInt8) :=
  if dest = "ID" then (scanInt c).map fun v => ({ obj with ID := v }, geometryJSON)
  else if dest = "CanonicalID" then
    (scanText c).map fun v => ({ obj with CanonicalID := v }, geometryJSON)
  else if dest = "Version" then
    (scanInt c).map fun v => ({ obj with Version := v }, geometryJSON)
  else if dest = "NameKZ" then
    (scanText c).map fun v => ({ obj with NameKZ := v }, geometryJSON)
  else if dest = "NameRU" then
    (scanOptText c).map fun v => ({ obj with NameRU := v }, geometryJSON)
  else if dest = "NameEN" then
    (scanOptText c).map fun v => ({ obj with NameEN := v }, geometryJSON)
  else if dest = "ObjectType" then
    (scanText c).map fun v => ({ obj with ObjectType := v }, geometryJSON)
  else if dest = "geometryJSON" then (scanBytes c).map fun v => (obj, v)
  else if dest = "LengthKm" then
    (scanOptFloat c).map fun v => ({ obj with LengthKm := v }, geometryJSON)
  else if dest = "AreaKm2" then
    (scanOptFloat c).map fun v => ({ obj with AreaKm2 := v }, geometryJSON)
  else if dest = "MaxDepthM" then
    (scanOptFloat c).map fun v => ({ obj with MaxDepthM := v }, geometryJSON)
  else if dest = "AvgDepthM" then
    (scanOptFloat c).map fun v => ({ obj with AvgDepthM := v }, geometryJSON)
  else if dest = "WaterVolumeKm3" then
    (scanOptFloat c).map fun v => ({ obj with WaterVolumeKm3 := v }, geometryJSON)
  else if dest = "BasinAreaKm2" then
    (scanOptFloat c).map fun v => ({ obj with BasinAreaKm2 := v }, geometryJSON)
  else if dest = "AvgDischargeM3s" then
    (scanOptFloat c).map fun v => ({ obj with AvgDischargeM3s := v }, geometryJSON)
  else if dest = "SalinityLevel" then
    (scanOptText c).map fun v => ({ obj with SalinityLevel := v }, geometryJSON)
  else if dest = "PollutionIndex" then
    (scanOptFloat c).map fun v => ({ obj with PollutionIndex := v }, geometryJSON)
  else if dest = "EcologicalStatus" then
    (scanOptText c).map fun v => ({ obj with EcologicalStatus := v }, geometryJSON)
  else if dest = "DescriptionKZ" then
    (scanOptText c).map fun v => ({ obj with DescriptionKZ := v }, geometryJSON)
  else if dest = "DescriptionRU" then
    (scanOptText c).map fun v => ({ obj with DescriptionRU := v }, geometryJSON)
  else if dest = "DescriptionEN" then
    (scanOptText c).map fun v => ({ obj with DescriptionEN := v }, geometryJSON)
  else if dest = "Status" then
    (scanText c).map fun v => ({ obj with Status := v }, geometryJSON)
  else if dest = "CreatedBy" then
    (scanInt c).map fun v => ({ obj with CreatedBy := v }, geometryJSON)
  else if dest = "CreatedAt" then
    (scanTime c).map fun v => ({ obj with CreatedAt := v }, geometryJSON)
  else if dest = "UpdatedAt" then
    (scanTime c).map fun v => ({ obj with UpdatedAt := v }, geometryJSON)
  else none

/-- The destinations filled in order, each from the cell at its position. -/
def scanCells : List String → List Cell → WaterObject × List UInt8 →
    Option (WaterObject × List UInt8)
  | dest :: dests, c :: cells, t => (scanInto dest c t.1 t.2).bind (scanCells dests cells)
  | _, _, t => some t

/-- One pass of the loop of `scanWaterObjects` on a row of the result of a query with the
given `SELECT` list.  `rows.Scan` refuses a row whose number of columns is not the
number of destinations; otherwise it fills the destinations by position, into
`obj := &entity.WaterObject{}` and the local `geometryJSON`, and refuses a cell that
does not fit its destination (a `NULL` for a `time.Time`, for one).  Then
`json.Unmarshal` decodes `geometryJSON` into the geometry of the object. -/
def scanRow (codec : Codec) (columns : List String) (r : WaterObject) :
    Except RepoError WaterObject :=
  if columns.length ≠ scanWaterObjectsDests.length then .error (.storage "scan row")
  else
    match columns.mapM (columnValue codec r) with
    | none => .error (.storage "scan row")
    | some cells =>
      match scanCells scanWaterObjectsDests cells (zeroWaterObject, []) with
      | none => .error (.storage "scan row")
      | some (obj, geometryJSON) =>
        match codec.Unmarshal geometryJSON with
        | .error _ => .error (.storage "unmarshal geometry")
        | .ok geom => .ok { obj with Geometry := geom }

/-- Method `scanWaterObjects`: scan the rows one after the other; the first scan that
fails ends the loop with its error. -/
def scanWaterObjects (codec : Codec) (columns : List String) :
    List WaterObject → Except RepoError (List WaterObject)
  | [] => .ok []
  | r :: rest =>
    match scanRow codec columns r with
    | .error e => .error e
    | .ok obj =>
      match scanWaterObjects codec columns rest with
      | .error e => .error e
      | .ok objs => .ok (obj :: objs)

/-- The `WHERE` clause of `GetDraftsByUser`:
`created_by = $1 AND status IN ('draft', 'pending', 'rejected')`. -/
def draftsWhere (userID : Int) (r : WaterObject) : Bool :=
  r.CreatedBy == userID &&
    (r.Status == StatusDraft || r.Status == StatusPending || r.Status == StatusRejected)

/-- Method `GetDraftsByUser`: the rows of the user in an editing status,
`ORDER BY updated_at DESC`, handed to `scanWaterObjects`. -/
def GetDraftsByUser (codec : Codec) (f : Fault) (s : Table) (userID : Int) :
    Except RepoError (List WaterObject) :=
  if f = .query then .error (.storage "query user drafts")
  else
    scanWaterObjects codec getDraftsByUserColumns
      ((s.filter (draftsWhere userID)).insertionSort (fun a b => a.UpdatedAt ≥ b.UpdatedAt))

/-! ## The change log (internal/domain/entity/user.go, interfaces.go) -/

/-- Go `type ChangeAction string` with its six constants. -/
abbrev ChangeAction := String

def ActionCreate : ChangeAction := "create"
def ActionUpdate : ChangeAction := "update"
def ActionSubmit : ChangeAction := "submit"
def ActionApprove : ChangeAction := "approve"
def ActionReject : ChangeAction := "reject"
def ActionArchive : ChangeAction := "archive"

/-- Struct `entity.ChangeLog`; `ChangedFields` is a list of field names with their
values. -/
structure ChangeLog where
  ID : Int
  WaterObjectID : Int
  CanonicalID : UUID
  Action : ChangeAction
  ChangedFields : List (String × String)
  ReviewerNotes : Option String
  PerformedBy : Int
  PerformedAt : Time
deriving DecidableEq, Repr

/-- The database as the lifecycle sees it: the table `water_objects` and the audit
entries behind the interface `ChangeLogRepository`. -/
structure Database where
  waterObjects : Table
  changeLog : List ChangeLog
deriving DecidableEq, Repr

/-- One repository call on the database.  Every statement of
`postgres/water_object.go` names the table `water_objects` and no other;
`ChangeLogRepository` is declared in `interfaces.go`, has no implementation, and is
constructed and called nowhere (`cmd/server/main.go` wires the user and the water-object
repositories only).  So a call rewrites `waterObjects` and nothing else. -/
def Op.exec (op : Op) (db : Database) : Database :=
  { db with waterObjects := op.run db.waterObjects }

/-- Whether the call succeeded: the error value the method returns is nil. -/
def Op.succeeds : Op → Table → Bool
  | .create f dbID dbCanonicalID now obj, s =>
    match (Create f dbID dbCanonicalID now s obj).2 with
    | .ok _ => true
    | .error _ => false
  | .update f now obj, s =>
    match (Update f now s obj).2 with
    | .ok _ => true
    | .error _ => false
  | .submit f now id userID, s =>
    match (SubmitForReview f now s id userID).2 with
    | .ok _ => true
    | .error _ => false
  | .approve f now id reviewerID, s =>
    match (Approve f now s id reviewerID).2 with
    | .ok _ => true
    | .error _ => false
  | .reject f now id reviewerID reason, s =>
    match (Reject f now s id reviewerID reason).2 with
    | .ok _ => true
    | .error _ => false
  | .delete f id userID, s =>
    match (Delete f s id userID).2 with
    | .ok _ => true
    | .error _ => false

/-- The database after a sequence of repository calls, run in order. -/
def execOps (ops : List Op) (db : Database) : Database :=
  ops.foldl (fun st op => op.exec st) db

/-- The number of calls of the sequence that succeed, each run on the table the calls
before it left. -/
def countSucceeded : List Op → Table → Nat
  | [], _ => 0
  | op :: rest, s => (if op.succeeds s then 1 else 0) + countSucceeded rest (op.run s)

/-- The last step of `Validate` on its own: the two type switches on `orb.Polygon` and
`orb.MultiPolygon`, true when the step returns `ErrSelfIntersecting`. -/
def topologyCheck : OrbGeometry → Bool
  | .Polygon poly => isSelfIntersecting poly
  | .MultiPolygon mpoly => mpoly.any isSelfIntersecting
  | _ => false

/-! ## The properties the specification names, in its own words -/

/-- Spec, regional bounds: the fixed longitude/latitude rectangle, minimum
46.49 / 40.57 and maximum 87.36 / 55.44 in (lon, lat) order, boundaries included. -/
def InRegion (p : Point) : Prop :=
  46.49 ≤ p.1 ∧ p.1 ≤ 87.36 ∧ 40.57 ≤ p.2 ∧ p.2 ≤ 55.44

instance (p : Point) : Decidable (InRegion p) := by
  unfold InRegion
  infer_instance

/-- The permitted-shapes set of an object type: its entry in the static table, empty
for a type the table does not know. -/
def permittedShapes (objType : ObjectType) : List String :=
  (AllowedGeometryTypes objType).getD []

/-- Orientation determinant of the triple (a, b, c): its sign tells on which side of
the directed line ab the point c lies. -/
def orient (a b c : Point) : Rat :=
  (b.1 - a.1) * (c.2 - a.2) - (b.2 - a.2) * (c.1 - a.1)

/-- Spec, self-intersection: edges AB and CD cross properly when C and D lie on
strictly opposite sides of line AB and A and B lie on strictly opposite sides of
line CD. -/
def ProperlyCross (a b c d : Point) : Prop :=
  orient a b c * orient a b d < 0 ∧ orient c d a * orient c d b < 0

/-- Spec, self-intersection: no two non-adjacent edges of the ring cross.  Edge `k` runs
from point `k` to point `k+1`; edges `i` and `j` with `j ≥ i+2` are non-adjacent unless
they are the first and the last edge, which share the closing vertex. -/
def SimpleRing (ring : Ring) : Prop :=
  ∀ i j : Nat, i + 2 ≤ j → j + 1 < ring.length → ¬ (i = 0 ∧ j + 2 = ring.length) →
    ¬ ProperlyCross (ringAt ring i) (ringAt ring (i + 1)) (ringAt ring j)
      (ringAt ring (j + 1))

/-- The exterior ring of the polygon, when it has one, is simple. -/
def ExteriorSimple (poly : Polygon) : Prop :=
  ∀ ring, poly.head? = some ring → SimpleRing ring

/-- The self-intersection requirement the spec places on a geometry: on a Polygon and
on each member of a MultiPolygon, none on the other shapes. -/
def NoSelfCrossing : OrbGeometry → Prop
  | .Polygon poly => ExteriorSimple poly
  | .MultiPolygon mpoly => ∀ poly ∈ mpoly, ExteriorSimple poly
  | _ => True

instance (a b c d : Point) : Decidable (ProperlyCross a b c d) := by
  unfold ProperlyCross
  infer_instance

/-- The same requirement on a ring with the crossing test the program computes, in
`float64`: no two non-adjacent edges of the ring are reported as crossing by
`segmentsIntersect`. -/
def RingPasses (ring : Ring) : Prop :=
  ∀ i j : Nat, i + 2 ≤ j → j + 1 < ring.length → ¬ (i = 0 ∧ j + 2 = ring.length) →
    segmentsIntersect (ringAt ring i) (ringAt ring (i + 1)) (ringAt ring j)
      (ringAt ring (j + 1)) = false

/-- The exterior ring of the polygon, when it has one, passes the computed test. -/
def ExteriorPasses (poly : Polygon) : Prop :=
  ∀ ring, poly.head? = some ring → RingPasses ring

/-- No exterior ring of the geometry has a pair of non-adjacent edges that the computed
test reports as crossing: on a Polygon and on each member of a MultiPolygon, none on the
other shapes. -/
def NoReportedCrossing : OrbGeometry → Prop
  | .Polygon poly => ExteriorPasses poly
  | .MultiPolygon mpoly => ∀ poly ∈ mpoly, ExteriorPasses poly
  | _ => True

/-- The computed center lies in the region rectangle: per axis the `float64` constant of
the lower limit is `<=` the coordinate and the coordinate is `<=` the constant of the
upper limit (an infinite or NaN coordinate satisfies neither). -/
def ComputedInRegion (p : Float64 × Float64) : Prop :=
  Float64.le (.fin (roundFinite 46.49)) p.1 = true ∧
    Float64.le p.1 (.fin (roundFinite 87.36)) = true ∧
    Float64.le (.fin (roundFinite 40.57)) p.2 = true ∧
    Float64.le p.2 (.fin (roundFinite 55.44)) = true

instance (p : Float64 × Float64) : Decidable (ComputedInRegion p) := by
  unfold ComputedInRegion
  infer_instance

/-- Spec invariant: no two records with the same `canonical_id` are both Published.
Records are told apart by their id. -/
def AtMostOnePublished (s : Table) : Prop :=
  ∀ r1 ∈ s, ∀ r2 ∈ s, r1.Status = StatusPublished → r2.Status = StatusPublished →
    r1.CanonicalID = r2.CanonicalID → r1.ID = r2.ID

instance (s : Table) : Decidable (AtMostOnePublished s) := by
  unfold AtMostOnePublished
  infer_instance

/-- A row with the given id, canonical id, status and author, at version 1, with a
name and a point geometry and every optional column null. -/
def sampleRow (id : Int) (canonicalID : UUID) (status : ObjectStatus) (createdBy : Int) :
    WaterObject :=
  { ID := id, CanonicalID := canonicalID, Version := 1, NameKZ := "Balkhash",
    NameRU := none, NameEN := none, ObjectType := ObjectTypeSpring,
    Geometry := ⟨"Point", "[74.0,46.0]"⟩,
    LengthKm := none, AreaKm2 := none, MaxDepthM := none, AvgDepthM := none,
    WaterVolumeKm3 := none, BasinAreaKm2 := none, AvgDischargeM3s := none,
    SalinityLevel := none, PollutionIndex := none, EcologicalStatus := none,
    DescriptionKZ := none, DescriptionRU := none, DescriptionEN := none,
    HistoricalNotes := none, Status := status, RejectionReason := none,
    CreatedBy := createdBy, UpdatedBy := none, ReviewedBy := none,
    CreatedAt := 0, UpdatedAt := 0, PublishedAt := none }

/-- The object the update handler builds for the repository: the id from the path, the
attributes from the request body, `UpdatedBy` the caller, every other field at its Go
zero value. -/
def sampleRequest (id userID : Int) : WaterObject :=
  { sampleRow id "" "" 0 with
    Version := 0, NameKZ := "Alakol", Geometry := ⟨"Point", "[81.5,46.1]"⟩,
    UpdatedBy := some userID }

/-- A table with a published and a pending row of canonical id "A" and a published row
of canonical id "B". -/
def sampleTable : Table :=
  [sampleRow 1 "A" StatusPublished 7, sampleRow 2 "A" StatusPending 7,
    sampleRow 3 "B" StatusPublished 8]

/-- Spec invariant, as written: `rejection_reason` is set if and only if the status is
Rejected. -/
def RejectionReasonIff (s : Table) : Prop :=
  ∀ r ∈ s, (r.RejectionReason ≠ none ↔ r.Status = StatusRejected)

/-- One half of that invariant: a Rejected record has its `rejection_reason` set. -/
def RejectedHasReason (s : Table) : Prop :=
  ∀ r ∈ s, r.Status = StatusRejected → r.RejectionReason ≠ none

instance (s : Table) : Decidable (RejectionReasonIff s) := by
  unfold RejectionReasonIff
  infer_instance

instance (s : Table) : Decidable (RejectedHasReason s) := by
  unfold RejectedHasReason
  infer_instance

/-- A record is created by user 7, submitted, and rejected by reviewer 42. -/
def rejectedOnce : List Op :=
  [.create .none 1 "A" 10 (sampleRow 0 "" "" 7), .submit .none 11 1 7,
    .reject .none 12 1 42 "wrong basin"]

/-- The same, and then the author submits the rejected record again. -/
def resubmitted : List Op := rejectedOnce ++ [.submit .none 13 1 7]

/-- A rejected record: row 1 of user 7, rejected by reviewer 42 with a reason. -/
def rejectedRow : WaterObject :=
  { sampleRow 1 "A" StatusRejected 7 with
    RejectionReason := some "wrong basin", ReviewedBy := some 42 }

/-- Spec invariant: the stored geometry of every record passes the validator against
the stored object type of that same record. -/
def StoredGeometryValid (codec : Codec) (s : Table) : Prop :=
  ∀ r ∈ s,
    ValidateFromEntity codec.UnmarshalGeometry codec.Marshal r.Geometry r.ObjectType =
      .ok ()

/-- A request body with the given name, object type and raw geometry and no optional
field. -/
def sampleBody (name objType : String) (geometry : List UInt8) :
    CreateWaterObjectRequest :=
  { NameKZ := name, NameRU := none, NameEN := none, ObjectType := objType,
    Geometry := geometry,
    LengthKm := none, AreaKm2 := none, MaxDepthM := none, AvgDepthM := none,
    WaterVolumeKm3 := none, BasinAreaKm2 := none, AvgDischargeM3s := none,
    SalinityLevel := none, PollutionIndex := none, EcologicalStatus := none,
    DescriptionKZ := none, DescriptionRU := none, DescriptionEN := none }

/-- The bowtie ring of the specification's example. -/
def bowtie : Ring := [(0, 0), (1, 1), (1, 0), (0, 1), (0, 0)]

/-- The same bowtie moved inside the region rectangle. -/
def bowtieInRegion : Ring := [(60, 45), (61, 46), (61, 45), (60, 46), (60, 45)]

/-- A square ring around the origin. -/
def originSquare : Ring := [(-1, -1), (1, -1), (1, 1), (-1, 1), (-1, -1)]

/-- A square ring inside the region rectangle. -/
def regionSquare : Ring := [(60, 45), (61, 45), (61, 46), (60, 46), (60, 45)]

/-- A decoder that yields the given geometry for every input, for evaluating `Validate`
on a chosen decoded geometry. -/
def decodesTo (g : OrbGeometry) : List UInt8 → Except String (Option OrbGeometry) :=
  fun _ => .ok (some g)

/-- A closed ring of four corners whose third corner lies next to the first edge: the
`float64` values of (16.3, 5.6), (120.4, 78.8), (66.6, 40.96945244956772), (43, 56) and
the first corner again. -/
def nearTouchRing : Ring :=
  [(roundFinite 16.3, roundFinite 5.6), (roundFinite 120.4, roundFinite 78.8),
    (roundFinite 66.6, roundFinite 40.96945244956772), (43, 56),
    (roundFinite 16.3, roundFinite 5.6)]

/-- A line from longitude 10.000000000000009 to longitude 82.97999999999999 (their
`float64` values) at latitude 45. -/
def boundaryLine : List Point :=
  [(roundFinite 10.000000000000009, 45), (roundFinite 82.97999999999999, 45)]

/-- A bowtie ring between the same two longitudes, latitudes 45 and 46. -/
def boundaryBowtie : Ring :=
  [(roundFinite 10.000000000000009, 45), (roundFinite 82.97999999999999, 46),
    (roundFinite 82.97999999999999, 45), (roundFinite 10.000000000000009, 46),
    (roundFinite 10.000000000000009, 45)]

/-- The entity form of a point document. -/
def pointGeometry : Geometry := ⟨"Point", "[74,46]"⟩

/-- The entity form of a polygon document. -/
def squareGeometry : Geometry :=
  ⟨"Polygon", "[[[60,45],[61,45],[61,46],[60,46],[60,45]]]"⟩

/-- The entity form of the point document as the database prints it: the coordinates
with a blank after the comma. -/
def pointGeometryStored : Geometry := ⟨"Point", "[74, 46]"⟩

/-- The entity form of the polygon document as the database prints it. -/
def squareGeometryStored : Geometry :=
  ⟨"Polygon", "[[[60, 45], [61, 45], [61, 46], [60, 46], [60, 45]]]"⟩

/-- JSON functions on two documents, for evaluating the handlers and the repository: the
bytes `[1]` stand for the compact GeoJSON text of the Point (74, 46), which is what
`json.Marshal` writes, the bytes `[2]` for that of the Polygon with the single ring
`regionSquare`; the bytes `[3]` and `[4]` stand for the same two documents as the
database prints a `jsonb` value, a blank after every comma and colon; every other input
is refused. -/
def sampleCodec : Codec :=
  { UnmarshalGeometry := fun b =>
      if b = [1] ∨ b = [3] then .ok (some (.Point (74, 46)))
      else if b = [2] ∨ b = [4] then .ok (some (.Polygon [regionSquare]))
      else .error "invalid geojson"
    Unmarshal := fun b =>
      if b = [1] then .ok pointGeometry
      else if b = [2] then .ok squareGeometry
      else if b = [3] then .ok pointGeometryStored
      else if b = [4] then .ok squareGeometryStored
      else .error "invalid json"
    Marshal := fun g =>
      if g = pointGeometry ∨ g = pointGeometryStored then .ok [1]
      else if g = squareGeometry ∨ g = squareGeometryStored then .ok [2]
      else .error "unsupported value"
    Jsonb := fun b => if b = [1] then [3] else if b = [2] then [4] else b }

/-- The row the first of `mismatchRequests` inserts: a spring with a point geometry. -/
def springRow : WaterObject :=
  insertedRow 1 "A" 10
    { requestObject (sampleBody "Bulak" "spring" [1]) "spring" pointGeometry with
      CreatedBy := 7 }

/-- That row after the second of `mismatchRequests`: still a spring, now with the
polygon. -/
def springRowUpdated : WaterObject :=
  updateSet
    { requestObject (sampleBody "Bulak" "lake" [2]) "lake" squareGeometry with
      ID := 1, UpdatedBy := some 7 }
    20 springRow

/-- A spring is created with a point geometry, then updated with a request that names
the object type lake and carries a polygon. -/
def mismatchRequests : List Request :=
  [.create .none 1 "A" 10 (some (sampleBody "Bulak" "spring" [1])) 7,
    .update .none 20 (some 1) (some (sampleBody "Bulak" "lake" [2])) 7]

/-- The variant of `isSelfIntersecting` that does not skip the pair of the first and the
last edge: the same two loops, every pair `i`, `j ≥ i+2` tested. -/
def isSelfIntersectingNoSkip (poly : Polygon) : Bool :=
  match poly with
  | [] => false
  | ring :: _ =>
    if ring.length < 4 then false
    else
      let n := ring.length
      (List.range (n - 1)).any fun i =>
        (List.range' (i + 2) (n - 1 - (i + 2))).any fun j =>
          segmentsIntersect (ringAt ring i) (ringAt ring (i + 1))
            (ringAt ring j) (ringAt ring (j + 1))

/-- A ring is closed: it has a first point, and its first point equals its last. -/
def Ring.Closed (ring : Ring) : Prop :=
  ring ≠ [] ∧ ringAt ring 0 = ringAt ring (ring.length - 1)

/-- Spec invariant on rings: at least 4 points and closed. -/
def Ring.WellFormed (ring : Ring) : Prop := 4 ≤ ring.length ∧ ring.Closed

/-- Cross product of two plane vectors. -/
def cross (p q : Point) : Rat := p.1 * q.2 - p.2 * q.1

/-- The open 4-point ring of the example: the bowtie without its closing point. -/
def openBowtie : Ring := [(0, 0), (1, 1), (1, 0), (0, 1)]

/-- The same four points inside the region rectangle. -/
def openBowtieInRegion : Ring := [(60, 45), (61, 46), (61, 45), (60, 46)]

/-- Three points inside the region rectangle, not closed. -/
def threePoints : Ring := [(60, 45), (61, 45), (61, 46)]

/-- No two records share a canonical id. -/
def CanonicalUnique (s : Table) : Prop := (s.map (fun r => r.CanonicalID)).Nodup

/-- No record is Archived. -/
def NoArchived (s : Table) : Prop := ∀ r ∈ s, r.Status ≠ StatusArchived

instance (s : Table) : Decidable (CanonicalUnique s) := by
  unfold CanonicalUnique
  infer_instance

instance (s : Table) : Decidable (NoArchived s) := by
  unfold NoArchived
  infer_instance

/-- A record is created by user 7, submitted, and approved by reviewer 42. -/
def approvedOnce : List Op :=
  [.create .none 1 "A" 10 (sampleRow 0 "" "" 7), .submit .none 11 1 7,
    .approve .none 12 1 42]

/-! ## Validator: lemmas -/

theorem directionExact_eq_neg_orient (a b c : Point) :
    directionExact a b c = - orient a b c := by
  unfold directionExact orient
  ring

theorem opposite_signs_iff (x y : Rat) :
    ((x > 0 ∧ y < 0) ∨ (x < 0 ∧ y > 0)) ↔ x * y < 0 := by
  rw [mul_neg_iff]

theorem segmentsIntersectExact_iff (a b c d : Point) :
    segmentsIntersectExact a b c d = true ↔ ProperlyCross a b c d := by
  unfold segmentsIntersectExact ProperlyCross
  simp only [Bool.and_eq_true, Bool.or_eq_true, decide_eq_true_eq]
  rw [opposite_signs_iff, opposite_signs_iff]
  simp only [directionExact_eq_neg_orient, neg_mul_neg]
  exact And.comm

/-- The `float64` result of an operation whose exact result is zero is zero. -/
theorem ofRat_zero : Float64.ofRat 0 = .fin 0 := by decide!

/-- A `float64` minus itself is zero, or NaN: neither above nor below zero. -/
theorem sub_self_sign (x : Float64) :
    Float64.lt .zero (Float64.sub x x) = false ∧ Float64.lt (Float64.sub x x) .zero = false := by
  cases x with
  | fin q =>
    have h : Float64.sub (.fin q) (.fin q) = .fin 0 := by
      show Float64.ofRat (q + -q) = .fin 0
      rw [add_neg_cancel, ofRat_zero]
    rw [h]
    exact ⟨by decide!, by decide!⟩
  | inf s => cases s <;> exact ⟨rfl, rfl⟩
  | nan => exact ⟨rfl, rfl⟩

/-- Where none of its seven operations rounds, `direction` computes the exact
determinant. -/
theorem direction_of_no_rounding (a b c : Point)
    (h1 : Float64.ofRat (c.1 - a.1) = .fin (c.1 - a.1))
    (h2 : Float64.ofRat (b.2 - a.2) = .fin (b.2 - a.2))
    (h3 : Float64.ofRat (b.1 - a.1) = .fin (b.1 - a.1))
    (h4 : Float64.ofRat (c.2 - a.2) = .fin (c.2 - a.2))
    (h5 : Float64.ofRat ((c.1 - a.1) * (b.2 - a.2)) = .fin ((c.1 - a.1) * (b.2 - a.2)))
    (h6 : Float64.ofRat ((b.1 - a.1) * (c.2 - a.2)) = .fin ((b.1 - a.1) * (c.2 - a.2)))
    (h7 : Float64.ofRat (directionExact a b c) = .fin (directionExact a b c)) :
    direction a b c = .fin (directionExact a b c) := by
  unfold directionExact at h7
  simp only [direction, directionExact, Float64.sub, Float64.neg, Float64.add, Float64.mul,
    ← sub_eq_add_neg, h1, h2, h3, h4, h5, h6, h7]

/-- The determinant of a triple whose third point is its second is zero or NaN. -/
theorem direction_last_sign (a b : Point) :
    Float64.lt .zero (direction a b b) = false ∧ Float64.lt (direction a b b) .zero = false :=
  sub_self_sign _

theorem isWithinBounds_iff (p : Float64 × Float64) :
    isWithinBounds p = true ↔ ComputedInRegion p := by
  unfold isWithinBounds ComputedInRegion kazakhstanBounds Float64.ge
  simp only [Bool.and_eq_true, and_assoc]

theorem isGeometryTypeValid_iff (tag : String) (t : ObjectType) :
    IsGeometryTypeValid tag t = true ↔ tag ∈ permittedShapes t := by
  unfold IsGeometryTypeValid permittedShapes
  cases h : AllowedGeometryTypes t with
  | none => simp
  | some l =>
    simp only [List.any_eq_true, beq_iff_eq, Option.getD_some]
    constructor
    · rintro ⟨x, hx, rfl⟩
      exact hx
    · intro hx
      exact ⟨tag, hx, rfl⟩

/-- The nested scan finds a pair exactly when one exists among the index pairs it
visits. -/
theorem scan_iff (ring : Ring) (h4 : 4 ≤ ring.length) (rest : List Ring) :
    isSelfIntersecting (ring :: rest) = true ↔
      ∃ i j : Nat, i + 2 ≤ j ∧ j + 1 < ring.length ∧ ¬ (i = 0 ∧ j + 2 = ring.length) ∧
        segmentsIntersect (ringAt ring i) (ringAt ring (i + 1)) (ringAt ring j)
          (ringAt ring (j + 1)) = true := by
  unfold isSelfIntersecting
  have hlt : ¬ ring.length < 4 := by omega
  simp only [hlt, if_false, List.any_eq_true, List.mem_range, List.mem_range']
  constructor
  · rintro ⟨i, hi, j, ⟨k, hk, rfl⟩, hj⟩
    by_cases hskip : i = 0 ∧ i + 2 + 1 * k = ring.length - 2
    · rw [if_pos hskip] at hj
      exact absurd hj (by simp)
    · rw [if_neg hskip] at hj
      refine ⟨i, i + 2 + 1 * k, by omega, by omega, ?_, hj⟩
      intro hc
      exact hskip ⟨hc.1, by omega⟩
  · rintro ⟨i, j, hij, hj, hskip, hx⟩
    refine ⟨i, by omega, j, ⟨j - (i + 2), by omega, by omega⟩, ?_⟩
    have hskip2 : ¬ (i = 0 ∧ j = ring.length - 2) := by
      intro hc
      exact hskip ⟨hc.1, by omega⟩
    rw [if_neg hskip2]
    exact hx

theorem isSelfIntersecting_false_iff (poly : Polygon) :
    isSelfIntersecting poly = false ↔ ExteriorPasses poly := by
  cases poly with
  | nil => simp [isSelfIntersecting, ExteriorPasses]
  | cons ring rest =>
    by_cases h4 : 4 ≤ ring.length
    · rw [← Bool.not_eq_true, scan_iff ring h4 rest]
      simp only [ExteriorPasses, List.head?_cons, Option.some.injEq, forall_eq', RingPasses]
      constructor
      · intro h i j hij hj hskip
        rw [← Bool.not_eq_true]
        intro hx
        exact h ⟨i, j, hij, hj, hskip, hx⟩
      · rintro h ⟨i, j, hij, hj, hskip, hx⟩
        rw [h i j hij hj hskip] at hx
        exact absurd hx (by decide)
    · have hlt : ring.length < 4 := by omega
      simp only [isSelfIntersecting, hlt, if_true, ExteriorPasses, List.head?_cons,
        Option.some.injEq, forall_eq', RingPasses, true_iff]
      intro i j hij hj hskip
      exfalso
      omega

theorem topologyCheck_false_iff (g : OrbGeometry) :
    topologyCheck g = false ↔ NoReportedCrossing g := by
  cases g with
  | Polygon poly => exact isSelfIntersecting_false_iff poly
  | MultiPolygon mpoly =>
    simp only [topologyCheck, NoReportedCrossing, List.any_eq_false,
      ← isSelfIntersecting_false_iff, Bool.not_eq_true]
  | _ => simp [topologyCheck, NoReportedCrossing]

/-- The decision table of `Validate` on a decoded geometry: the three checks in the
order of the code. -/
theorem validate_decoded (U : List UInt8 → Except String (Option OrbGeometry))
    (geomJSON : List UInt8) (g : OrbGeometry) (t : ObjectType)
    (hne : geomJSON ≠ []) (hdec : U geomJSON = .ok (some g)) :
    Validate U geomJSON t =
      if g.GeoJSONType ∉ permittedShapes t then
        .error (.ErrGeometryTypeMismatch (permittedShapes t) g.GeoJSONType)
      else if ¬ ComputedInRegion g.Bound.Center then .error .ErrOutsideBounds
      else if topologyCheck g = true then .error .ErrSelfIntersecting
      else .ok () := by
  have hlen : ¬ geomJSON.length = 0 := by
    intro h
    exact hne (List.length_eq_zero.mp h)
  unfold Validate
  rw [if_neg hlen, hdec]
  by_cases h1 : g.GeoJSONType ∈ permittedShapes t
  · have hv : IsGeometryTypeValid g.GeoJSONType t = true :=
      (isGeometryTypeValid_iff _ _).mpr h1
    by_cases h2 : ComputedInRegion g.Bound.Center
    · have hw : isWithinBounds g.Bound.Center = true := (isWithinBounds_iff _).mpr h2
      simp only [hv, hw, h1, h2, Bool.not_true, not_true_eq_false, not_false_eq_true,
        if_false, Bool.false_eq_true]
      cases g <;> simp [topologyCheck]
    · have hw : isWithinBounds g.Bound.Center = false := by
        rw [← Bool.not_eq_true, isWithinBounds_iff]
        exact h2
      simp [hv, hw, h1, h2]
  · have hv : IsGeometryTypeValid g.GeoJSONType t = false := by
      rw [← Bool.not_eq_true, isGeometryTypeValid_iff]
      exact h1
    simp only [hv, Bool.not_false, if_true]
    rw [if_pos h1]
    rfl

theorem permittedShapes_polygon (t : ObjectType)
    (ht : t = ObjectTypeLake ∨ t = ObjectTypeReservoir ∨ t = ObjectTypeGlacier) :
    permittedShapes t = ["Polygon", "MultiPolygon"] := by
  rcases ht with rfl | rfl | rfl <;> decide

theorem bowtie_crosses : isSelfIntersecting [bowtie] = true := by decide!

theorem bowtieInRegion_crosses : isSelfIntersecting [bowtieInRegion] = true := by decide!

theorem bowtie_center :
    (OrbGeometry.Polygon [bowtie]).Bound.Center = (.fin (1 / 2), .fin (1 / 2)) := by decide!

theorem bowtieInRegion_center :
    (OrbGeometry.Polygon [bowtieInRegion]).Bound.Center = (.fin (121 / 2), .fin (91 / 2)) := by
  decide!

theorem originSquare_center :
    (OrbGeometry.Polygon [originSquare]).Bound.exactCenter = (0, 0) := by decide!

theorem regionSquare_center :
    (OrbGeometry.Polygon [regionSquare]).Bound.Center = (.fin (121 / 2), .fin (91 / 2)) := by
  decide!

theorem regionSquare_passes : isSelfIntersecting [regionSquare] = false := by decide!

theorem inRegion_mid : ComputedInRegion (.fin (121 / 2), .fin (91 / 2)) := by decide!

theorem not_inRegion_half : ¬ ComputedInRegion (.fin (1 / 2), .fin (1 / 2)) := by decide!

theorem not_inRegion_origin : ¬ ComputedInRegion (.fin 0, .fin 0) := by decide!

/-- A box whose exact center is the origin has the origin as its computed center. -/
theorem center_of_exact_origin (b : Bound) (h : b.exactCenter = (0, 0)) :
    b.Center = (.fin 0, .fin 0) := by
  unfold Bound.exactCenter at h
  have h1 : b.Min.1 + b.Max.1 = 0 := by
    have := congrArg Prod.fst h
    simp only at this
    linarith
  have h2 : b.Min.2 + b.Max.2 = 0 := by
    have := congrArg Prod.snd h
    simp only at this
    linarith
  have hh : Float64.half (.fin 0) = .fin 0 := by decide!
  show (Float64.half (Float64.ofRat (b.Min.1 + b.Max.1)),
    Float64.half (Float64.ofRat (b.Min.2 + b.Max.2))) = _
  rw [h1, h2, ofRat_zero, hh]

/-- Each coordinate of the three sample rings with decimal fractions is a `float64`
value: rounding it again changes nothing. -/
theorem samples_are_float64 :
    (∀ p ∈ nearTouchRing, roundFinite p.1 = p.1 ∧ roundFinite p.2 = p.2) ∧
      (∀ p ∈ boundaryLine, roundFinite p.1 = p.1 ∧ roundFinite p.2 = p.2) ∧
      (∀ p ∈ boundaryBowtie, roundFinite p.1 = p.1 ∧ roundFinite p.2 = p.2) := by
  decide!

theorem nearTouchRing_simple : SimpleRing nearTouchRing := by
  intro i j hij hj hskip
  have hlen : nearTouchRing.length = 5 := rfl
  rw [hlen] at hj hskip
  have hi : i = 0 ∨ i = 1 := by omega
  have hj2 : j = 2 ∨ j = 3 := by omega
  rcases hi with rfl | rfl <;> rcases hj2 with rfl | rfl
  · decide!
  · exact absurd ⟨rfl, rfl⟩ hskip
  · omega
  · decide!

/-! ## Validator: the claims -/

/-- C5. Type mismatch: for every object type and every decoded geometry whose shape tag
is not in the type's permitted set, `Validate` fails with `ErrGeometryTypeMismatch`
(reporting the permitted set and the tag), whatever the coordinates; in particular a
Point submitted for a river fails so. -/
theorem validate_type_mismatch (U : List UInt8 → Except String (Option OrbGeometry))
    (geomJSON : List UInt8) (hne : geomJSON ≠ []) :
    (∀ (g : OrbGeometry) (t : ObjectType), U geomJSON = .ok (some g) →
        g.GeoJSONType ∉ permittedShapes t →
        Validate U geomJSON t =
          .error (.ErrGeometryTypeMismatch (permittedShapes t) g.GeoJSONType)) ∧
    (∀ p : Point, U geomJSON = .ok (some (.Point p)) →
        Validate U geomJSON ObjectTypeRiver =
          .error (.ErrGeometryTypeMismatch ["LineString", "MultiLineString"] "Point")) := by
  constructor
  · intro g t hdec htag
    rw [validate_decoded U geomJSON g t hne hdec, if_pos htag]
  · intro p hdec
    have htag : (OrbGeometry.Point p).GeoJSONType ∉ permittedShapes ObjectTypeRiver := by
      show "Point" ∉ permittedShapes ObjectTypeRiver
      decide
    rw [validate_decoded U geomJSON (.Point p) ObjectTypeRiver hne hdec, if_pos htag]
    rfl

/-- Witness for C5: a Point far outside the region, sent for a river and for a lake. -/
theorem validate_type_mismatch_witness :
    Validate (decodesTo (.Point (0, 0))) [123] ObjectTypeLake =
        .error (.ErrGeometryTypeMismatch ["Polygon", "MultiPolygon"] "Point") ∧
      Validate (decodesTo (.Point (0, 0))) [123] ObjectTypeRiver =
        .error (.ErrGeometryTypeMismatch ["LineString", "MultiLineString"] "Point") :=
  ⟨(validate_type_mismatch (decodesTo (.Point (0, 0))) [123] (by decide)).1
      (.Point (0, 0)) ObjectTypeLake rfl (by decide),
    (validate_type_mismatch (decodesTo (.Point (0, 0))) [123] (by decide)).2 (0, 0) rfl⟩

/-- C6, as stated, fails.  The LineString `boundaryLine`, sent for a river: its tag is
permitted and its bounding-box center, ((minLon + maxLon) / 2, 45), has a longitude
below 46.49 (it is 46.4899999999999993...), so the center does not satisfy
46.49 ≤ lon; yet `Validate` returns success, not `ErrOutsideBounds`, because the
`float64` sum of the two longitudes rounds to 92.98 and its half is the constant
46.49. -/
theorem boundary_line_accepted :
    (OrbGeometry.LineString boundaryLine).GeoJSONType ∈ permittedShapes ObjectTypeRiver ∧
      ((OrbGeometry.LineString boundaryLine).Bound.Min.1 +
          (OrbGeometry.LineString boundaryLine).Bound.Max.1) / 2 < 46.49 ∧
      ¬ InRegion (OrbGeometry.LineString boundaryLine).Bound.exactCenter ∧
      (OrbGeometry.LineString boundaryLine).Bound.Center =
        (.fin (roundFinite 46.49), .fin 45) ∧
      Validate (decodesTo (.LineString boundaryLine)) [123] ObjectTypeRiver = .ok () ∧
      Validate (decodesTo (.LineString boundaryLine)) [123] ObjectTypeRiver ≠
        .error .ErrOutsideBounds := by
  have h : Validate (decodesTo (.LineString boundaryLine)) [123] ObjectTypeRiver = .ok () := by
    rw [validate_decoded (decodesTo (.LineString boundaryLine)) [123]
      (.LineString boundaryLine) ObjectTypeRiver (by decide) rfl, if_neg (by decide),
      if_neg (by decide!), if_neg (by decide)]
  refine ⟨by decide, by decide!, by decide!, by decide!, h, ?_⟩
  rw [h]
  simp

/-- C6, amended. Regional bounds on the center as the program computes it: for every
object type and decoded geometry whose tag is permitted for it, `Validate` fails with
`ErrOutsideBounds` exactly when the computed center, per axis the `float64` sum of the
smallest and the largest coordinate halved, does not lie between the `float64` constants
46.49 and 87.36 (longitude) and 40.57 and 55.44 (latitude), the boundaries included, an
overflowing sum counting as outside; in particular a Polygon whose bounding box is
centred at (0,0), sent for a type that permits polygons, fails with
`ErrOutsideBounds`. -/
theorem validate_outside_bounds_iff (U : List UInt8 → Except String (Option OrbGeometry))
    (geomJSON : List UInt8) (t : ObjectType) (hne : geomJSON ≠ []) :
    (∀ g : OrbGeometry, U geomJSON = .ok (some g) → g.GeoJSONType ∈ permittedShapes t →
        (Validate U geomJSON t = .error .ErrOutsideBounds ↔
          ¬ (Float64.le (.fin (roundFinite 46.49))
                (Float64.half (Float64.add (.fin g.Bound.Min.1) (.fin g.Bound.Max.1))) = true ∧
              Float64.le
                (Float64.half (Float64.add (.fin g.Bound.Min.1) (.fin g.Bound.Max.1)))
                (.fin (roundFinite 87.36)) = true ∧
              Float64.le (.fin (roundFinite 40.57))
                (Float64.half (Float64.add (.fin g.Bound.Min.2) (.fin g.Bound.Max.2))) = true ∧
              Float64.le
                (Float64.half (Float64.add (.fin g.Bound.Min.2) (.fin g.Bound.Max.2)))
                (.fin (roundFinite 55.44)) = true))) ∧
    (∀ poly : Polygon, U geomJSON = .ok (some (.Polygon poly)) →
        "Polygon" ∈ permittedShapes t →
        (OrbGeometry.Polygon poly).Bound.exactCenter = (0, 0) →
        Validate U geomJSON t = .error .ErrOutsideBounds) := by
  constructor
  · intro g hdec htag
    rw [validate_decoded U geomJSON g t hne hdec, if_neg (not_not.mpr htag)]
    change _ ↔ ¬ ComputedInRegion g.Bound.Center
    by_cases hin : ComputedInRegion g.Bound.Center
    · rw [if_neg (not_not.mpr hin)]
      constructor
      · intro h
        split at h <;> simp at h
      · intro h
        exact absurd hin h
    · rw [if_pos hin]
      exact ⟨fun _ => hin, fun _ => rfl⟩
  · intro poly hdec htag hc
    have htag2 : (OrbGeometry.Polygon poly).GeoJSONType ∈ permittedShapes t := htag
    rw [validate_decoded U geomJSON (.Polygon poly) t hne hdec,
      if_neg (not_not.mpr htag2), center_of_exact_origin _ hc, if_pos not_inRegion_origin]

/-- Witness for the amended C6: the bowtie lake (center (1/2, 1/2)) and a square lake
around the origin are both out of bounds. -/
theorem validate_outside_bounds_iff_witness :
    Validate (decodesTo (.Polygon [bowtie])) [123] ObjectTypeLake =
        .error .ErrOutsideBounds ∧
      Validate (decodesTo (.Polygon [originSquare])) [123] ObjectTypeLake =
        .error .ErrOutsideBounds :=
  ⟨((validate_outside_bounds_iff (decodesTo (.Polygon [bowtie])) [123] ObjectTypeLake
        (by decide)).1 (.Polygon [bowtie]) rfl (by decide)).mpr
      (by
        change ¬ ComputedInRegion (OrbGeometry.Polygon [bowtie]).Bound.Center
        rw [bowtie_center]
        exact not_inRegion_half),
    (validate_outside_bounds_iff (decodesTo (.Polygon [originSquare])) [123] ObjectTypeLake
        (by decide)).2 [originSquare] rfl (by decide) originSquare_center⟩

/-- C7, as stated, fails: `Validate` on the bowtie polygon (0,0),(1,1),(1,0),(0,1),(0,0)
sent for a lake returns `ErrOutsideBounds`, not `ErrSelfIntersecting`. -/
theorem bowtie_is_out_of_bounds :
    Validate (decodesTo (.Polygon [bowtie])) [123] ObjectTypeLake =
        .error .ErrOutsideBounds ∧
      Validate (decodesTo (.Polygon [bowtie])) [123] ObjectTypeLake ≠
        .error .ErrSelfIntersecting := by
  have h : Validate (decodesTo (.Polygon [bowtie])) [123] ObjectTypeLake =
      .error .ErrOutsideBounds := by
    rw [validate_decoded (decodesTo (.Polygon [bowtie])) [123] (.Polygon [bowtie])
      ObjectTypeLake (by decide) rfl, if_neg (by decide), bowtie_center,
      if_pos not_inRegion_half]
  rw [h]
  exact ⟨rfl, by simp⟩

/-- C7, amended. For an object type that permits Polygon (lake, reservoir or glacier):
`Validate` on the bowtie polygon (0,0),(1,1),(1,0),(0,1),(0,0) fails with
`ErrOutsideBounds`, its bounding-box center (1/2, 1/2) lying outside the region; the
scan `isSelfIntersecting` does flag that ring; and the same bowtie placed inside the
region, (60,45),(61,46),(61,45),(60,46),(60,45), fails with `ErrSelfIntersecting`. -/
theorem bowtie_validate (U : List UInt8 → Except String (Option OrbGeometry))
    (geomJSON : List UInt8) (t : ObjectType) (hne : geomJSON ≠ [])
    (ht : t = ObjectTypeLake ∨ t = ObjectTypeReservoir ∨ t = ObjectTypeGlacier) :
    (U geomJSON = .ok (some (.Polygon [bowtie])) →
        Validate U geomJSON t = .error .ErrOutsideBounds) ∧
    isSelfIntersecting [bowtie] = true ∧
    (U geomJSON = .ok (some (.Polygon [bowtieInRegion])) →
        Validate U geomJSON t = .error .ErrSelfIntersecting) := by
  have hp : ∀ poly : Polygon,
      (OrbGeometry.Polygon poly).GeoJSONType ∈ permittedShapes t := by
    intro poly
    rw [permittedShapes_polygon t ht]
    show "Polygon" ∈ ["Polygon", "MultiPolygon"]
    decide
  refine ⟨?_, bowtie_crosses, ?_⟩
  · intro hdec
    rw [validate_decoded U geomJSON (.Polygon [bowtie]) t hne hdec,
      if_neg (not_not.mpr (hp _)), bowtie_center, if_pos not_inRegion_half]
  · intro hdec
    have htop : topologyCheck (.Polygon [bowtieInRegion]) = true := bowtieInRegion_crosses
    rw [validate_decoded U geomJSON (.Polygon [bowtieInRegion]) t hne hdec,
      if_neg (not_not.mpr (hp _)), bowtieInRegion_center,
      if_neg (not_not.mpr inRegion_mid), if_pos htop]

/-- Witness for the amended C7: the bowtie inside the region, sent for a glacier. -/
theorem bowtie_validate_witness :
    Validate (decodesTo (.Polygon [bowtieInRegion])) [123] ObjectTypeGlacier =
      .error .ErrSelfIntersecting :=
  (bowtie_validate (decodesTo (.Polygon [bowtieInRegion])) [123] ObjectTypeGlacier
    (by decide) (Or.inr (Or.inr rfl))).2.2 rfl

/-- C8, as stated, fails.  The Polygon with the single ring `boundaryBowtie`, sent for a
lake: its tag is permitted, its bounding-box center ((minLon + maxLon) / 2, 45.5) has a
longitude below 46.49 and so lies outside the rectangle, and its exterior ring has
crossing edges; yet `Validate` returns `ErrSelfIntersecting`, the error of the third
check, not `ErrOutsideBounds`: the center the program computes is (46.49, 45.5). -/
theorem boundary_bowtie_not_out_of_bounds :
    (OrbGeometry.Polygon [boundaryBowtie]).GeoJSONType ∈ permittedShapes ObjectTypeLake ∧
      ¬ InRegion (OrbGeometry.Polygon [boundaryBowtie]).Bound.exactCenter ∧
      (OrbGeometry.Polygon [boundaryBowtie]).Bound.Center =
        (.fin (roundFinite 46.49), .fin (91 / 2)) ∧
      Validate (decodesTo (.Polygon [boundaryBowtie])) [123] ObjectTypeLake =
        .error .ErrSelfIntersecting ∧
      Validate (decodesTo (.Polygon [boundaryBowtie])) [123] ObjectTypeLake ≠
        .error .ErrOutsideBounds := by
  have htop : topologyCheck (.Polygon [boundaryBowtie]) = true := by decide!
  have h : Validate (decodesTo (.Polygon [boundaryBowtie])) [123] ObjectTypeLake =
      .error .ErrSelfIntersecting := by
    rw [validate_decoded (decodesTo (.Polygon [boundaryBowtie])) [123]
      (.Polygon [boundaryBowtie]) ObjectTypeLake (by decide) rfl, if_neg (by decide),
      if_neg (by decide!), if_pos htop]
  refine ⟨by decide, by decide!, by decide!, h, ?_⟩
  rw [h]
  simp

/-- C8, amended. Fail-fast order of `Validate` on a decoded geometry, each check as the
program computes it: a tag that is not permitted gives `ErrGeometryTypeMismatch` wherever
the center lies; a permitted tag with the computed center outside the rectangle gives
`ErrOutsideBounds` whether or not the exterior ring has crossing edges;
`ErrSelfIntersecting` is returned only when the first two checks pass and the computed
crossing test reports a pair of edges of a polygon's exterior ring; and when all three
pass the result is success. -/
theorem validate_fail_fast (U : List UInt8 → Except String (Option OrbGeometry))
    (geomJSON : List UInt8) (g : OrbGeometry) (t : ObjectType)
    (hne : geomJSON ≠ []) (hdec : U geomJSON = .ok (some g)) :
    (g.GeoJSONType ∉ permittedShapes t →
        Validate U geomJSON t =
          .error (.ErrGeometryTypeMismatch (permittedShapes t) g.GeoJSONType)) ∧
    (g.GeoJSONType ∈ permittedShapes t → ¬ ComputedInRegion g.Bound.Center →
        Validate U geomJSON t = .error .ErrOutsideBounds) ∧
    (g.GeoJSONType ∈ permittedShapes t → ComputedInRegion g.Bound.Center →
        ¬ NoReportedCrossing g → Validate U geomJSON t = .error .ErrSelfIntersecting) ∧
    (g.GeoJSONType ∈ permittedShapes t → ComputedInRegion g.Bound.Center →
        NoReportedCrossing g → Validate U geomJSON t = .ok ()) := by
  rw [validate_decoded U geomJSON g t hne hdec]
  refine ⟨?_, ?_, ?_, ?_⟩
  · intro htag
    rw [if_pos htag]
  · intro htag hout
    rw [if_neg (not_not.mpr htag), if_pos hout]
  · intro htag hin hcross
    have htop : topologyCheck g = true := by
      rw [← Bool.not_eq_false, topologyCheck_false_iff]
      exact hcross
    rw [if_neg (not_not.mpr htag), if_neg (not_not.mpr hin), if_pos htop]
  · intro htag hin hpass
    have htop : ¬ topologyCheck g = true := by
      rw [Bool.not_eq_true]
      exact (topologyCheck_false_iff g).mpr hpass
    rw [if_neg (not_not.mpr htag), if_neg (not_not.mpr hin), if_neg htop]

/-- Witness for the amended C8: the bowtie (crossing edges, center outside the region)
sent for a river is a type mismatch, and sent for a lake is out of bounds. -/
theorem validate_fail_fast_witness :
    Validate (decodesTo (.Polygon [bowtie])) [123] ObjectTypeRiver =
        .error (.ErrGeometryTypeMismatch ["LineString", "MultiLineString"] "Polygon") ∧
      Validate (decodesTo (.Polygon [bowtie])) [123] ObjectTypeLake =
        .error .ErrOutsideBounds :=
  ⟨(validate_fail_fast (decodesTo (.Polygon [bowtie])) [123] (.Polygon [bowtie])
        ObjectTypeRiver (by decide) rfl).1 (by decide),
    (validate_fail_fast (decodesTo (.Polygon [bowtie])) [123] (.Polygon [bowtie])
        ObjectTypeLake (by decide) rfl).2.1 (by decide)
      (by rw [bowtie_center]; exact not_inRegion_half)⟩

/-! ## Repository: lemmas -/

theorem draft_ne_published : StatusDraft ≠ StatusPublished := by decide

theorem pending_ne_published : StatusPending ≠ StatusPublished := by decide

theorem rejected_ne_published : StatusRejected ≠ StatusPublished := by decide

theorem archived_ne_published : StatusArchived ≠ StatusPublished := by decide

theorem pk_inj {s : Table} (hpk : PrimaryKey s) {r1 r2 : WaterObject}
    (h1 : r1 ∈ s) (h2 : r2 ∈ s) (hid : r1.ID = r2.ID) : r1 = r2 :=
  List.inj_on_of_nodup_map hpk h1 h2 hid

theorem pk_map {s : Table} (g : WaterObject → WaterObject) (hid : ∀ r, (g r).ID = r.ID)
    (hpk : PrimaryKey s) : PrimaryKey (s.map g) := by
  unfold PrimaryKey at *
  rw [List.map_map]
  have hfun : ((fun r : WaterObject => r.ID) ∘ g) = fun r => r.ID := by
    funext r
    exact hid r
  rw [hfun]
  exact hpk

theorem updateSet_ID (obj : WaterObject) (now : Time) (r : WaterObject) :
    (updateSet obj now r).ID = r.ID := rfl

theorem updateSet_Status (obj : WaterObject) (now : Time) (r : WaterObject) :
    (updateSet obj now r).Status = r.Status := rfl

theorem updateSet_CanonicalID (obj : WaterObject) (now : Time) (r : WaterObject) :
    (updateSet obj now r).CanonicalID = r.CanonicalID := rfl

theorem updateSet_Version (obj : WaterObject) (now : Time) (r : WaterObject) :
    (updateSet obj now r).Version = r.Version := rfl

theorem updateWhere_iff (id : Int) (r : WaterObject) :
    updateWhere id r = true ↔
      r.ID = id ∧ (r.Status = StatusDraft ∨ r.Status = StatusRejected) := by
  simp [updateWhere]

theorem pendingWhere_iff (id : Int) (r : WaterObject) :
    pendingWhere id r = true ↔ r.ID = id ∧ r.Status = StatusPending := by
  simp [pendingWhere]

theorem submitWhere_iff (id userID : Int) (r : WaterObject) :
    submitWhere id userID r = true ↔
      r.ID = id ∧ r.CreatedBy = userID ∧
        (r.Status = StatusDraft ∨ r.Status = StatusRejected) := by
  simp [submitWhere, and_assoc]

theorem deleteWhere_iff (id userID : Int) (r : WaterObject) :
    deleteWhere id userID r = true ↔
      r.ID = id ∧ r.CreatedBy = userID ∧ r.Status = StatusDraft := by
  simp [deleteWhere, and_assoc]

/-- A row-wise rewrite that keeps id and canonical id and publishes nothing keeps the
invariant. -/
theorem amop_map {s : Table} (g : WaterObject → WaterObject)
    (hid : ∀ r, (g r).ID = r.ID) (hcan : ∀ r, (g r).CanonicalID = r.CanonicalID)
    (hst : ∀ r, (g r).Status = StatusPublished → r.Status = StatusPublished)
    (h : AtMostOnePublished s) : AtMostOnePublished (s.map g) := by
  intro r1 h1 r2 h2 p1 p2 hc
  obtain ⟨a, ha, rfl⟩ := List.mem_map.mp h1
  obtain ⟨b, hb, rfl⟩ := List.mem_map.mp h2
  rw [hid, hid]
  rw [hcan, hcan] at hc
  exact h a ha b hb (hst a p1) (hst b p2) hc

theorem amop_of_subset {s s' : Table} (hsub : ∀ r ∈ s', r ∈ s)
    (h : AtMostOnePublished s) : AtMostOnePublished s' := by
  intro r1 h1 r2 h2 p1 p2 hc
  exact h r1 (hsub r1 h1) r2 (hsub r2 h2) p1 p2 hc

theorem amop_create (f : Fault) (dbID : Int) (dbCanonicalID : UUID) (now : Time)
    (s : Table) (obj : WaterObject) (h : AtMostOnePublished s) :
    AtMostOnePublished (Create f dbID dbCanonicalID now s obj).1 := by
  unfold Create
  split
  · exact h
  · split
    · exact h
    · have hdraft : ∀ r ∈ s ++ [insertedRow dbID dbCanonicalID now obj],
          r.Status = StatusPublished → r ∈ s := by
        intro r hr hp
        rcases List.mem_append.mp hr with hr | hr
        · exact hr
        · rw [List.mem_singleton] at hr
          subst hr
          exact absurd hp draft_ne_published
      intro r1 h1 r2 h2 p1 p2 hc
      exact h r1 (hdraft r1 h1 p1) r2 (hdraft r2 h2 p2) p1 p2 hc

theorem amop_update (f : Fault) (now : Time) (s : Table) (obj : WaterObject)
    (h : AtMostOnePublished s) : AtMostOnePublished (Update f now s obj).1 := by
  unfold Update
  split
  · exact h
  · split
    · exact h
    · split
      · exact h
      · apply amop_map _ _ _ _ h
        · intro r
          split <;> rfl
        · intro r
          split <;> rfl
        · intro r
          split
          · exact id
          · exact id

theorem amop_submit (f : Fault) (now : Time) (s : Table) (id userID : Int)
    (h : AtMostOnePublished s) :
    AtMostOnePublished (SubmitForReview f now s id userID).1 := by
  unfold SubmitForReview
  split
  · exact h
  · split
    · apply amop_map _ _ _ _ h
      · intro r
        split <;> rfl
      · intro r
        split <;> rfl
      · intro r
        split
        · intro hp
          exact absurd hp pending_ne_published
        · exact fun hp => hp
    · exact h

theorem amop_reject (f : Fault) (now : Time) (s : Table) (id reviewerID : Int)
    (reason : String) (h : AtMostOnePublished s) :
    AtMostOnePublished (Reject f now s id reviewerID reason).1 := by
  unfold Reject
  split
  · exact h
  · split
    · apply amop_map _ _ _ _ h
      · intro r
        split <;> rfl
      · intro r
        split <;> rfl
      · intro r
        split
        · intro hp
          exact absurd hp rejected_ne_published
        · exact fun hp => hp
    · exact h

theorem amop_delete (f : Fault) (s : Table) (id userID : Int)
    (h : AtMostOnePublished s) : AtMostOnePublished (Delete f s id userID).1 := by
  unfold Delete
  split
  · exact h
  · split
    · exact amop_of_subset (fun r hr => (List.mem_filter.mp hr).1) h
    · exact h

theorem publish_archive_eq (c : UUID) (reviewerID id : Int) (now : Time) (s : Table) :
    publishStmt reviewerID id now (archiveStmt c s) = s.map (approveRow c reviewerID id now) := by
  unfold publishStmt archiveStmt
  rw [List.map_map]
  apply List.map_congr_left
  intro r _
  simp only [Function.comp]
  unfold approveRow
  by_cases h1 : r.CanonicalID = c ∧ r.Status = StatusPublished
  · rw [if_pos h1]
  · rw [if_neg h1]

theorem approveRow_ID (c : UUID) (reviewerID id : Int) (now : Time) (r : WaterObject) :
    (approveRow c reviewerID id now r).ID = r.ID := by
  unfold approveRow
  split
  · rfl
  · split <;> rfl

theorem approveRow_CanonicalID (c : UUID) (reviewerID id : Int) (now : Time)
    (r : WaterObject) : (approveRow c reviewerID id now r).CanonicalID = r.CanonicalID := by
  unfold approveRow
  split
  · rfl
  · split <;> rfl

theorem approveRow_other (c : UUID) (reviewerID id : Int) (now : Time) (r : WaterObject)
    (hid : r.ID ≠ id)
    (hp : (approveRow c reviewerID id now r).Status = StatusPublished) :
    r.Status = StatusPublished ∧ r.CanonicalID ≠ c := by
  unfold approveRow at hp
  rw [if_neg hid] at hp
  by_cases h1 : r.CanonicalID = c ∧ r.Status = StatusPublished
  · rw [if_pos h1] at hp
    exact absurd hp archived_ne_published
  · rw [if_neg h1] at hp
    exact ⟨hp, fun hc => h1 ⟨hc, hp⟩⟩

/-- The table a committed `Approve` installs keeps the invariant. -/
theorem amop_approve_tables {s : Table} (hpk : PrimaryKey s) (h : AtMostOnePublished s)
    (row : WaterObject) (hrow : row ∈ s) (reviewerID : Int) (now : Time) :
    AtMostOnePublished
      (publishStmt reviewerID row.ID now (archiveStmt row.CanonicalID s)) := by
  rw [publish_archive_eq]
  intro r1 h1 r2 h2 p1 p2 hc
  obtain ⟨a, ha, rfl⟩ := List.mem_map.mp h1
  obtain ⟨b, hb, rfl⟩ := List.mem_map.mp h2
  rw [approveRow_ID, approveRow_ID]
  rw [approveRow_CanonicalID, approveRow_CanonicalID] at hc
  by_cases ha1 : a.ID = row.ID
  · by_cases hb1 : b.ID = row.ID
    · rw [ha1, hb1]
    · have hb2 := approveRow_other _ _ _ _ b hb1 p2
      have hab : a = row := pk_inj hpk ha hrow ha1
      rw [hab] at hc
      exact absurd hc.symm hb2.2
  · have ha2 := approveRow_other _ _ _ _ a ha1 p1
    by_cases hb1 : b.ID = row.ID
    · have hbb : b = row := pk_inj hpk hb hrow hb1
      rw [hbb] at hc
      exact absurd hc ha2.2
    · have hb2 := approveRow_other _ _ _ _ b hb1 p2
      exact h a ha b hb ha2.1 hb2.1 hc

/-- The two outcomes of `Approve`: an error with the table untouched, or success with
the table rewritten by both `UPDATE`s for the pending row the `SELECT` found. -/
theorem approve_cases (f : Fault) (now : Time) (s : Table) (id reviewerID : Int) :
    (∃ e, Approve f now s id reviewerID = (s, .error e)) ∨
    (∃ row, row ∈ s ∧ row.ID = id ∧ row.Status = StatusPending ∧
      s.find? (pendingWhere id) = some row ∧
      Approve f now s id reviewerID =
        (publishStmt reviewerID id now (archiveStmt row.CanonicalID s), .ok ())) := by
  unfold Approve
  split
  · exact Or.inl ⟨_, rfl⟩
  · split
    · exact Or.inl ⟨_, rfl⟩
    · split
      · exact Or.inl ⟨_, rfl⟩
      · rename_i row hfind
        simp only
        split
        · exact Or.inl ⟨_, rfl⟩
        · split
          · exact Or.inl ⟨_, rfl⟩
          · split
            · exact Or.inl ⟨_, rfl⟩
            · have hmem := List.mem_of_find?_eq_some hfind
              have hp := (pendingWhere_iff id row).mp (List.find?_some hfind)
              exact Or.inr ⟨row, hmem, hp.1, hp.2, hfind, rfl⟩

theorem amop_approve (f : Fault) (now : Time) (s : Table) (id reviewerID : Int)
    (hpk : PrimaryKey s) (h : AtMostOnePublished s) :
    AtMostOnePublished (Approve f now s id reviewerID).1 := by
  rcases approve_cases f now s id reviewerID with ⟨e, he⟩ | ⟨row, hrow, hid, _, _, hok⟩
  · rw [he]
    exact h
  · rw [hok]
    subst hid
    exact amop_approve_tables hpk h row hrow reviewerID now

theorem update_find_none_of_not_editable (s : Table) (id : Int) (r : WaterObject)
    (hpk : PrimaryKey s) (hr : r ∈ s) (hid : r.ID = id)
    (hst : r.Status ≠ StatusDraft ∧ r.Status ≠ StatusRejected) :
    s.find? (updateWhere id) = none := by
  rw [List.find?_eq_none]
  intro x hx hw
  have hx2 := (updateWhere_iff id x).mp hw
  have hxr : x = r := pk_inj hpk hx hr (by rw [hx2.1, hid])
  rw [hxr] at hx2
  rcases hx2.2 with h | h
  · exact hst.1 h
  · exact hst.2 h

theorem update_find_some_of_editable (s : Table) (id : Int) (r : WaterObject)
    (hpk : PrimaryKey s) (hr : r ∈ s) (hid : r.ID = id)
    (hst : r.Status = StatusDraft ∨ r.Status = StatusRejected) :
    s.find? (updateWhere id) = some r := by
  cases hf : s.find? (updateWhere id) with
  | none =>
    have hnone := List.find?_eq_none.mp hf r hr
    exact absurd ((updateWhere_iff id r).mpr ⟨hid, hst⟩) hnone
  | some x =>
    have hm := List.mem_of_find?_eq_some hf
    have hp := (updateWhere_iff id x).mp (List.find?_some hf)
    rw [pk_inj hpk hm hr (by rw [hp.1, hid])]

/-- The row-wise rewrite performed by the `UPDATE` of `Update`. -/
theorem update_table (f : Fault) (now : Time) (s : Table) (obj : WaterObject) :
    (Update f now s obj).1 = s ∨
      (Update f now s obj).1 =
        s.map (fun r => if updateWhere obj.ID r then updateSet obj now r else r) := by
  unfold Update
  split
  · exact Or.inl rfl
  · split
    · exact Or.inl rfl
    · split
      · exact Or.inl rfl
      · exact Or.inr rfl

theorem updateRewrite_fields (obj : WaterObject) (now : Time) (r : WaterObject) :
    (if updateWhere obj.ID r then updateSet obj now r else r).ID = r.ID ∧
      (if updateWhere obj.ID r then updateSet obj now r else r).Version = r.Version ∧
      (if updateWhere obj.ID r then updateSet obj now r else r).Status = r.Status := by
  split
  · exact ⟨rfl, rfl, rfl⟩
  · exact ⟨rfl, rfl, rfl⟩

theorem pk_update (f : Fault) (now : Time) (s : Table) (obj : WaterObject)
    (hpk : PrimaryKey s) : PrimaryKey (Update f now s obj).1 := by
  rcases update_table f now s obj with h | h
  · rw [h]
    exact hpk
  · rw [h]
    exact pk_map _ (fun r => (updateRewrite_fields obj now r).1) hpk

/-- No `Update` call changes the id, the version or the status of any row. -/
theorem update_keeps_row (f : Fault) (now : Time) (s : Table) (obj : WaterObject)
    (r : WaterObject) (hr : r ∈ s) :
    ∃ r2 ∈ (Update f now s obj).1,
      r2.ID = r.ID ∧ r2.Version = r.Version ∧ r2.Status = r.Status := by
  rcases update_table f now s obj with h | h
  · rw [h]
    exact ⟨r, hr, rfl, rfl, rfl⟩
  · rw [h]
    exact ⟨_, List.mem_map.mpr ⟨r, hr, rfl⟩, updateRewrite_fields obj now r⟩

theorem updateAll_keeps_row (calls : List (Time × WaterObject)) :
    ∀ (s : Table), PrimaryKey s → ∀ r ∈ s,
      PrimaryKey (updateAll s calls) ∧
        ∃ r2 ∈ updateAll s calls,
          r2.ID = r.ID ∧ r2.Version = r.Version ∧ r2.Status = r.Status := by
  induction calls with
  | nil =>
    intro s hpk r hr
    exact ⟨hpk, r, hr, rfl, rfl, rfl⟩
  | cons c rest ih =>
    intro s hpk r hr
    obtain ⟨r1, hr1, h1⟩ := update_keeps_row .none c.1 s c.2 r hr
    obtain ⟨hpk2, r2, hr2, h2⟩ :=
      ih (Update .none c.1 s c.2).1 (pk_update .none c.1 s c.2 hpk) r1 hr1
    refine ⟨hpk2, r2, hr2, ?_, ?_, ?_⟩
    · rw [h2.1, h1.1]
    · rw [h2.2.1, h1.2.1]
    · rw [h2.2.2, h1.2.2]

/-- A fault-free `Update` of an editable record succeeds, returns the record's version
as it was and stores it as it was. -/
theorem update_editable (s : Table) (obj : WaterObject) (now : Time) (r : WaterObject)
    (hpk : PrimaryKey s) (hr : r ∈ s) (hid : r.ID = obj.ID)
    (hst : r.Status = StatusDraft ∨ r.Status = StatusRejected) :
    (∃ res, (Update .none now s obj).2 = .ok res ∧ res.Version = r.Version) ∧
    (∃ r2 ∈ (Update .none now s obj).1, r2.ID = r.ID) ∧
    (∀ r2 ∈ (Update .none now s obj).1, r2.ID = r.ID → r2.Version = r.Version) := by
  have hf := update_find_some_of_editable s obj.ID r hpk hr hid hst
  have hrun : Update .none now s obj =
      (s.map (fun x => if updateWhere obj.ID x then updateSet obj now x else x),
        .ok { obj with Version := (updateSet obj now r).Version, UpdatedAt := now }) := by
    unfold Update
    simp only [hf, reduceCtorEq, if_false]
  rw [hrun]
  refine ⟨⟨_, rfl, rfl⟩, ?_, ?_⟩
  · exact ⟨_, List.mem_map.mpr ⟨r, hr, rfl⟩, (updateRewrite_fields obj now r).1⟩
  · intro r2 hr2 hid2
    obtain ⟨a, ha, rfl⟩ := List.mem_map.mp hr2
    have hfa := updateRewrite_fields obj now a
    rw [hfa.1] at hid2
    rw [hfa.2.1, pk_inj hpk ha hr hid2]

theorem pk_create_ok (f : Fault) (dbID : Int) (dbCanonicalID : UUID) (now : Time)
    (s : Table) (obj res : WaterObject) (hpk : PrimaryKey s)
    (hok : (Create f dbID dbCanonicalID now s obj).2 = .ok res) :
    (Create f dbID dbCanonicalID now s obj).1 = s ++ [insertedRow dbID dbCanonicalID now obj] ∧
      PrimaryKey (s ++ [insertedRow dbID dbCanonicalID now obj]) ∧ res.Version = 1 ∧
      res.ID = dbID := by
  unfold Create at hok ⊢
  split at hok
  · exact absurd hok (by simp)
  · rename_i h1
    rw [if_neg h1]
    split at hok
    · exact absurd hok (by simp)
    · rename_i h2
      rw [if_neg h2]
      simp only [Except.ok.injEq] at hok
      refine ⟨rfl, ?_, ?_, ?_⟩
      · unfold PrimaryKey
        rw [List.map_append, List.nodup_append]
        refine ⟨hpk, List.nodup_singleton _, ?_⟩
        have hfree : ∀ r ∈ s, r.ID ≠ dbID := by
          intro r hr hc
          apply h2
          right
          rw [List.any_eq_true]
          exact ⟨r, hr, by simp [hc]⟩
        intro a ha hb
        obtain ⟨r, hr, rfl⟩ := List.mem_map.mp ha
        simp only [List.map_cons, List.map_nil, List.mem_singleton] at hb
        exact hfree r hr hb
      · rw [← hok]
      · rw [← hok]

theorem pk_create (f : Fault) (dbID : Int) (dbCanonicalID : UUID) (now : Time)
    (s : Table) (obj : WaterObject) (hpk : PrimaryKey s) :
    PrimaryKey (Create f dbID dbCanonicalID now s obj).1 := by
  cases hres : (Create f dbID dbCanonicalID now s obj).2 with
  | ok res =>
    obtain ⟨htab, hpk1, _, _⟩ := pk_create_ok f dbID dbCanonicalID now s obj res hpk hres
    rw [htab]
    exact hpk1
  | error e =>
    have htab : (Create f dbID dbCanonicalID now s obj).1 = s := by
      unfold Create at hres ⊢
      split
      · rfl
      · split
        · rfl
        · rename_i h1 h2
          rw [if_neg h1, if_neg h2] at hres
          exact absurd hres (by simp)
    rw [htab]
    exact hpk

theorem pk_submit (f : Fault) (now : Time) (s : Table) (id userID : Int)
    (hpk : PrimaryKey s) : PrimaryKey (SubmitForReview f now s id userID).1 := by
  unfold SubmitForReview
  split
  · exact hpk
  · split
    · apply pk_map _ _ hpk
      intro r
      split <;> rfl
    · exact hpk

theorem pk_reject (f : Fault) (now : Time) (s : Table) (id reviewerID : Int)
    (reason : String) (hpk : PrimaryKey s) :
    PrimaryKey (Reject f now s id reviewerID reason).1 := by
  unfold Reject
  split
  · exact hpk
  · split
    · apply pk_map _ _ hpk
      intro r
      split <;> rfl
    · exact hpk

theorem pk_delete (f : Fault) (s : Table) (id userID : Int) (hpk : PrimaryKey s) :
    PrimaryKey (Delete f s id userID).1 := by
  unfold Delete
  split
  · exact hpk
  · split
    · unfold PrimaryKey at *
      exact hpk.sublist (List.Sublist.map _ (List.filter_sublist _))
    · exact hpk

theorem pk_approve (f : Fault) (now : Time) (s : Table) (id reviewerID : Int)
    (hpk : PrimaryKey s) : PrimaryKey (Approve f now s id reviewerID).1 := by
  rcases approve_cases f now s id reviewerID with ⟨e, he⟩ | ⟨row, _, _, _, _, hok⟩
  · rw [he]
    exact hpk
  · rw [hok, publish_archive_eq]
    exact pk_map _ (fun r => approveRow_ID _ _ _ _ r) hpk

/-! ## Repository: the claims -/

/-- C1. At-most-one-published invariant: on a table that respects its primary key and
in which no two records with the same canonical id are both Published, every call of
create, update, submit, approve, reject or delete, with any arguments and under any
fault, succeeding or failing, leaves a table that again respects its primary key and in
which again no two records with the same canonical id are both Published. -/
theorem at_most_one_published_preserved (s : Table) (op : Op) (hpk : PrimaryKey s)
    (h : AtMostOnePublished s) :
    PrimaryKey (op.run s) ∧ AtMostOnePublished (op.run s) := by
  cases op with
  | create f dbID dbCanonicalID now obj =>
    exact ⟨pk_create f dbID dbCanonicalID now s obj hpk,
      amop_create f dbID dbCanonicalID now s obj h⟩
  | update f now obj => exact ⟨pk_update f now s obj hpk, amop_update f now s obj h⟩
  | submit f now id userID =>
    exact ⟨pk_submit f now s id userID hpk, amop_submit f now s id userID h⟩
  | approve f now id reviewerID =>
    exact ⟨pk_approve f now s id reviewerID hpk, amop_approve f now s id reviewerID hpk h⟩
  | reject f now id reviewerID reason =>
    exact ⟨pk_reject f now s id reviewerID reason hpk,
      amop_reject f now s id reviewerID reason h⟩
  | delete f id userID => exact ⟨pk_delete f s id userID hpk, amop_delete f s id userID h⟩

/-- Witness for C1: approving the pending row of the sample table. -/
theorem at_most_one_published_preserved_witness :
    PrimaryKey (Op.run (.approve .none 9 2 42) sampleTable) ∧
      AtMostOnePublished (Op.run (.approve .none 9 2 42) sampleTable) :=
  at_most_one_published_preserved sampleTable (.approve .none 9 2 42) (by decide) (by decide)

/-- C2. Approve postcondition: on a table that respects its primary key, for a record
`row` with id `id` that is Pending, a fault-free `Approve` succeeds, and afterwards
(a) the record with that id is `row` with status Published, `reviewed_by` the reviewer
and `published_at` the time of the call; (b) every record that was Published under
`row`'s canonical id is now that record with status Archived; (c) the ids in the table
are the same, in the same order (nothing deleted, nothing added), and every record with
a different canonical id is still in the table as it was. -/
theorem approve_postcondition (s : Table) (id reviewerID : Int) (now : Time)
    (row : WaterObject) (hpk : PrimaryKey s) (hrow : row ∈ s) (hid : row.ID = id)
    (hpend : row.Status = StatusPending) :
    (Approve .none now s id reviewerID).2 = .ok () ∧
    ({ row with
        Status := StatusPublished, PublishedAt := some now, ReviewedBy := some reviewerID }
        ∈ (Approve .none now s id reviewerID).1 ∧
      ∀ r ∈ (Approve .none now s id reviewerID).1, r.ID = id →
        r.Status = StatusPublished ∧ r.ReviewedBy = some reviewerID ∧
          r.PublishedAt = some now) ∧
    (∀ old ∈ s, old.Status = StatusPublished → old.CanonicalID = row.CanonicalID →
      { old with Status := StatusArchived } ∈ (Approve .none now s id reviewerID).1 ∧
        ∀ r ∈ (Approve .none now s id reviewerID).1, r.ID = old.ID →
          r.Status = StatusArchived) ∧
    ((Approve .none now s id reviewerID).1.map (fun r => r.ID) = s.map (fun r => r.ID) ∧
      ∀ r ∈ s, r.CanonicalID ≠ row.CanonicalID →
        r ∈ (Approve .none now s id reviewerID).1) := by
  have hfind : ∃ row2, s.find? (pendingWhere id) = some row2 := by
    cases hf : s.find? (pendingWhere id) with
    | none =>
      have hnone := List.find?_eq_none.mp hf row hrow
      exact absurd ((pendingWhere_iff id row).mpr ⟨hid, hpend⟩) hnone
    | some row2 => exact ⟨row2, rfl⟩
  obtain ⟨row2, hf⟩ := hfind
  have hrow2 : row2 = row := by
    have hm := List.mem_of_find?_eq_some hf
    have hp := (pendingWhere_iff id row2).mp (List.find?_some hf)
    exact pk_inj hpk hm hrow (by rw [hp.1, hid])
  subst hrow2
  have hrun : Approve .none now s id reviewerID =
      (s.map (approveRow row2.CanonicalID reviewerID id now), .ok ()) := by
    unfold Approve
    simp only [hf, reduceCtorEq, if_false]
    rw [publish_archive_eq]
  rw [hrun]
  refine ⟨rfl, ⟨?_, ?_⟩, ?_, ?_, ?_⟩
  · refine List.mem_map.mpr ⟨row2, hrow, ?_⟩
    unfold approveRow
    rw [if_pos hid]
  · intro r hr hrid
    obtain ⟨a, ha, rfl⟩ := List.mem_map.mp hr
    rw [approveRow_ID] at hrid
    unfold approveRow
    rw [if_pos hrid]
    exact ⟨rfl, rfl, rfl⟩
  · intro old hold hpub hcan
    have hne : old.ID ≠ id := by
      intro hc
      have : old = row2 := pk_inj hpk hold hrow (by rw [hc, hid])
      rw [this, hpend] at hpub
      exact pending_ne_published hpub
    have hval : approveRow row2.CanonicalID reviewerID id now old =
        { old with Status := StatusArchived } := by
      unfold approveRow
      rw [if_neg hne, if_pos ⟨hcan, hpub⟩]
    constructor
    · exact List.mem_map.mpr ⟨old, hold, hval⟩
    · intro r hr hrid
      obtain ⟨a, ha, rfl⟩ := List.mem_map.mp hr
      rw [approveRow_ID] at hrid
      have : a = old := pk_inj hpk ha hold hrid
      rw [this, hval]
  · rw [List.map_map]
    apply List.map_congr_left
    intro r _
    exact approveRow_ID _ _ _ _ r
  · intro r hr hcan
    refine List.mem_map.mpr ⟨r, hr, ?_⟩
    have hne : r.ID ≠ id := by
      intro hc
      have : r = row2 := pk_inj hpk hr hrow (by rw [hc, hid])
      exact hcan (by rw [this])
    unfold approveRow
    rw [if_neg hne, if_neg (fun hc => hcan hc.1)]

/-- Witness for C2: approving row 2 of the sample table. -/
theorem approve_postcondition_witness :
    (Approve .none 9 sampleTable 2 42).1 =
      [{ sampleRow 1 "A" StatusPublished 7 with Status := StatusArchived },
        { sampleRow 2 "A" StatusPending 7 with
          Status := StatusPublished, PublishedAt := some 9, ReviewedBy := some 42 },
        sampleRow 3 "B" StatusPublished 8] ∧
      (Approve .none 9 sampleTable 2 42).2 = .ok () :=
  ⟨by decide,
    (approve_postcondition sampleTable 2 42 9 (sampleRow 2 "A" StatusPending 7)
      (by decide) (by simp [sampleTable]) rfl rfl).1⟩

/-- C3. Approve is all-or-nothing: when no record with the given id is Pending, a
fault-free `Approve` fails with `ErrNotFound` and the table is unchanged; when any step
of the sequence (begin, lookup, archive, publish, commit) fails, `Approve` returns an
error and the table is unchanged; whenever `Approve` returns an error the table is
unchanged; and the table after `Approve` is either the table before or the one in which
both the archive and the publish statements have run, so the old version is never left
archived without the new one published. -/
theorem approve_all_or_nothing (s : Table) (id reviewerID : Int) (now : Time) :
    ((∀ r ∈ s, ¬ (r.ID = id ∧ r.Status = StatusPending)) →
      Approve .none now s id reviewerID = (s, .error .ErrNotFound)) ∧
    (∀ f : Fault, f ≠ .none → f ≠ .marshal →
      (Approve f now s id reviewerID).1 = s ∧
        ∃ e, (Approve f now s id reviewerID).2 = .error e) ∧
    (∀ (f : Fault) (e : RepoError), (Approve f now s id reviewerID).2 = .error e →
      (Approve f now s id reviewerID).1 = s) ∧
    (∀ f : Fault, (Approve f now s id reviewerID).1 = s ∨
      ∃ row ∈ s, row.ID = id ∧ row.Status = StatusPending ∧
        (Approve f now s id reviewerID).1 =
          publishStmt reviewerID id now (archiveStmt row.CanonicalID s)) := by
  refine ⟨?_, ?_, ?_, ?_⟩
  · intro hnone
    have hf : s.find? (pendingWhere id) = none := by
      rw [List.find?_eq_none]
      intro r hr hp
      exact hnone r hr ((pendingWhere_iff id r).mp hp)
    unfold Approve
    simp only [hf, reduceCtorEq, if_false]
  · intro f hf1 hf2
    unfold Approve
    cases f with
    | none => exact absurd rfl hf1
    | marshal => exact absurd rfl hf2
    | begin => exact ⟨rfl, _, rfl⟩
    | query => exact ⟨rfl, _, rfl⟩
    | archive =>
      simp only [reduceCtorEq, if_false]
      split
      · exact ⟨rfl, _, rfl⟩
      · exact ⟨rfl, _, rfl⟩
    | publish =>
      simp only [reduceCtorEq, if_false]
      split
      · exact ⟨rfl, _, rfl⟩
      · exact ⟨rfl, _, rfl⟩
    | commit =>
      simp only [reduceCtorEq, if_false]
      split
      · exact ⟨rfl, _, rfl⟩
      · exact ⟨rfl, _, rfl⟩
  · intro f e he
    rcases approve_cases f now s id reviewerID with ⟨e2, h2⟩ | ⟨row, _, _, _, _, hok⟩
    · rw [h2]
    · rw [hok] at he
      exact absurd he (by simp)
  · intro f
    rcases approve_cases f now s id reviewerID with ⟨e2, h2⟩ | ⟨row, hrow, hid, hp, _, hok⟩
    · left
      rw [h2]
    · right
      exact ⟨row, hrow, hid, hp, by rw [hok]⟩

/-- Witness for C3: row 1 of the sample table is not pending, and a failing commit on
the pending row 2 leaves the table as it was. -/
theorem approve_all_or_nothing_witness :
    Approve .none 9 sampleTable 1 42 = (sampleTable, .error .ErrNotFound) ∧
      (Approve .commit 9 sampleTable 2 42).1 = sampleTable :=
  ⟨(approve_all_or_nothing sampleTable 1 42 9).1 (by decide),
    ((approve_all_or_nothing sampleTable 2 42 9).2.1 .commit (by decide) (by decide)).1⟩

/-- C9. Update on a non-editable record: on a table that respects its primary key, for
a record whose status is Published, Pending or Archived, a fault-free `Update` aimed at
its id fails with `ErrNotFound` and returns the table as it was, every field of every
record unchanged; under any fault the table is unchanged as well. -/
theorem update_non_editable_not_found (s : Table) (obj : WaterObject) (now : Time)
    (r : WaterObject) (hpk : PrimaryKey s) (hr : r ∈ s) (hid : r.ID = obj.ID)
    (hst : r.Status = StatusPublished ∨ r.Status = StatusPending ∨
      r.Status = StatusArchived) :
    Update .none now s obj = (s, .error .ErrNotFound) ∧
      ∀ f : Fault, (Update f now s obj).1 = s := by
  have hne : r.Status ≠ StatusDraft ∧ r.Status ≠ StatusRejected := by
    rcases hst with h | h | h <;> rw [h] <;> exact ⟨by decide, by decide⟩
  have hf := update_find_none_of_not_editable s obj.ID r hpk hr hid hne
  constructor
  · unfold Update
    simp only [hf, reduceCtorEq, if_false]
  · intro f
    unfold Update
    split
    · rfl
    · split
      · rfl
      · rw [hf]

/-- Witness for C9: an update aimed at the published row 1 of the sample table. -/
theorem update_non_editable_not_found_witness :
    Update .none 9 sampleTable (sampleRequest 1 7) = (sampleTable, .error .ErrNotFound) :=
  (update_non_editable_not_found sampleTable (sampleRequest 1 7) 9
    (sampleRow 1 "A" StatusPublished 7) (by decide) (by simp [sampleTable]) rfl
    (Or.inl rfl)).1

/-- C10, as stated, fails: a fault-free `Update` of a draft at version 1 succeeds,
returns version 1 and stores version 1, not 2. -/
theorem update_does_not_increment :
    (∃ res, (Update .none 5 [sampleRow 1 "A" StatusDraft 7] (sampleRequest 1 7)).2 = .ok res ∧
        res.Version = 1 ∧ res.Version ≠ 1 + 1) ∧
      (Update .none 5 [sampleRow 1 "A" StatusDraft 7] (sampleRequest 1 7)).1.map
        (fun r => r.Version) = [1] :=
  ⟨⟨_, rfl, rfl, by decide⟩, by decide⟩

/-- C10, amended. Version is left alone: on a table that respects its primary key, for
a record in Draft or Rejected status with version v, after any sequence of earlier
fault-free updates, a fault-free `Update` aimed at the record succeeds, returns version
v and leaves the record stored with version v; and a record just created has version 1
and, after any number of successive updates, is still at version 1. -/
theorem update_keeps_version :
    (∀ (s : Table) (r : WaterObject) (calls : List (Time × WaterObject)) (now : Time)
        (obj : WaterObject), PrimaryKey s → r ∈ s →
        (r.Status = StatusDraft ∨ r.Status = StatusRejected) → obj.ID = r.ID →
        (∃ res, (Update .none now (updateAll s calls) obj).2 = .ok res ∧
          res.Version = r.Version) ∧
        (∃ r2 ∈ (Update .none now (updateAll s calls) obj).1, r2.ID = r.ID) ∧
        (∀ r2 ∈ (Update .none now (updateAll s calls) obj).1, r2.ID = r.ID →
          r2.Version = r.Version)) ∧
    (∀ (s : Table) (f : Fault) (dbID : Int) (dbCanonicalID : UUID) (now0 : Time)
        (obj0 created : WaterObject) (calls : List (Time × WaterObject)) (now : Time)
        (obj : WaterObject), PrimaryKey s →
        (Create f dbID dbCanonicalID now0 s obj0).2 = .ok created → obj.ID = dbID →
        created.Version = 1 ∧
        (∃ res,
          (Update .none now (updateAll (Create f dbID dbCanonicalID now0 s obj0).1 calls)
            obj).2 = .ok res ∧ res.Version = 1) ∧
        (∀ r2 ∈
          (Update .none now (updateAll (Create f dbID dbCanonicalID now0 s obj0).1 calls)
            obj).1, r2.ID = dbID → r2.Version = 1)) := by
  have key : ∀ (s : Table) (r : WaterObject) (calls : List (Time × WaterObject))
      (now : Time) (obj : WaterObject), PrimaryKey s → r ∈ s →
      (r.Status = StatusDraft ∨ r.Status = StatusRejected) → obj.ID = r.ID →
      (∃ res, (Update .none now (updateAll s calls) obj).2 = .ok res ∧
        res.Version = r.Version) ∧
      (∃ r2 ∈ (Update .none now (updateAll s calls) obj).1, r2.ID = r.ID) ∧
      (∀ r2 ∈ (Update .none now (updateAll s calls) obj).1, r2.ID = r.ID →
        r2.Version = r.Version) := by
    intro s r calls now obj hpk hr hst hid
    obtain ⟨hpk2, r1, hr1, h1⟩ := updateAll_keeps_row calls s hpk r hr
    have hst1 : r1.Status = StatusDraft ∨ r1.Status = StatusRejected := by
      rw [h1.2.2]
      exact hst
    have hres := update_editable (updateAll s calls) obj now r1 hpk2 hr1
      (by rw [h1.1, hid]) hst1
    rw [h1.1, h1.2.1] at hres
    exact hres
  refine ⟨key, ?_⟩
  intro s f dbID dbCanonicalID now0 obj0 created calls now obj hpk hok hid
  obtain ⟨htab, hpk1, hv, _⟩ := pk_create_ok f dbID dbCanonicalID now0 s obj0 created hpk hok
  rw [htab]
  have hmem : insertedRow dbID dbCanonicalID now0 obj0 ∈
      s ++ [insertedRow dbID dbCanonicalID now0 obj0] :=
    List.mem_append.mpr (Or.inr (List.mem_singleton.mpr rfl))
  have hk := key (s ++ [insertedRow dbID dbCanonicalID now0 obj0])
    (insertedRow dbID dbCanonicalID now0 obj0) calls now obj hpk1 hmem (Or.inl rfl) hid
  exact ⟨hv, hk.1, hk.2.2⟩

/-- Witness for the amended C10: a record is created in the sample table and updated
three times; the third update returns version 1. -/
theorem update_keeps_version_witness :
    ∃ res,
      (Update .none 13
        (updateAll (Create .none 4 "C" 10 sampleTable (sampleRequest 0 7)).1
          [(11, sampleRequest 4 7), (12, sampleRequest 4 7)])
        (sampleRequest 4 7)).2 = .ok res ∧ res.Version = 1 :=
  (update_keeps_version.2 sampleTable .none 4 "C" 10 (sampleRequest 0 7)
    { sampleRequest 0 7 with
      ID := 4, CanonicalID := "C", Version := 1, CreatedAt := 10, UpdatedAt := 10,
      Status := StatusDraft }
    [(11, sampleRequest 4 7), (12, sampleRequest 4 7)] 13 (sampleRequest 4 7)
    (by decide) rfl rfl).2.1

/-! ## Entity checks and the permitted-shape table: lemmas and claims -/

theorem isValid_iff (t : ObjectType) :
    ObjectType.IsValid t = true ↔
      t = "river" ∨ t = "lake" ∨ t = "reservoir" ∨ t = "canal" ∨ t = "glacier" ∨
        t = "spring" := by
  unfold ObjectType.IsValid ObjectTypeRiver ObjectTypeLake ObjectTypeReservoir
    ObjectTypeCanal ObjectTypeGlacier ObjectTypeSpring
  simp only [Bool.or_eq_true, beq_iff_eq, or_assoc]

theorem mem_permittedShapes_iff (tag : String) (t : ObjectType) :
    tag ∈ permittedShapes t ↔
      ((t = "river" ∨ t = "canal") ∧ (tag = "LineString" ∨ tag = "MultiLineString")) ∨
      ((t = "lake" ∨ t = "reservoir" ∨ t = "glacier") ∧
        (tag = "Polygon" ∨ tag = "MultiPolygon")) ∨
      (t = "spring" ∧ tag = "Point") := by
  unfold permittedShapes AllowedGeometryTypes ObjectTypeRiver ObjectTypeLake
    ObjectTypeReservoir ObjectTypeCanal ObjectTypeGlacier ObjectTypeSpring
  by_cases h1 : t = "river"
  · subst h1
    simp
  · by_cases h2 : t = "canal"
    · subst h2
      simp
    · by_cases h3 : t = "lake"
      · subst h3
        simp
      · by_cases h4 : t = "reservoir"
        · subst h4
          simp
        · by_cases h5 : t = "glacier"
          · subst h5
            simp
          · by_cases h6 : t = "spring"
            · subst h6
              simp
            · simp [h1, h2, h3, h4, h5, h6]

/-- C20. Permitted-shape table: `IsGeometryTypeValid tag t` is true exactly when `t` is
river or canal and `tag` is LineString or MultiLineString, or `t` is lake, reservoir or
glacier and `tag` is Polygon or MultiPolygon, or `t` is spring and `tag` is Point; the
recognized types (`ObjectType.IsValid`) are these six, each has a non-empty permitted
set, and for an unrecognized type the function is false for every tag. -/
theorem permitted_shape_table :
    (∀ (tag : String) (t : ObjectType), IsGeometryTypeValid tag t = true ↔
      ((t = "river" ∨ t = "canal") ∧ (tag = "LineString" ∨ tag = "MultiLineString")) ∨
      ((t = "lake" ∨ t = "reservoir" ∨ t = "glacier") ∧
        (tag = "Polygon" ∨ tag = "MultiPolygon")) ∨
      (t = "spring" ∧ tag = "Point")) ∧
    (∀ t : ObjectType, ObjectType.IsValid t = true ↔
      t = "river" ∨ t = "lake" ∨ t = "reservoir" ∨ t = "canal" ∨ t = "glacier" ∨
        t = "spring") ∧
    (∀ t : ObjectType, ObjectType.IsValid t = true →
      ∃ tag rest, AllowedGeometryTypes t = some (tag :: rest)) ∧
    (∀ t : ObjectType, ObjectType.IsValid t = false →
      ∀ tag : String, IsGeometryTypeValid tag t = false) := by
  refine ⟨?_, isValid_iff, ?_, ?_⟩
  · intro tag t
    rw [isGeometryTypeValid_iff, mem_permittedShapes_iff]
  · intro t ht
    rcases (isValid_iff t).mp ht with h | h | h | h | h | h <;> subst h <;>
      exact ⟨_, _, rfl⟩
  · intro t ht tag
    rw [← Bool.not_eq_true, isValid_iff] at ht
    rw [← Bool.not_eq_true, isGeometryTypeValid_iff, mem_permittedShapes_iff]
    rintro (⟨h | h, _⟩ | ⟨h | h | h, _⟩ | ⟨h, _⟩) <;> apply ht <;> simp [h]

/-- Witness for C20: a LineString is valid for a canal, and nothing is valid for the
unrecognized type "sea". -/
theorem permitted_shape_table_witness :
    IsGeometryTypeValid "LineString" "canal" = true ∧
      IsGeometryTypeValid "Polygon" "sea" = false :=
  ⟨(permitted_shape_table.1 "LineString" "canal").mpr
      (Or.inl ⟨Or.inr rfl, Or.inl rfl⟩),
    permitted_shape_table.2.2.2 "sea" (by decide) "Polygon"⟩

theorem bind_required (req : CreateWaterObjectRequest) (h : req.NameKZ = "") :
    ∃ msg, ShouldBindJSON (some req) = .error msg := by
  unfold ShouldBindJSON
  simp only [h, true_or, if_true]
  exact ⟨_, rfl⟩

/-- The create handler answers 400 and leaves the table alone when the body does not
bind or the object type is not recognized. -/
theorem createHandler_rejects (codec : Codec) (f : Fault) (dbID : Int)
    (dbCanonicalID : UUID) (now : Time) (s : Table)
    (body : Option CreateWaterObjectRequest) (userID : Int)
    (h : (∃ msg, ShouldBindJSON body = .error msg) ∨
      ∃ req, ShouldBindJSON body = .ok req ∧ ObjectType.IsValid req.ObjectType = false) :
    WaterObjectHandler.Create codec f dbID dbCanonicalID now s body userID =
      (s, ⟨400, "validation_error", none⟩) := by
  unfold WaterObjectHandler.Create
  rcases h with ⟨msg, hb⟩ | ⟨req, hb, ht⟩
  · rw [hb]
  · rw [hb]
    simp only [ht, Bool.not_false, if_true]

/-- C19. Create validation: `WaterObject.Validate` returns an error exactly when the
name `NameKZ` is empty or the object type is not one of river, lake, reservoir, canal,
glacier, spring; with an empty name the error is `ErrNameRequired` whatever the type,
otherwise `ErrInvalidObjectType`; and the create handler answers 400 and leaves the
table as it was when the name is empty or the object type is not recognized. -/
theorem create_validation :
    (∀ w : WaterObject, (∃ e, w.Validate = .error e) ↔
      (w.NameKZ = "" ∨
        ¬ (w.ObjectType = "river" ∨ w.ObjectType = "lake" ∨ w.ObjectType = "reservoir" ∨
          w.ObjectType = "canal" ∨ w.ObjectType = "glacier" ∨ w.ObjectType = "spring"))) ∧
    (∀ w : WaterObject, w.NameKZ = "" → w.Validate = .error .ErrNameRequired) ∧
    (∀ w : WaterObject, w.NameKZ ≠ "" →
      ¬ (w.ObjectType = "river" ∨ w.ObjectType = "lake" ∨ w.ObjectType = "reservoir" ∨
        w.ObjectType = "canal" ∨ w.ObjectType = "glacier" ∨ w.ObjectType = "spring") →
      w.Validate = .error .ErrInvalidObjectType) ∧
    (∀ (codec : Codec) (f : Fault) (dbID : Int) (dbCanonicalID : UUID) (now : Time)
        (s : Table) (req : CreateWaterObjectRequest) (userID : Int),
      (req.NameKZ = "" ∨
        ¬ (req.ObjectType = "river" ∨ req.ObjectType = "lake" ∨
          req.ObjectType = "reservoir" ∨ req.ObjectType = "canal" ∨
          req.ObjectType = "glacier" ∨ req.ObjectType = "spring")) →
      WaterObjectHandler.Create codec f dbID dbCanonicalID now s (some req) userID =
        (s, ⟨400, "validation_error", none⟩)) := by
  have hname : ∀ w : WaterObject, w.NameKZ = "" → w.Validate = .error .ErrNameRequired := by
    intro w h
    unfold WaterObject.Validate
    rw [if_pos h]
  have htype : ∀ w : WaterObject, w.NameKZ ≠ "" →
      ¬ (w.ObjectType = "river" ∨ w.ObjectType = "lake" ∨ w.ObjectType = "reservoir" ∨
        w.ObjectType = "canal" ∨ w.ObjectType = "glacier" ∨ w.ObjectType = "spring") →
      w.Validate = .error .ErrInvalidObjectType := by
    intro w h1 h2
    have hv : ObjectType.IsValid w.ObjectType = false := by
      rw [← Bool.not_eq_true, isValid_iff]
      exact h2
    unfold WaterObject.Validate
    rw [if_neg h1]
    simp only [hv, Bool.not_false, if_true]
  refine ⟨?_, hname, htype, ?_⟩
  · intro w
    constructor
    · rintro ⟨e, he⟩
      by_cases h1 : w.NameKZ = ""
      · exact Or.inl h1
      · right
        intro h2
        have hv := (isValid_iff w.ObjectType).mpr h2
        unfold WaterObject.Validate at he
        rw [if_neg h1] at he
        simp [hv] at he
    · rintro (h1 | h2)
      · exact ⟨_, hname w h1⟩
      · by_cases h1 : w.NameKZ = ""
        · exact ⟨_, hname w h1⟩
        · exact ⟨_, htype w h1 h2⟩
  · intro codec f dbID dbCanonicalID now s req userID h
    apply createHandler_rejects
    by_cases h1 : req.NameKZ = ""
    · exact Or.inl (bind_required req h1)
    · have h2 : ¬ (req.ObjectType = "river" ∨ req.ObjectType = "lake" ∨
          req.ObjectType = "reservoir" ∨ req.ObjectType = "canal" ∨
          req.ObjectType = "glacier" ∨ req.ObjectType = "spring") := by
        rcases h with h | h
        · exact absurd h h1
        · exact h
      have hv : ObjectType.IsValid req.ObjectType = false := by
        rw [← Bool.not_eq_true, isValid_iff]
        exact h2
      cases hb : ShouldBindJSON (some req) with
      | error msg => exact Or.inl ⟨msg, rfl⟩
      | ok req2 =>
        right
        have hreq : req2 = req := by
          unfold ShouldBindJSON at hb
          by_cases hc : req.NameKZ = "" ∨ req.ObjectType = "" ∨ req.Geometry = []
          · simp only [hc, if_true] at hb
            exact absurd hb (by simp)
          · simp only [hc, if_false] at hb
            exact (Except.ok.inj hb).symm
        exact ⟨req2, rfl, by rw [hreq]; exact hv⟩

/-- Witness for C19: the zero object has no name, and a create request without a name
is answered 400 with the table untouched. -/
theorem create_validation_witness :
    zeroWaterObject.Validate = .error .ErrNameRequired ∧
      WaterObjectHandler.Create sampleCodec .none 4 "C" 10 sampleTable
        (some (sampleBody "" "lake" [2])) 7 = (sampleTable, ⟨400, "validation_error", none⟩) :=
  ⟨create_validation.2.1 zeroWaterObject rfl,
    create_validation.2.2.2 sampleCodec .none 4 "C" 10 sampleTable (sampleBody "" "lake" [2])
      7 (Or.inl rfl)⟩

/-! ## Submit, reject, delete: lemmas and claims -/

/-- Under the primary key, a row-wise rewrite guarded by a `WHERE` clause that one row
with the given id satisfies is the rewrite of the row with that id. -/
theorem map_where_eq_map_id {s : Table} (hpk : PrimaryKey s) (id : Int)
    (w : WaterObject → Bool) (g : WaterObject → WaterObject) (r : WaterObject)
    (hr : r ∈ s) (hid : r.ID = id) (hw : w r = true) (hwid : ∀ x, w x = true → x.ID = id) :
    s.map (fun x => if w x = true then g x else x) =
      s.map (fun x => if x.ID = id then g x else x) := by
  apply List.map_congr_left
  intro x hx
  by_cases hxid : x.ID = id
  · have hxr : x = r := pk_inj hpk hx hr (by rw [hxid, hid])
    rw [if_pos hxid, if_pos (by rw [hxr]; exact hw)]
  · have hnw : ¬ w x = true := fun h => hxid (hwid x h)
    rw [if_neg hxid, if_neg hnw]

theorem any_iff_exists (s : Table) (w : WaterObject → Bool) :
    s.any w = true ↔ ∃ r ∈ s, w r = true := by
  rw [List.any_eq_true]

/-- C13. Submit: on a table that respects its primary key, a fault-free
`SubmitForReview` succeeds exactly when a record with that id exists, was created by
that user and is Draft or Rejected; then the table is the old one with that record's
status set to Pending (and its `updated_at` to the time of the call) and every other
record as it was; otherwise it fails with `ErrNotFound` and the table is unchanged. -/
theorem submit_contract (s : Table) (id userID : Int) (now : Time) (hpk : PrimaryKey s) :
    ((SubmitForReview .none now s id userID).2 = .ok () ↔
      ∃ r ∈ s, r.ID = id ∧ r.CreatedBy = userID ∧
        (r.Status = StatusDraft ∨ r.Status = StatusRejected)) ∧
    ((∃ r ∈ s, r.ID = id ∧ r.CreatedBy = userID ∧
        (r.Status = StatusDraft ∨ r.Status = StatusRejected)) →
      SubmitForReview .none now s id userID =
        (s.map (fun x =>
            if x.ID = id then { x with Status := StatusPending, UpdatedAt := now } else x),
          .ok ())) ∧
    ((¬ ∃ r ∈ s, r.ID = id ∧ r.CreatedBy = userID ∧
        (r.Status = StatusDraft ∨ r.Status = StatusRejected)) →
      SubmitForReview .none now s id userID = (s, .error .ErrNotFound)) := by
  have hany : s.any (submitWhere id userID) = true ↔
      ∃ r ∈ s, r.ID = id ∧ r.CreatedBy = userID ∧
        (r.Status = StatusDraft ∨ r.Status = StatusRejected) := by
    rw [any_iff_exists]
    constructor
    · rintro ⟨r, hr, hw⟩
      exact ⟨r, hr, (submitWhere_iff id userID r).mp hw⟩
    · rintro ⟨r, hr, hw⟩
      exact ⟨r, hr, (submitWhere_iff id userID r).mpr hw⟩
  refine ⟨?_, ?_, ?_⟩
  · rw [← hany]
    unfold SubmitForReview
    by_cases h : s.any (submitWhere id userID) = true
    · simp [h]
    · simp [h]
  · intro hex
    obtain ⟨r, hr, hid, hown, hst⟩ := hex
    have h : s.any (submitWhere id userID) = true := hany.mpr ⟨r, hr, hid, hown, hst⟩
    unfold SubmitForReview
    simp only [reduceCtorEq, if_false, h, if_true]
    rw [map_where_eq_map_id hpk id (submitWhere id userID) _ r hr hid
      ((submitWhere_iff id userID r).mpr ⟨hid, hown, hst⟩)
      (fun x hx => ((submitWhere_iff id userID x).mp hx).1)]
  · intro hno
    have h : ¬ s.any (submitWhere id userID) = true := fun hc => hno (hany.mp hc)
    unfold SubmitForReview
    simp only [reduceCtorEq, if_false, h]

/-- Witness for C13: the author submits a draft; another user does not. -/
theorem submit_contract_witness :
    SubmitForReview .none 9 [sampleRow 1 "A" StatusDraft 7, sampleRow 2 "B" StatusDraft 8]
        1 7 =
      ([{ sampleRow 1 "A" StatusDraft 7 with Status := StatusPending, UpdatedAt := 9 },
          sampleRow 2 "B" StatusDraft 8], .ok ()) ∧
    SubmitForReview .none 9 [sampleRow 1 "A" StatusDraft 7, sampleRow 2 "B" StatusDraft 8]
        1 8 =
      ([sampleRow 1 "A" StatusDraft 7, sampleRow 2 "B" StatusDraft 8],
        .error .ErrNotFound) :=
  ⟨(submit_contract [sampleRow 1 "A" StatusDraft 7, sampleRow 2 "B" StatusDraft 8] 1 7 9
      (by decide)).2.1 ⟨sampleRow 1 "A" StatusDraft 7, by simp, rfl, rfl, Or.inl rfl⟩,
    (submit_contract [sampleRow 1 "A" StatusDraft 7, sampleRow 2 "B" StatusDraft 8] 1 8 9
      (by decide)).2.2 (by decide)⟩

theorem reject_any_iff (s : Table) (id : Int) :
    s.any (pendingWhere id) = true ↔ ∃ r ∈ s, r.ID = id ∧ r.Status = StatusPending := by
  rw [any_iff_exists]
  constructor
  · rintro ⟨r, hr, hw⟩
    exact ⟨r, hr, (pendingWhere_iff id r).mp hw⟩
  · rintro ⟨r, hr, hw⟩
    exact ⟨r, hr, (pendingWhere_iff id r).mpr hw⟩

/-- The reject handler refuses a body whose reason is empty or absent, whatever the
rest of the request, and touches nothing. -/
theorem rejectHandler_empty_reason (f : Fault) (now : Time) (s : Table)
    (idParam : Option Int) (body : Option RejectRequest) (reviewerID : Int)
    (h : body = none ∨ body = some ⟨""⟩) :
    (AdminHandler.Reject f now s idParam body reviewerID).1 = s ∧
      (AdminHandler.Reject f now s idParam body reviewerID).2.status = 400 := by
  unfold AdminHandler.Reject
  cases idParam with
  | none => exact ⟨rfl, rfl⟩
  | some id =>
    rcases h with h | h <;> subst h <;> exact ⟨rfl, rfl⟩

/-- With a non-empty reason the reject handler hands the request to the repository and
answers 200 exactly when the repository succeeds. -/
theorem rejectHandler_passes (f : Fault) (now : Time) (s : Table) (id : Int)
    (reason : String) (reviewerID : Int) (hreason : reason ≠ "") :
    (AdminHandler.Reject f now s (some id) (some ⟨reason⟩) reviewerID).1 =
        (Reject f now s id reviewerID reason).1 ∧
      ((AdminHandler.Reject f now s (some id) (some ⟨reason⟩) reviewerID).2.status = 200 ↔
        (Reject f now s id reviewerID reason).2 = .ok ()) := by
  unfold AdminHandler.Reject ShouldBindRejectJSON
  simp only [hreason, if_false]
  rcases hres : Reject f now s id reviewerID reason with ⟨s2, res⟩
  cases res with
  | error e =>
    cases e with
    | ErrNotFound => simp
    | storage c => simp
  | ok u => simp

/-- C14. Reject: on a table that respects its primary key, for a non-empty reason, a
fault-free `Reject` succeeds exactly when the record with that id is Pending; then the
table is the old one with that record's status set to Rejected, `rejection_reason` the
reason, `reviewed_by` the reviewer (and `updated_at` the time of the call) and every
other record as it was; when no record with that id is Pending it fails with
`ErrNotFound` and the table is unchanged; the handler passes such a request on
unchanged; and a request whose reason is empty or absent is refused by the handler with
status 400 and changes nothing. -/
theorem reject_contract (s : Table) (id reviewerID : Int) (now : Time) (reason : String)
    (hpk : PrimaryKey s) (hreason : reason ≠ "") :
    ((Reject .none now s id reviewerID reason).2 = .ok () ↔
      ∃ r ∈ s, r.ID = id ∧ r.Status = StatusPending) ∧
    ((∃ r ∈ s, r.ID = id ∧ r.Status = StatusPending) →
      Reject .none now s id reviewerID reason =
        (s.map (fun x =>
            if x.ID = id then
              { x with
                Status := StatusRejected, RejectionReason := some reason,
                ReviewedBy := some reviewerID, UpdatedAt := now }
            else x),
          .ok ())) ∧
    ((¬ ∃ r ∈ s, r.ID = id ∧ r.Status = StatusPending) →
      Reject .none now s id reviewerID reason = (s, .error .ErrNotFound)) ∧
    ((AdminHandler.Reject .none now s (some id) (some ⟨reason⟩) reviewerID).1 =
        (Reject .none now s id reviewerID reason).1 ∧
      ((AdminHandler.Reject .none now s (some id) (some ⟨reason⟩) reviewerID).2.status = 200 ↔
        (Reject .none now s id reviewerID reason).2 = .ok ())) ∧
    (∀ (f : Fault) (idParam : Option Int) (body : Option RejectRequest),
      (body = none ∨ body = some ⟨""⟩) →
      (AdminHandler.Reject f now s idParam body reviewerID).1 = s ∧
        (AdminHandler.Reject f now s idParam body reviewerID).2.status = 400) := by
  refine ⟨?_, ?_, ?_, rejectHandler_passes .none now s id reason reviewerID hreason, ?_⟩
  · rw [← reject_any_iff]
    unfold Reject
    by_cases h : s.any (pendingWhere id) = true
    · simp [h]
    · simp [h]
  · intro hex
    obtain ⟨r, hr, hid, hst⟩ := hex
    have h : s.any (pendingWhere id) = true := (reject_any_iff s id).mpr ⟨r, hr, hid, hst⟩
    unfold Reject
    simp only [reduceCtorEq, if_false, h, if_true]
    rw [map_where_eq_map_id hpk id (pendingWhere id) _ r hr hid
      ((pendingWhere_iff id r).mpr ⟨hid, hst⟩)
      (fun x hx => ((pendingWhere_iff id x).mp hx).1)]
  · intro hno
    have h : ¬ s.any (pendingWhere id) = true := fun hc => hno ((reject_any_iff s id).mp hc)
    unfold Reject
    simp only [reduceCtorEq, if_false, h]
  · intro f idParam body hb
    exact rejectHandler_empty_reason f now s idParam body reviewerID hb

/-- Witness for C14: rejecting the pending row 2 of the sample table. -/
theorem reject_contract_witness :
    Reject .none 9 sampleTable 2 42 "wrong basin" =
      ([sampleRow 1 "A" StatusPublished 7,
          { sampleRow 2 "A" StatusPending 7 with
            Status := StatusRejected, RejectionReason := some "wrong basin",
            ReviewedBy := some 42, UpdatedAt := 9 },
          sampleRow 3 "B" StatusPublished 8], .ok ()) :=
  (reject_contract sampleTable 2 42 9 "wrong basin" (by decide) (by decide)).2.1
    ⟨sampleRow 2 "A" StatusPending 7, by simp [sampleTable], rfl, rfl⟩

theorem delete_any_iff (s : Table) (id userID : Int) :
    s.any (deleteWhere id userID) = true ↔
      ∃ r ∈ s, r.ID = id ∧ r.CreatedBy = userID ∧ r.Status = StatusDraft := by
  rw [any_iff_exists]
  constructor
  · rintro ⟨r, hr, hw⟩
    exact ⟨r, hr, (deleteWhere_iff id userID r).mp hw⟩
  · rintro ⟨r, hr, hw⟩
    exact ⟨r, hr, (deleteWhere_iff id userID r).mpr hw⟩

/-- Under the primary key, filtering out the rows a `WHERE` clause selects, when the
row `r` satisfies it and every row satisfying it carries `r`'s id, takes out `r` and
nothing else. -/
theorem filter_removes_one {s : Table} (hpk : PrimaryKey s) (w : WaterObject → Bool)
    (r : WaterObject) (hr : r ∈ s) (hw : w r = true)
    (hwid : ∀ x, w x = true → x.ID = r.ID) :
    ∃ before after, s = before ++ r :: after ∧
      s.filter (fun x => !w x) = before ++ after := by
  obtain ⟨before, after, hs⟩ := List.append_of_mem hr
  refine ⟨before, after, hs, ?_⟩
  subst hs
  unfold PrimaryKey at hpk
  rw [List.map_append, List.map_cons, List.nodup_append] at hpk
  obtain ⟨_, hnd2, hdisj⟩ := hpk
  rw [List.nodup_cons] at hnd2
  have hb : ∀ x ∈ before, (!w x) = true := by
    intro x hx
    rw [Bool.not_eq_true']
    by_contra hc
    rw [Bool.not_eq_false] at hc
    have h1 : x.ID ∈ before.map (fun r => r.ID) := List.mem_map.mpr ⟨x, hx, rfl⟩
    have h2 : x.ID ∈ r.ID :: after.map (fun r => r.ID) := by
      rw [hwid x hc]
      exact List.mem_cons_self _ _
    exact hdisj h1 h2
  have ha : ∀ x ∈ after, (!w x) = true := by
    intro x hx
    rw [Bool.not_eq_true']
    by_contra hc
    rw [Bool.not_eq_false] at hc
    apply hnd2.1
    rw [← hwid x hc]
    exact List.mem_map.mpr ⟨x, hx, rfl⟩
  rw [List.filter_append, List.filter_cons]
  simp only [hw, Bool.not_true, Bool.false_eq_true, if_false]
  rw [List.filter_eq_self.mpr hb, List.filter_eq_self.mpr ha]

/-- C15. Delete: on a table that respects its primary key, a fault-free `Delete`
succeeds exactly when a record with that id exists, is Draft and was created by that
user; then exactly that record is taken out of the table, the others staying in order;
for a record that is Pending, Published, Archived or Rejected, or that was created by
another user, and when there is no record with that id, it fails with `ErrNotFound`
and the table is unchanged. -/
theorem delete_contract (s : Table) (id userID : Int) (hpk : PrimaryKey s) :
    ((Delete .none s id userID).2 = .ok () ↔
      ∃ r ∈ s, r.ID = id ∧ r.CreatedBy = userID ∧ r.Status = StatusDraft) ∧
    (∀ r ∈ s, r.ID = id → r.CreatedBy = userID → r.Status = StatusDraft →
      ∃ before after, s = before ++ r :: after ∧
        Delete .none s id userID = (before ++ after, .ok ())) ∧
    (∀ r ∈ s, r.ID = id →
      (r.Status = StatusPending ∨ r.Status = StatusPublished ∨ r.Status = StatusArchived ∨
        r.Status = StatusRejected ∨ r.CreatedBy ≠ userID) →
      Delete .none s id userID = (s, .error .ErrNotFound)) ∧
    ((∀ r ∈ s, r.ID ≠ id) → Delete .none s id userID = (s, .error .ErrNotFound)) := by
  have hnot : (¬ ∃ r ∈ s, r.ID = id ∧ r.CreatedBy = userID ∧ r.Status = StatusDraft) →
      Delete .none s id userID = (s, .error .ErrNotFound) := by
    intro hno
    have h : ¬ s.any (deleteWhere id userID) = true :=
      fun hc => hno ((delete_any_iff s id userID).mp hc)
    unfold Delete
    simp only [reduceCtorEq, if_false, h]
  refine ⟨?_, ?_, ?_, ?_⟩
  · rw [← delete_any_iff]
    unfold Delete
    by_cases h : s.any (deleteWhere id userID) = true
    · simp [h]
    · simp [h]
  · intro r hr hid hown hst
    have hw : deleteWhere id userID r = true :=
      (deleteWhere_iff id userID r).mpr ⟨hid, hown, hst⟩
    have h : s.any (deleteWhere id userID) = true :=
      (delete_any_iff s id userID).mpr ⟨r, hr, hid, hown, hst⟩
    obtain ⟨before, after, hs, hfil⟩ := filter_removes_one hpk (deleteWhere id userID) r hr hw
      (fun x hx => by rw [((deleteWhere_iff id userID x).mp hx).1, hid])
    refine ⟨before, after, hs, ?_⟩
    unfold Delete
    simp only [reduceCtorEq, if_false, h, if_true]
    rw [hfil]
  · intro r hr hid hbad
    apply hnot
    rintro ⟨x, hx, hxid, hxown, hxst⟩
    have hxr : x = r := pk_inj hpk hx hr (by rw [hxid, hid])
    subst hxr
    rcases hbad with h | h | h | h | h
    · rw [h] at hxst
      exact absurd hxst (by decide)
    · rw [h] at hxst
      exact absurd hxst (by decide)
    · rw [h] at hxst
      exact absurd hxst (by decide)
    · rw [h] at hxst
      exact absurd hxst (by decide)
    · exact h hxown
  · intro hnone
    apply hnot
    rintro ⟨x, hx, hxid, _⟩
    exact hnone x hx hxid

/-- Witness for C15: the author deletes draft 1; the pending row 2 of the sample table
cannot be deleted. -/
theorem delete_contract_witness :
    (∃ before after,
      [sampleRow 1 "A" StatusDraft 7, sampleRow 2 "B" StatusDraft 8] =
          before ++ sampleRow 1 "A" StatusDraft 7 :: after ∧
        Delete .none [sampleRow 1 "A" StatusDraft 7, sampleRow 2 "B" StatusDraft 8] 1 7 =
          (before ++ after, .ok ())) ∧
    Delete .none sampleTable 2 7 = (sampleTable, .error .ErrNotFound) :=
  ⟨(delete_contract [sampleRow 1 "A" StatusDraft 7, sampleRow 2 "B" StatusDraft 8] 1 7
      (by decide)).2.1 (sampleRow 1 "A" StatusDraft 7) (by simp) rfl rfl rfl,
    (delete_contract sampleTable 2 7 (by decide)).2.2.1 (sampleRow 2 "A" StatusPending 7)
      (by simp [sampleTable]) rfl (Or.inl rfl)⟩

/-! ## Update and the rejection reason: lemmas and claims -/

/-- A fault-free `Update` aimed at an editable record, under the primary key: the
table it leaves and the object it returns. -/
theorem update_editable_run (s : Table) (obj : WaterObject) (now : Time) (r : WaterObject)
    (hpk : PrimaryKey s) (hr : r ∈ s) (hid : r.ID = obj.ID)
    (hst : r.Status = StatusDraft ∨ r.Status = StatusRejected) :
    Update .none now s obj =
      (s.map (fun x => if updateWhere obj.ID x then updateSet obj now x else x),
        .ok { obj with Version := r.Version, UpdatedAt := now }) := by
  have hf := update_find_some_of_editable s obj.ID r hpk hr hid hst
  unfold Update
  simp only [hf, reduceCtorEq, if_false]
  rfl

/-- C11, as stated, fails: a fault-free `Update` of a Rejected record succeeds and leaves
it Rejected, with its rejection reason still set. -/
theorem update_keeps_rejected_status :
    (∃ res, (Update .none 20 [rejectedRow] (sampleRequest 1 7)).2 = .ok res) ∧
      (Update .none 20 [rejectedRow] (sampleRequest 1 7)).1.map
          (fun r => (r.Status, r.RejectionReason)) =
        [(StatusRejected, some "wrong basin")] ∧
      StatusRejected ≠ StatusDraft :=
  ⟨⟨_, rfl⟩, by decide, by decide⟩

/-- C11, amended. An edit does not withdraw a rejection: on a table that respects its
primary key, for a record in Rejected status, a fault-free `Update` aimed at it
succeeds, stores the record with the request's attributes, and leaves it with status
Rejected and with its `rejection_reason` as it was. -/
theorem update_keeps_rejection (s : Table) (obj : WaterObject) (now : Time)
    (r : WaterObject) (hpk : PrimaryKey s) (hr : r ∈ s) (hid : r.ID = obj.ID)
    (hst : r.Status = StatusRejected) :
    (∃ res, (Update .none now s obj).2 = .ok res) ∧
    updateSet obj now r ∈ (Update .none now s obj).1 ∧
    (∀ r2 ∈ (Update .none now s obj).1, r2.ID = r.ID →
      r2.Status = StatusRejected ∧ r2.RejectionReason = r.RejectionReason) := by
  have hw : updateWhere obj.ID r = true := (updateWhere_iff obj.ID r).mpr ⟨hid, Or.inr hst⟩
  rw [update_editable_run s obj now r hpk hr hid (Or.inr hst)]
  refine ⟨⟨_, rfl⟩, ?_, ?_⟩
  · refine List.mem_map.mpr ⟨r, hr, ?_⟩
    rw [if_pos hw]
  · intro r2 hr2 hid2
    obtain ⟨a, ha, rfl⟩ := List.mem_map.mp hr2
    have hfa := updateRewrite_fields obj now a
    rw [hfa.1] at hid2
    have har : a = r := pk_inj hpk ha hr hid2
    subst har
    rw [if_pos hw]
    exact ⟨hst, rfl⟩

/-- Witness for the amended C11: the rejected sample row is edited. -/
theorem update_keeps_rejection_witness :
    updateSet (sampleRequest 1 7) 20 rejectedRow ∈
      (Update .none 20 [rejectedRow] (sampleRequest 1 7)).1 :=
  (update_keeps_rejection [rejectedRow] (sampleRequest 1 7) 20 rejectedRow (by decide)
    (by simp) rfl rfl).2.1

theorem draft_ne_rejected : StatusDraft ≠ StatusRejected := by decide

theorem pending_ne_rejected : StatusPending ≠ StatusRejected := by decide

theorem published_ne_rejected : StatusPublished ≠ StatusRejected := by decide

theorem archived_ne_rejected : StatusArchived ≠ StatusRejected := by decide

/-- A row-wise rewrite that leaves no row Rejected without a reason keeps that half of
the invariant. -/
theorem rhr_map {s : Table} (g : WaterObject → WaterObject)
    (hg : ∀ r, (r.Status = StatusRejected → r.RejectionReason ≠ none) →
      (g r).Status = StatusRejected → (g r).RejectionReason ≠ none)
    (h : RejectedHasReason s) : RejectedHasReason (s.map g) := by
  intro r2 hr2
  obtain ⟨a, ha, rfl⟩ := List.mem_map.mp hr2
  exact hg a (h a ha)

theorem rhr_step (op : Op) (s : Table) (h : RejectedHasReason s) :
    RejectedHasReason (op.run s) := by
  cases op with
  | create f dbID dbCanonicalID now obj =>
    show RejectedHasReason (Create f dbID dbCanonicalID now s obj).1
    unfold Create
    split
    · exact h
    · split
      · exact h
      · intro r hr hst
        rcases List.mem_append.mp hr with hr | hr
        · exact h r hr hst
        · rw [List.mem_singleton] at hr
          subst hr
          exact absurd hst draft_ne_rejected
  | update f now obj =>
    show RejectedHasReason (Update f now s obj).1
    rcases update_table f now s obj with hu | hu
    · rw [hu]
      exact h
    · rw [hu]
      apply rhr_map _ _ h
      intro r hr
      split
      · exact hr
      · exact hr
  | submit f now id userID =>
    show RejectedHasReason (SubmitForReview f now s id userID).1
    unfold SubmitForReview
    split
    · exact h
    · split
      · apply rhr_map _ _ h
        intro r hr
        split
        · intro hst
          exact absurd hst pending_ne_rejected
        · exact hr
      · exact h
  | approve f now id reviewerID =>
    show RejectedHasReason (Approve f now s id reviewerID).1
    rcases approve_cases f now s id reviewerID with ⟨e, he⟩ | ⟨row, _, _, _, _, hok⟩
    · rw [he]
      exact h
    · rw [hok, publish_archive_eq]
      apply rhr_map _ _ h
      intro r hr
      unfold approveRow
      split
      · intro hst
        exact absurd hst published_ne_rejected
      · split
        · intro hst
          exact absurd hst archived_ne_rejected
        · exact hr
  | reject f now id reviewerID reason =>
    show RejectedHasReason (Reject f now s id reviewerID reason).1
    unfold Reject
    split
    · exact h
    · split
      · apply rhr_map _ _ h
        intro r hr
        split
        · intro _
          exact Option.some_ne_none reason
        · exact hr
      · exact h
  | delete f id userID =>
    show RejectedHasReason (Delete f s id userID).1
    unfold Delete
    split
    · exact h
    · split
      · intro r hr
        exact h r (List.mem_filter.mp hr).1
      · exact h

theorem rhr_runOps (ops : List Op) :
    ∀ s : Table, RejectedHasReason s → RejectedHasReason (runOps ops s) := by
  induction ops with
  | nil =>
    intro s h
    exact h
  | cons op rest ih =>
    intro s h
    exact ih (op.run s) (rhr_step op s h)

/-- C16, as stated, fails: after create, submit, reject and a second submit, the table
reachable from the empty table holds a Pending record whose rejection reason is still
set. -/
theorem resubmitted_keeps_reason :
    Reachable (runOps resubmitted []) ∧
      (runOps resubmitted []).map (fun r => (r.Status, r.RejectionReason)) =
        [(StatusPending, some "wrong basin")] ∧
      ¬ RejectionReasonIff (runOps resubmitted []) :=
  ⟨⟨resubmitted, rfl⟩, by decide, by decide⟩

/-- C16, amended. In every table reachable from the empty table by any sequence of
create, update, submit, approve, reject and delete calls, every record whose status is
Rejected has its `rejection_reason` set. -/
theorem rejected_has_reason (s : Table) (h : Reachable s) : RejectedHasReason s := by
  obtain ⟨ops, rfl⟩ := h
  apply rhr_runOps
  intro r hr
  exact absurd hr (List.not_mem_nil r)

/-- Witness for the amended C16: the table after create, submit and reject. -/
theorem rejected_has_reason_witness :
    (runOps rejectedOnce []).map (fun r => (r.Status, r.RejectionReason)) =
        [(StatusRejected, some "wrong basin")] ∧
      RejectedHasReason (runOps rejectedOnce []) :=
  ⟨by decide, rejected_has_reason (runOps rejectedOnce []) ⟨rejectedOnce, rfl⟩⟩

/-! ## The request paths: lemmas and claims -/

/-- What the create handler does with a request that passes its four checks. -/
theorem createHandler_valid (codec : Codec) (f : Fault) (dbID : Int) (dbCanonicalID : UUID)
    (now : Time) (s : Table) (req : CreateWaterObjectRequest) (userID : Int)
    (geom : Geometry) (hb : ShouldBindJSON (some req) = .ok req)
    (ht : ObjectType.IsValid req.ObjectType = true)
    (hv : Validate codec.UnmarshalGeometry req.Geometry req.ObjectType = .ok ())
    (hu : codec.Unmarshal req.Geometry = .ok geom) :
    WaterObjectHandler.Create codec f dbID dbCanonicalID now s (some req) userID =
      ((Create f dbID dbCanonicalID now s
          { requestObject req req.ObjectType geom with CreatedBy := userID }).1,
        match (Create f dbID dbCanonicalID now s
            { requestObject req req.ObjectType geom with CreatedBy := userID }).2 with
        | .error _ => ⟨500, "create_failed", none⟩
        | .ok result => ⟨201, "draft created", some result⟩) := by
  unfold WaterObjectHandler.Create
  simp only [hb, ht, hv, hu, Bool.not_true, Bool.false_eq_true, if_false]
  rcases hres : Create f dbID dbCanonicalID now s
    { requestObject req req.ObjectType geom with CreatedBy := userID } with ⟨s2, res⟩
  cases res <;> rfl

/-- What the update handler does with a request that passes its three checks. -/
theorem updateHandler_valid (codec : Codec) (f : Fault) (now : Time) (s : Table) (id : Int)
    (req : CreateWaterObjectRequest) (userID : Int) (geom : Geometry)
    (hb : ShouldBindJSON (some req) = .ok req)
    (hv : Validate codec.UnmarshalGeometry req.Geometry req.ObjectType = .ok ())
    (hu : codec.Unmarshal req.Geometry = .ok geom) :
    WaterObjectHandler.Update codec f now s (some id) (some req) userID =
      ((Update f now s
          { requestObject req req.ObjectType geom with
            ID := id, UpdatedBy := some userID }).1,
        match (Update f now s
            { requestObject req req.ObjectType geom with
              ID := id, UpdatedBy := some userID }).2 with
        | .error .ErrNotFound => ⟨404, "not_found", none⟩
        | .error _ => ⟨500, "update_failed", none⟩
        | .ok result => ⟨200, "draft updated", some result⟩) := by
  unfold WaterObjectHandler.Update
  simp only [hb, hv, hu]
  rcases hres : Update f now s
    { requestObject req req.ObjectType geom with ID := id, UpdatedBy := some userID }
    with ⟨s2, res⟩
  cases res with
  | error e => cases e <;> rfl
  | ok r => rfl

theorem inRegion_point : ComputedInRegion (OrbGeometry.Point (74, 46)).Bound.Center := by
  decide!

theorem validate_sample_point :
    Validate sampleCodec.UnmarshalGeometry [1] "spring" = .ok () := by
  have hp : (OrbGeometry.Point (74, 46)).GeoJSONType ∈ permittedShapes "spring" := by
    show "Point" ∈ permittedShapes "spring"
    decide
  have htop : ¬ topologyCheck (OrbGeometry.Point (74, 46)) = true := by
    simp [topologyCheck]
  rw [validate_decoded sampleCodec.UnmarshalGeometry [1] (.Point (74, 46)) "spring"
    (by decide) rfl, if_neg (not_not.mpr hp), if_neg (not_not.mpr inRegion_point),
    if_neg htop]

theorem validate_sample_square_lake :
    Validate sampleCodec.UnmarshalGeometry [2] "lake" = .ok () := by
  have hp : (OrbGeometry.Polygon [regionSquare]).GeoJSONType ∈ permittedShapes "lake" := by
    show "Polygon" ∈ permittedShapes "lake"
    decide
  have hin : ComputedInRegion (OrbGeometry.Polygon [regionSquare]).Bound.Center := by
    rw [regionSquare_center]
    exact inRegion_mid
  have htop : ¬ topologyCheck (OrbGeometry.Polygon [regionSquare]) = true := by
    rw [Bool.not_eq_true]
    exact regionSquare_passes
  rw [validate_decoded sampleCodec.UnmarshalGeometry [2] (.Polygon [regionSquare]) "lake"
    (by decide) rfl, if_neg (not_not.mpr hp), if_neg (not_not.mpr hin), if_neg htop]

theorem validate_sample_square_spring :
    Validate sampleCodec.UnmarshalGeometry [2] "spring" =
      .error (.ErrGeometryTypeMismatch ["Point"] "Polygon") := by
  have hp : (OrbGeometry.Polygon [regionSquare]).GeoJSONType ∉ permittedShapes "spring" := by
    show "Polygon" ∉ permittedShapes "spring"
    decide
  rw [validate_decoded sampleCodec.UnmarshalGeometry [2] (.Polygon [regionSquare]) "spring"
    (by decide) rfl, if_pos hp]
  rfl

/-- C12, evaluated at the failing input: user 8 updates the draft that user 7 created;
the handler answers 200 and the row is rewritten, `updated_by` now 8. -/
theorem update_by_other_user :
    (sampleRow 1 "A" StatusDraft 7).CreatedBy ≠ 8 ∧
      WaterObjectHandler.Update sampleCodec .none 20 [sampleRow 1 "A" StatusDraft 7] (some 1)
          (some (sampleBody "Alakol" "spring" [1])) 8 =
        ([{ sampleRow 1 "A" StatusDraft 7 with
            NameKZ := "Alakol", Geometry := pointGeometry, UpdatedBy := some 8,
            UpdatedAt := 20 }],
          ⟨200, "draft updated",
            some { requestObject (sampleBody "Alakol" "spring" [1]) "spring" pointGeometry with
              ID := 1, UpdatedBy := some 8, Version := 1, UpdatedAt := 20 }⟩) := by
  refine ⟨by decide, ?_⟩
  rw [updateHandler_valid sampleCodec .none 20 _ 1 (sampleBody "Alakol" "spring" [1]) 8
    pointGeometry rfl validate_sample_point rfl]
  decide

theorem mismatch_create :
    WaterObjectHandler.Create sampleCodec .none 1 "A" 10 []
        (some (sampleBody "Bulak" "spring" [1])) 7 =
      ([springRow],
        ⟨201, "draft created",
          some { requestObject (sampleBody "Bulak" "spring" [1]) "spring" pointGeometry with
            CreatedBy := 7, ID := 1, CanonicalID := "A", Version := 1, CreatedAt := 10,
            UpdatedAt := 10, Status := StatusDraft }⟩) := by
  rw [createHandler_valid sampleCodec .none 1 "A" 10 [] (sampleBody "Bulak" "spring" [1]) 7
    pointGeometry rfl (by decide) validate_sample_point rfl]
  decide

theorem mismatch_update :
    WaterObjectHandler.Update sampleCodec .none 20 [springRow] (some 1)
        (some (sampleBody "Bulak" "lake" [2])) 7 =
      ([springRowUpdated],
        ⟨200, "draft updated",
          some { requestObject (sampleBody "Bulak" "lake" [2]) "lake" squareGeometry with
            ID := 1, UpdatedBy := some 7, Version := 1, UpdatedAt := 20 }⟩) := by
  rw [updateHandler_valid sampleCodec .none 20 [springRow] 1 (sampleBody "Bulak" "lake" [2]) 7
    squareGeometry rfl validate_sample_square_lake rfl]
  decide

theorem mismatch_table : runRequests sampleCodec mismatchRequests [] = [springRowUpdated] := by
  unfold runRequests mismatchRequests
  simp only [List.foldl, Request.run]
  rw [mismatch_create]
  simp only
  rw [mismatch_update]

/-- C17, evaluated at the failing input: a spring is created with a point (answer 201),
then updated with a request naming the type lake and carrying a polygon (answer 200).
The stored record is still a spring and now holds the polygon, which the validator
refuses for a spring with a type mismatch. -/
theorem stored_geometry_type_mismatch :
    (WaterObjectHandler.Create sampleCodec .none 1 "A" 10 []
        (some (sampleBody "Bulak" "spring" [1])) 7).2.status = 201 ∧
    (WaterObjectHandler.Update sampleCodec .none 20 [springRow] (some 1)
        (some (sampleBody "Bulak" "lake" [2])) 7).2.status = 200 ∧
    (runRequests sampleCodec mismatchRequests []).map (fun r => (r.ObjectType, r.Geometry)) =
      [("spring", squareGeometry)] ∧
    (∀ r ∈ runRequests sampleCodec mismatchRequests [],
      ValidateFromEntity sampleCodec.UnmarshalGeometry sampleCodec.Marshal r.Geometry
          r.ObjectType =
        .error (.validate (.ErrGeometryTypeMismatch ["Point"] "Polygon"))) ∧
    ¬ StoredGeometryValid sampleCodec (runRequests sampleCodec mismatchRequests []) := by
  have hval : ValidateFromEntity sampleCodec.UnmarshalGeometry sampleCodec.Marshal
      springRowUpdated.Geometry springRowUpdated.ObjectType =
        .error (.validate (.ErrGeometryTypeMismatch ["Point"] "Polygon")) := by
    unfold ValidateFromEntity
    have hm : sampleCodec.Marshal springRowUpdated.Geometry = .ok [2] := rfl
    have ht : springRowUpdated.ObjectType = "spring" := rfl
    rw [hm, ht]
    simp only [validate_sample_square_spring]
  rw [mismatch_create, mismatch_update, mismatch_table]
  refine ⟨rfl, rfl, rfl, ?_, ?_⟩
  · intro r hr
    rw [List.mem_singleton] at hr
    rw [hr]
    exact hval
  · intro hall
    have h := hall springRowUpdated (List.mem_singleton.mpr rfl)
    rw [hval] at h
    exact absurd h (by simp)

theorem create_collision_iff (s : Table) (dbID : Int) (dbCanonicalID : UUID) :
    s.any (fun r => r.ID == dbID || r.CanonicalID == dbCanonicalID) = true ↔
      ∃ r ∈ s, r.ID = dbID ∨ r.CanonicalID = dbCanonicalID := by
  rw [List.any_eq_true]
  constructor
  · rintro ⟨r, hr, h⟩
    refine ⟨r, hr, ?_⟩
    simpa using h
  · rintro ⟨r, hr, h⟩
    refine ⟨r, hr, ?_⟩
    simpa using h

/-- A fault-free `Create` with a fresh id and a fresh canonical id succeeds. -/
theorem create_fresh_ok (dbID : Int) (dbCanonicalID : UUID) (now : Time) (s : Table)
    (obj : WaterObject)
    (hfresh : ∀ r ∈ s, r.ID ≠ dbID ∧ r.CanonicalID ≠ dbCanonicalID) :
    Create .none dbID dbCanonicalID now s obj =
      (s ++ [insertedRow dbID dbCanonicalID now obj],
        .ok { obj with
          ID := dbID, CanonicalID := dbCanonicalID, Version := 1, CreatedAt := now,
          UpdatedAt := now, Status := StatusDraft }) := by
  have hno : ¬ s.any (fun r => r.ID == dbID || r.CanonicalID == dbCanonicalID) = true := by
    rw [create_collision_iff]
    rintro ⟨r, hr, h | h⟩
    · exact (hfresh r hr).1 h
    · exact (hfresh r hr).2 h
  unfold Create
  simp only [reduceCtorEq, if_false, false_or, hno]

/-- A `Create` that succeeds used an id and a canonical id that no row had, appended the
inserted row, and returned the request object with the generated values. -/
theorem create_ok_inv (f : Fault) (dbID : Int) (dbCanonicalID : UUID) (now : Time)
    (s : Table) (obj res : WaterObject)
    (hok : (Create f dbID dbCanonicalID now s obj).2 = .ok res) :
    (∀ r ∈ s, r.ID ≠ dbID ∧ r.CanonicalID ≠ dbCanonicalID) ∧
      (Create f dbID dbCanonicalID now s obj).1 =
        s ++ [insertedRow dbID dbCanonicalID now obj] ∧
      res = { obj with
        ID := dbID, CanonicalID := dbCanonicalID, Version := 1, CreatedAt := now,
        UpdatedAt := now, Status := StatusDraft } := by
  unfold Create at hok ⊢
  by_cases h1 : f = .marshal
  · rw [if_pos h1] at hok
    exact absurd hok (by simp)
  · rw [if_neg h1] at hok ⊢
    by_cases h2 : f = .query ∨
        s.any (fun r => r.ID == dbID || r.CanonicalID == dbCanonicalID) = true
    · rw [if_pos h2] at hok
      exact absurd hok (by simp)
    · rw [if_neg h2] at hok ⊢
      refine ⟨?_, rfl, (Except.ok.inj hok).symm⟩
      intro r hr
      constructor
      · intro hc
        exact h2 (Or.inr ((create_collision_iff s dbID dbCanonicalID).mpr ⟨r, hr, Or.inl hc⟩))
      · intro hc
        exact h2 (Or.inr ((create_collision_iff s dbID dbCanonicalID).mpr ⟨r, hr, Or.inr hc⟩))

/-- Reading back by a canonical id that only the last row carries finds that row, and
hands its geometry column to `json.Unmarshal`. -/
theorem get_after_insert (codec : Codec) (s : Table) (row : WaterObject) (c : UUID)
    (hfresh : ∀ r ∈ s, r.CanonicalID ≠ c) (hc : row.CanonicalID = c)
    (hst : row.Status = StatusDraft) :
    GetByCanonicalID codec .none (s ++ [row]) c StatusDraft =
      match geometryColumn codec row.Geometry with
      | none => .error (.storage "scan row")
      | some geometryJSON =>
        match codec.Unmarshal geometryJSON with
        | .error _ => .error (.storage "unmarshal geometry")
        | .ok geom => .ok { row with Geometry := geom, HistoricalNotes := none } := by
  have hnone : s.find? (fun r => r.CanonicalID == c && r.Status == StatusDraft) = none := by
    rw [List.find?_eq_none]
    intro r hr hp
    simp only [Bool.and_eq_true, beq_iff_eq] at hp
    exact hfresh r hr hp.1
  have hrow : (fun r : WaterObject => r.CanonicalID == c && r.Status == StatusDraft) row
      = true := by
    simp only [Bool.and_eq_true, beq_iff_eq]
    exact ⟨hc, hst⟩
  unfold GetByCanonicalID
  simp only [reduceCtorEq, if_false, List.find?_append, hnone, Option.none_or,
    List.find?_cons, hrow]

/-- The sample create request, handled on the sample table: the answer is 201 and the
row is appended. -/
theorem sample_create :
    WaterObjectHandler.Create sampleCodec .none 4 "C" 10 sampleTable
        (some (sampleBody "Bulak" "spring" [1])) 7 =
      (sampleTable ++
          [insertedRow 4 "C" 10
            { requestObject (sampleBody "Bulak" "spring" [1]) "spring" pointGeometry with
              CreatedBy := 7 }],
        ⟨201, "draft created",
          some { requestObject (sampleBody "Bulak" "spring" [1]) "spring" pointGeometry with
            CreatedBy := 7, ID := 4, CanonicalID := "C", Version := 1, CreatedAt := 10,
            UpdatedAt := 10, Status := StatusDraft }⟩) := by
  rw [createHandler_valid sampleCodec .none 4 "C" 10 sampleTable
    (sampleBody "Bulak" "spring" [1]) 7 pointGeometry rfl (by decide)
    validate_sample_point rfl]
  decide

/-- The scan without the skip finds a pair exactly when one exists among all the index
pairs `i`, `j ≥ i+2`. -/
theorem scanNoSkip_iff (ring : Ring) (h4 : 4 ≤ ring.length) (rest : List Ring) :
    isSelfIntersectingNoSkip (ring :: rest) = true ↔
      ∃ i j : Nat, i + 2 ≤ j ∧ j + 1 < ring.length ∧
        segmentsIntersect (ringAt ring i) (ringAt ring (i + 1)) (ringAt ring j)
          (ringAt ring (j + 1)) = true := by
  unfold isSelfIntersectingNoSkip
  have hlt : ¬ ring.length < 4 := by omega
  simp only [hlt, if_false, List.any_eq_true, List.mem_range, List.mem_range']
  constructor
  · rintro ⟨i, hi, j, ⟨k, hk, rfl⟩, hj⟩
    exact ⟨i, i + 2 + 1 * k, by omega, by omega, hj⟩
  · rintro ⟨i, j, hij, hj, hx⟩
    exact ⟨i, by omega, j, ⟨j - (i + 2), by omega, by omega⟩, hx⟩

/-- Two segments that share an endpoint are not reported as crossing: the computed
determinant of the shared point against the other segment is a `float64` minus itself,
zero or NaN. -/
theorem segmentsIntersect_shared (a b c : Point) : segmentsIntersect a b c a = false := by
  unfold segmentsIntersect
  have h := direction_last_sign c a
  simp only [Float64.gt, h.1, h.2, Bool.false_and, Bool.or_self]

theorem segmentsIntersectExact_of_zero (a b c d : Point)
    (h : directionExact c d a = 0 ∨ directionExact c d b = 0 ∨ directionExact a b c = 0 ∨
      directionExact a b d = 0) : segmentsIntersectExact a b c d = false := by
  unfold segmentsIntersectExact
  rcases h with h | h | h | h <;> simp [h]

/-- C25. The self-intersection scan equals its reference definition: `isSelfIntersecting`
is true exactly when the polygon has an exterior ring `r` of `n ≥ 4` points and there
are indices `i`, `j` with `i+2 ≤ j ≤ n-2`, not the pair `(0, n-2)`, for which
`segmentsIntersect (r[i], r[i+1], r[j], r[j+1])` holds; and the rings after the first
never affect the result. -/
theorem scan_reference (poly : Polygon) :
    (isSelfIntersecting poly = true ↔
      ∃ ring rest, poly = ring :: rest ∧ 4 ≤ ring.length ∧
        ∃ i j : Nat, i + 2 ≤ j ∧ j ≤ ring.length - 2 ∧
          ¬ (i = 0 ∧ j = ring.length - 2) ∧
          segmentsIntersect (ringAt ring i) (ringAt ring (i + 1)) (ringAt ring j)
            (ringAt ring (j + 1)) = true) ∧
    (∀ (ring : Ring) (rest1 rest2 : List Ring),
      isSelfIntersecting (ring :: rest1) = isSelfIntersecting (ring :: rest2)) := by
  constructor
  · cases poly with
    | nil => simp [isSelfIntersecting]
    | cons ring rest =>
      by_cases h4 : 4 ≤ ring.length
      · rw [scan_iff ring h4 rest]
        constructor
        · rintro ⟨i, j, hij, hj, hskip, hx⟩
          refine ⟨ring, rest, rfl, h4, i, j, hij, by omega, ?_, hx⟩
          intro hc
          exact hskip ⟨hc.1, by omega⟩
        · rintro ⟨ring2, rest2, heq, _, i, j, hij, hj, hskip, hx⟩
          obtain ⟨rfl, rfl⟩ := List.cons.inj heq
          refine ⟨i, j, hij, by omega, ?_, hx⟩
          intro hc
          exact hskip ⟨hc.1, by omega⟩
      · have hlt : ring.length < 4 := by omega
        constructor
        · intro h
          simp [isSelfIntersecting, hlt] at h
        · rintro ⟨ring2, rest2, heq, h42, _⟩
          obtain ⟨rfl, rfl⟩ := List.cons.inj heq
          exact absurd h42 h4
  · intro ring rest1 rest2
    rfl

/-- The orientation test in terms of the crossing point. -/
theorem properlyCross_iff_meet (a b c d : Point) :
    ProperlyCross a b c d ↔
      cross (b - a) (d - c) ≠ 0 ∧
        ∃ s t : Rat, 0 < s ∧ s < 1 ∧ 0 < t ∧ t < 1 ∧
          a.1 + s * (b.1 - a.1) = c.1 + t * (d.1 - c.1) ∧
          a.2 + s * (b.2 - a.2) = c.2 + t * (d.2 - c.2) := by
  obtain ⟨a1, a2⟩ := a
  obtain ⟨b1, b2⟩ := b
  obtain ⟨c1, c2⟩ := c
  obtain ⟨d1, d2⟩ := d
  simp only [ProperlyCross, orient, cross, Prod.fst_sub, Prod.snd_sub]
  set D : Rat := (b1 - a1) * (d2 - c2) - (b2 - a2) * (d1 - c1) with hD
  constructor
  · rintro ⟨h1, h2⟩
    have hDne : D ≠ 0 := by
      intro h0
      have e : (b1 - a1) * (d2 - a2) - (b2 - a2) * (d1 - a1) =
          (b1 - a1) * (c2 - a2) - (b2 - a2) * (c1 - a1) + D := by
        rw [hD]
        ring
      rw [e, h0, add_zero] at h1
      nlinarith [mul_self_nonneg ((b1 - a1) * (c2 - a2) - (b2 - a2) * (c1 - a1))]
    refine ⟨hDne, ?_⟩
    have hD2 : 0 < D * D := mul_self_pos.mpr hDne
    set X : Rat := (d1 - c1) * (a2 - c2) - (d2 - c2) * (a1 - c1) with hX
    set Y : Rat := (b1 - a1) * (c2 - a2) - (b2 - a2) * (c1 - a1) with hY
    have eX : (d1 - c1) * (b2 - c2) - (d2 - c2) * (b1 - c1) = X - D := by
      rw [hX, hD]
      ring
    have eY : (b1 - a1) * (d2 - a2) - (b2 - a2) * (d1 - a1) = Y + D := by
      rw [hY, hD]
      ring
    rw [eX] at h2
    rw [eY] at h1
    refine ⟨X / D, -Y / D, ?_, ?_, ?_, ?_, ?_, ?_⟩
    · have h3 : 0 < X * D := by nlinarith
      have h4 := div_pos h3 hD2
      have e2 : X * D / (D * D) = X / D := by
        field_simp
        ring
      rwa [e2] at h4
    · have h3 : 0 < (D - X) * D := by nlinarith
      have h4 := div_pos h3 hD2
      have e2 : (D - X) * D / (D * D) = 1 - X / D := by
        field_simp
        ring
      rw [e2] at h4
      linarith
    · have h3 : 0 < (-Y) * D := by nlinarith
      have h4 := div_pos h3 hD2
      have e2 : (-Y) * D / (D * D) = -Y / D := by
        field_simp
        ring
      rwa [e2] at h4
    · have h3 : 0 < (D + Y) * D := by nlinarith
      have h4 := div_pos h3 hD2
      have e2 : (D + Y) * D / (D * D) = 1 - (-Y / D) := by
        field_simp
        ring
      rw [e2] at h4
      linarith
    · field_simp
      rw [hX, hY, hD]
      ring
    · field_simp
      rw [hX, hY, hD]
      ring
  · rintro ⟨hDne, s, t, hs0, hs1, ht0, ht1, e1, e2⟩
    have hD2 : 0 < D * D := mul_self_pos.mpr hDne
    have hY : (b1 - a1) * (c2 - a2) - (b2 - a2) * (c1 - a1) = -t * D := by
      rw [hD]
      linear_combination (-(b1 - a1)) * e2 + (b2 - a2) * e1
    have hX : (d1 - c1) * (a2 - c2) - (d2 - c2) * (a1 - c1) = s * D := by
      rw [hD]
      linear_combination (d1 - c1) * e2 - (d2 - c2) * e1
    have eX : (d1 - c1) * (b2 - c2) - (d2 - c2) * (b1 - c1) =
        (d1 - c1) * (a2 - c2) - (d2 - c2) * (a1 - c1) - D := by
      rw [hD]
      ring
    have eY : (b1 - a1) * (d2 - a2) - (b2 - a2) * (d1 - a1) =
        (b1 - a1) * (c2 - a2) - (b2 - a2) * (c1 - a1) + D := by
      rw [hD]
      ring
    rw [eX, eY, hX, hY]
    constructor
    · have e3 : -t * D * (-t * D + D) = -(t * (1 - t)) * (D * D) := by ring
      rw [e3]
      have ht : 0 < t * (1 - t) := mul_pos ht0 (by linarith)
      have h5 := mul_pos ht hD2
      linarith
    · have e3 : s * D * (s * D - D) = -(s * (1 - s)) * (D * D) := by ring
      rw [e3]
      have hs : 0 < s * (1 - s) := mul_pos hs0 (by linarith)
      have h5 := mul_pos hs hD2
      linarith

theorem openBowtie_skipped : isSelfIntersecting [openBowtie] = false := by
  rw [← Bool.not_eq_true, scan_iff openBowtie (by decide) []]
  rintro ⟨i, j, hij, hj, hskip, _⟩
  have hlen : openBowtie.length = 4 := rfl
  rw [hlen] at hj hskip
  exact hskip ⟨by omega, by omega⟩

theorem openBowtie_crosses : isSelfIntersectingNoSkip [openBowtie] = true := by decide!

/-- C28. The wrap-around exclusion is redundant on closed rings: for every ring with at
least 4 points whose first point equals its last, `isSelfIntersecting` and the variant
that does not skip the pair `(0, n-2)` return the same result, because
`segmentsIntersect` is false for two edges sharing an endpoint; on a ring that is not
closed they can differ: the open ring (0,0),(1,1),(1,0),(0,1) is reported as not
self-intersecting, and the variant reports it as self-intersecting. -/
theorem skip_redundant_on_closed :
    (∀ (ring : Ring) (rest : List Ring), 4 ≤ ring.length →
      ringAt ring 0 = ringAt ring (ring.length - 1) →
      isSelfIntersecting (ring :: rest) = isSelfIntersectingNoSkip (ring :: rest)) ∧
    (∀ a b c : Point, segmentsIntersect a b c a = false) ∧
    isSelfIntersecting [openBowtie] = false ∧
    isSelfIntersectingNoSkip [openBowtie] = true := by
  refine ⟨?_, segmentsIntersect_shared, openBowtie_skipped, openBowtie_crosses⟩
  intro ring rest h4 hclosed
  rw [Bool.eq_iff_iff, scan_iff ring h4 rest, scanNoSkip_iff ring h4 rest]
  constructor
  · rintro ⟨i, j, hij, hj, _, hx⟩
    exact ⟨i, j, hij, hj, hx⟩
  · rintro ⟨i, j, hij, hj, hx⟩
    refine ⟨i, j, hij, hj, ?_, hx⟩
    rintro ⟨hi, hjn⟩
    subst hi
    have hlast : j + 1 = ring.length - 1 := by omega
    rw [hlast, ← hclosed, segmentsIntersect_shared] at hx
    exact absurd hx (by decide)

/-- Witness for C28: on the closed bowtie both scans agree. -/
theorem skip_redundant_on_closed_witness :
    isSelfIntersecting [bowtie] = isSelfIntersectingNoSkip [bowtie] :=
  skip_redundant_on_closed.1 bowtie [] (by decide) rfl

theorem threePoints_center :
    (OrbGeometry.Polygon [threePoints]).Bound.Center = (.fin (121 / 2), .fin (91 / 2)) := by
  decide!

theorem openBowtieInRegion_center :
    (OrbGeometry.Polygon [openBowtieInRegion]).Bound.Center =
      (.fin (121 / 2), .fin (91 / 2)) := by
  decide!

/-- A ring with fewer than 4 points is never flagged. -/
theorem short_ring_simple (poly : Polygon)
    (h : ∀ ring, poly.head? = some ring → ring.length < 4) : ExteriorPasses poly := by
  intro ring hring i j hij hj _
  have := h ring hring
  omega

/-- What `Validate` accepts among the decoded geometries: exactly those with a permitted
tag, a computed center inside the region and no pair of edges of an exterior ring that
the computed crossing test reports. -/
theorem validate_ok_iff (U : List UInt8 → Except String (Option OrbGeometry))
    (geomJSON : List UInt8) (g : OrbGeometry) (t : ObjectType)
    (hne : geomJSON ≠ []) (hdec : U geomJSON = .ok (some g)) :
    Validate U geomJSON t = .ok () ↔
      g.GeoJSONType ∈ permittedShapes t ∧ ComputedInRegion g.Bound.Center ∧
        NoReportedCrossing g := by
  rw [validate_decoded U geomJSON g t hne hdec, ← topologyCheck_false_iff]
  by_cases h1 : g.GeoJSONType ∈ permittedShapes t
  · by_cases h2 : ComputedInRegion g.Bound.Center
    · cases h3 : topologyCheck g <;> simp [h1, h2]
    · simp [h1, h2]
  · simp [h1]

/-- C21, as stated, fails: `Validate` accepts, for a lake, the Polygon whose only ring is
(60,45),(61,45),(61,46): three points, the first different from the last. -/
theorem validate_accepts_open_triangle :
    Validate (decodesTo (.Polygon [threePoints])) [123] ObjectTypeLake = .ok () ∧
      ¬ Ring.WellFormed threePoints := by
  constructor
  · rw [validate_ok_iff (decodesTo (.Polygon [threePoints])) [123] (.Polygon [threePoints])
      ObjectTypeLake (by decide) rfl]
    refine ⟨by decide, ?_, ?_⟩
    · rw [threePoints_center]
      exact inRegion_mid
    · apply short_ring_simple
      intro ring hring
      simp only [List.head?_cons, Option.some.injEq] at hring
      subst hring
      decide
  · rintro ⟨h4, _⟩
    exact absurd h4 (by decide)

/-- C21, amended. Ring well-formedness is not checked: a decoded geometry is accepted by
`Validate` exactly when its tag is permitted, the center the program computes lies in
the region and the computed crossing test reports no two non-adjacent edges of an
exterior ring; so a Polygon whose exterior ring has fewer than 4 points is accepted
whenever its tag is permitted and its computed center lies in the region, whatever its
rings, closed or not. -/
theorem validate_ignores_ring_shape (U : List UInt8 → Except String (Option OrbGeometry))
    (geomJSON : List UInt8) (g : OrbGeometry) (t : ObjectType)
    (hne : geomJSON ≠ []) (hdec : U geomJSON = .ok (some g)) :
    (Validate U geomJSON t = .ok () ↔
      g.GeoJSONType ∈ permittedShapes t ∧ ComputedInRegion g.Bound.Center ∧
        NoReportedCrossing g) ∧
    (∀ poly : Polygon, g = .Polygon poly → "Polygon" ∈ permittedShapes t →
      ComputedInRegion g.Bound.Center →
      (∀ ring, poly.head? = some ring → ring.length < 4) →
      Validate U geomJSON t = .ok ()) := by
  refine ⟨validate_ok_iff U geomJSON g t hne hdec, ?_⟩
  intro poly hg htag hin hshort
  rw [validate_ok_iff U geomJSON g t hne hdec]
  subst hg
  exact ⟨htag, hin, short_ring_simple poly hshort⟩

/-- Witness for the amended C21: the open four-point bowtie inside the region is
accepted for a glacier; its only crossing pair is the one the scan skips. -/
theorem validate_ignores_ring_shape_witness :
    Validate (decodesTo (.Polygon [openBowtieInRegion])) [123] ObjectTypeGlacier = .ok () :=
  (validate_ignores_ring_shape (decodesTo (.Polygon [openBowtieInRegion])) [123]
    (.Polygon [openBowtieInRegion]) ObjectTypeGlacier (by decide) rfl).1.mpr
    ⟨by decide, by rw [openBowtieInRegion_center]; exact inRegion_mid, by
      intro ring hring i j hij hj hskip
      simp only [List.head?_cons, Option.some.injEq] at hring
      subst hring
      have hlen : openBowtieInRegion.length = 4 := rfl
      rw [hlen] at hj hskip
      exact absurd ⟨by omega, by omega⟩ hskip⟩

theorem emptyBound_center : emptyBound.Center = (.fin 0, .fin 0) := by decide!

/-- C22, evaluated at the failing input: a Polygon and a LineString decoded from an
empty coordinates array (no ring, no point) are refused as out of bounds, and a Polygon
sent for a river as a type mismatch, not as empty geometry; only a zero-length input and
an absent decoded geometry give `ErrEmptyGeometry`. -/
theorem empty_coordinates_not_empty_geometry :
    Validate (decodesTo (.Polygon [])) [123] ObjectTypeLake = .error .ErrOutsideBounds ∧
    Validate (decodesTo (.LineString [])) [123] ObjectTypeRiver = .error .ErrOutsideBounds ∧
    Validate (decodesTo (.Polygon [])) [123] ObjectTypeRiver =
      .error (.ErrGeometryTypeMismatch ["LineString", "MultiLineString"] "Polygon") ∧
    Validate (decodesTo (.Polygon [])) [] ObjectTypeLake = .error .ErrEmptyGeometry ∧
    Validate (fun _ => .ok none) [123] ObjectTypeLake = .error .ErrEmptyGeometry := by
  have hc1 : (OrbGeometry.Polygon []).Bound.Center = (.fin 0, .fin 0) := emptyBound_center
  have hc2 : (OrbGeometry.LineString []).Bound.Center = (.fin 0, .fin 0) :=
    emptyBound_center
  refine ⟨?_, ?_, ?_, rfl, rfl⟩
  · rw [validate_decoded (decodesTo (.Polygon [])) [123] (.Polygon []) ObjectTypeLake
      (by decide) rfl, if_neg (by decide), hc1, if_pos not_inRegion_origin]
  · rw [validate_decoded (decodesTo (.LineString [])) [123] (.LineString []) ObjectTypeRiver
      (by decide) rfl, if_neg (by decide), hc2, if_pos not_inRegion_origin]
  · rw [validate_decoded (decodesTo (.Polygon [])) [123] (.Polygon []) ObjectTypeRiver
      (by decide) rfl, if_pos (by decide)]
    rfl

/-! ## Canonical ids, the change log, the list queries: lemmas and claims -/

theorem cu_inj {s : Table} (hcu : CanonicalUnique s) {r1 r2 : WaterObject}
    (h1 : r1 ∈ s) (h2 : r2 ∈ s) (hc : r1.CanonicalID = r2.CanonicalID) : r1 = r2 :=
  List.inj_on_of_nodup_map hcu h1 h2 hc

theorem cu_map {s : Table} (g : WaterObject → WaterObject)
    (hcan : ∀ r, (g r).CanonicalID = r.CanonicalID) (hcu : CanonicalUnique s) :
    CanonicalUnique (s.map g) := by
  unfold CanonicalUnique at *
  rw [List.map_map]
  have hfun : ((fun r : WaterObject => r.CanonicalID) ∘ g) = fun r => r.CanonicalID := by
    funext r
    exact hcan r
  rw [hfun]
  exact hcu

theorem na_map {s : Table} (g : WaterObject → WaterObject)
    (hg : ∀ r, r.Status ≠ StatusArchived → (g r).Status ≠ StatusArchived)
    (h : NoArchived s) : NoArchived (s.map g) := by
  intro r2 hr2
  obtain ⟨a, ha, rfl⟩ := List.mem_map.mp hr2
  exact hg a (h a ha)

/-- Where canonical ids are unique, the archive statement of `Approve`, run for the
canonical id of a Pending row, finds no Published row to archive. -/
theorem archive_noop {s : Table} (hcu : CanonicalUnique s) (row : WaterObject)
    (hrow : row ∈ s) (hpend : row.Status = StatusPending) :
    archiveStmt row.CanonicalID s = s := by
  unfold archiveStmt
  have hid : ∀ r ∈ s,
      (if r.CanonicalID = row.CanonicalID ∧ r.Status = StatusPublished then
        { r with Status := StatusArchived } else r) = r := by
    intro r hr
    by_cases hc : r.CanonicalID = row.CanonicalID ∧ r.Status = StatusPublished
    · have hrr : r = row := cu_inj hcu hr hrow hc.1
      rw [hrr, hpend] at hc
      exact absurd hc.2 pending_ne_published
    · rw [if_neg hc]
  rw [List.map_congr_left hid, List.map_id']

theorem draft_ne_archived : StatusDraft ≠ StatusArchived := by decide

theorem pending_ne_archived : StatusPending ≠ StatusArchived := by decide

theorem rejected_ne_archived : StatusRejected ≠ StatusArchived := by decide

theorem published_ne_archived : StatusPublished ≠ StatusArchived := by decide

/-- Every repository call keeps the three properties together: the primary key, the
uniqueness of canonical ids, and the absence of Archived records. -/
theorem lineage_step (op : Op) (s : Table)
    (h : PrimaryKey s ∧ CanonicalUnique s ∧ NoArchived s) :
    PrimaryKey (op.run s) ∧ CanonicalUnique (op.run s) ∧ NoArchived (op.run s) := by
  obtain ⟨hpk, hcu, hna⟩ := h
  cases op with
  | create f dbID dbCanonicalID now obj =>
    refine ⟨pk_create f dbID dbCanonicalID now s obj hpk, ?_⟩
    show CanonicalUnique (Create f dbID dbCanonicalID now s obj).1 ∧
      NoArchived (Create f dbID dbCanonicalID now s obj).1
    cases hres : (Create f dbID dbCanonicalID now s obj).2 with
    | ok res =>
      obtain ⟨hfresh, htab, _⟩ := create_ok_inv f dbID dbCanonicalID now s obj res hres
      rw [htab]
      constructor
      · unfold CanonicalUnique at *
        rw [List.map_append, List.nodup_append]
        refine ⟨hcu, List.nodup_singleton _, ?_⟩
        intro a ha hb
        obtain ⟨r, hr, rfl⟩ := List.mem_map.mp ha
        simp only [List.map_cons, List.map_nil, List.mem_singleton] at hb
        exact (hfresh r hr).2 hb
      · intro r hr
        rcases List.mem_append.mp hr with hr | hr
        · exact hna r hr
        · rw [List.mem_singleton] at hr
          subst hr
          exact draft_ne_archived
    | error e =>
      have htab : (Create f dbID dbCanonicalID now s obj).1 = s := by
        unfold Create at hres ⊢
        split
        · rfl
        · split
          · rfl
          · rename_i h1 h2
            rw [if_neg h1, if_neg h2] at hres
            exact absurd hres (by simp)
      rw [htab]
      exact ⟨hcu, hna⟩
  | update f now obj =>
    refine ⟨pk_update f now s obj hpk, ?_⟩
    show CanonicalUnique (Update f now s obj).1 ∧ NoArchived (Update f now s obj).1
    rcases update_table f now s obj with hu | hu
    · rw [hu]
      exact ⟨hcu, hna⟩
    · rw [hu]
      constructor
      · apply cu_map _ _ hcu
        intro r
        split <;> rfl
      · apply na_map _ _ hna
        intro r hr
        split
        · exact hr
        · exact hr
  | submit f now id userID =>
    refine ⟨pk_submit f now s id userID hpk, ?_⟩
    show CanonicalUnique (SubmitForReview f now s id userID).1 ∧
      NoArchived (SubmitForReview f now s id userID).1
    unfold SubmitForReview
    split
    · exact ⟨hcu, hna⟩
    · split
      · constructor
        · apply cu_map _ _ hcu
          intro r
          split <;> rfl
        · apply na_map _ _ hna
          intro r hr
          split
          · exact pending_ne_archived
          · exact hr
      · exact ⟨hcu, hna⟩
  | approve f now id reviewerID =>
    refine ⟨pk_approve f now s id reviewerID hpk, ?_⟩
    show CanonicalUnique (Approve f now s id reviewerID).1 ∧
      NoArchived (Approve f now s id reviewerID).1
    rcases approve_cases f now s id reviewerID with ⟨e, he⟩ | ⟨row, hrow, _, hpend, _, hok⟩
    · rw [he]
      exact ⟨hcu, hna⟩
    · rw [hok, archive_noop hcu row hrow hpend]
      unfold publishStmt
      constructor
      · apply cu_map _ _ hcu
        intro r
        split <;> rfl
      · apply na_map _ _ hna
        intro r hr
        split
        · exact published_ne_archived
        · exact hr
  | reject f now id reviewerID reason =>
    refine ⟨pk_reject f now s id reviewerID reason hpk, ?_⟩
    show CanonicalUnique (Reject f now s id reviewerID reason).1 ∧
      NoArchived (Reject f now s id reviewerID reason).1
    unfold Reject
    split
    · exact ⟨hcu, hna⟩
    · split
      · constructor
        · apply cu_map _ _ hcu
          intro r
          split <;> rfl
        · apply na_map _ _ hna
          intro r hr
          split
          · exact rejected_ne_archived
          · exact hr
      · exact ⟨hcu, hna⟩
  | delete f id userID =>
    refine ⟨pk_delete f s id userID hpk, ?_⟩
    show CanonicalUnique (Delete f s id userID).1 ∧ NoArchived (Delete f s id userID).1
    unfold Delete
    split
    · exact ⟨hcu, hna⟩
    · split
      · constructor
        · unfold CanonicalUnique at *
          exact hcu.sublist (List.Sublist.map _ (List.filter_sublist _))
        · intro r hr
          exact hna r (List.mem_filter.mp hr).1
      · exact ⟨hcu, hna⟩

theorem lineage_runOps (ops : List Op) :
    ∀ s : Table, PrimaryKey s ∧ CanonicalUnique s ∧ NoArchived s →
      PrimaryKey (runOps ops s) ∧ CanonicalUnique (runOps ops s) ∧
        NoArchived (runOps ops s) := by
  induction ops with
  | nil =>
    intro s h
    exact h
  | cons op rest ih =>
    intro s h
    exact ih (op.run s) (lineage_step op s h)

/-- C29. No version lineage is ever created: in every table reachable from the empty
table by create, update, submit, approve, reject and delete calls (a create whose
generated canonical id is already taken fails), no two records share a canonical id;
so the archive statement of `Approve`, run for any Pending row, leaves the table as it
is, and no record is ever Archived. -/
theorem no_version_lineage (s : Table) (h : Reachable s) :
    CanonicalUnique s ∧ NoArchived s ∧
      ∀ (id : Int) (row : WaterObject), s.find? (pendingWhere id) = some row →
        archiveStmt row.CanonicalID s = s := by
  obtain ⟨ops, rfl⟩ := h
  have hinv := lineage_runOps ops []
    ⟨List.nodup_nil, List.nodup_nil, fun r hr => absurd hr (List.not_mem_nil r)⟩
  refine ⟨hinv.2.1, hinv.2.2, ?_⟩
  intro id row hfind
  have hmem := List.mem_of_find?_eq_some hfind
  have hp := (pendingWhere_iff id row).mp (List.find?_some hfind)
  exact archive_noop hinv.2.1 row hmem hp.2

/-- Witness for C29: after create, submit and approve the table holds one record, and
it is Published. -/
theorem no_version_lineage_witness :
    (runOps approvedOnce []).map (fun r => (r.CanonicalID, r.Status)) =
        [("A", StatusPublished)] ∧
      CanonicalUnique (runOps approvedOnce []) ∧ NoArchived (runOps approvedOnce []) :=
  ⟨by decide, (no_version_lineage (runOps approvedOnce []) ⟨approvedOnce, rfl⟩).1,
    (no_version_lineage (runOps approvedOnce []) ⟨approvedOnce, rfl⟩).2.1⟩

theorem execOps_eq (ops : List Op) :
    ∀ db : Database,
      execOps ops db = { waterObjects := runOps ops db.waterObjects, changeLog := db.changeLog } := by
  induction ops with
  | nil =>
    intro db
    rfl
  | cons op rest ih =>
    intro db
    show execOps rest (op.exec db) = _
    rw [ih (op.exec db)]
    rfl

/-- C24, as stated, fails: create, submit and approve all succeed on the empty database,
three transitions, and the change log holds no entry afterwards. -/
theorem no_audit_entry_written :
    countSucceeded approvedOnce [] = 3 ∧
      (execOps approvedOnce ⟨[], []⟩).changeLog.length = 0 ∧
      (execOps approvedOnce ⟨[], []⟩).waterObjects.map (fun r => r.Status) =
        [StatusPublished] := by
  refine ⟨by decide, ?_, ?_⟩
  · rw [execOps_eq]
    rfl
  · rw [execOps_eq]
    decide

/-- C24, amended. No lifecycle transition writes the change log: every sequence of
create, update, submit, approve, reject and delete calls, successful or not, leaves the
audit entries of the database exactly as they were, none added, none modified, none
removed, while the table `water_objects` goes through the calls. -/
theorem change_log_untouched (ops : List Op) (db : Database) :
    (execOps ops db).changeLog = db.changeLog ∧
      (execOps ops db).waterObjects = runOps ops db.waterObjects := by
  rw [execOps_eq]
  exact ⟨rfl, rfl⟩

theorem scanWaterObjects_arity (codec : Codec) (columns : List String) (r : WaterObject)
    (rest : List WaterObject) (h : columns.length ≠ scanWaterObjectsDests.length) :
    scanWaterObjects codec columns (r :: rest) = .error (.storage "scan row") := by
  unfold scanWaterObjects scanRow
  rw [if_pos h]

/-- `GetDraftsByUser` fails on its first row, whenever the user has a row to list. -/
theorem getDraftsByUser_fails (codec : Codec) (s : Table) (userID : Int)
    (h : ∃ r ∈ s, draftsWhere userID r = true) :
    GetDraftsByUser codec .none s userID = .error (.storage "scan row") := by
  obtain ⟨r, hr, hw⟩ := h
  unfold GetDraftsByUser
  simp only [reduceCtorEq, if_false]
  have hmem : r ∈ (s.filter (draftsWhere userID)).insertionSort
      (fun a b => a.UpdatedAt ≥ b.UpdatedAt) :=
    (List.perm_insertionSort _ _).mem_iff.mpr (List.mem_filter.mpr ⟨hr, hw⟩)
  cases hrows : (s.filter (draftsWhere userID)).insertionSort
      (fun a b => a.UpdatedAt ≥ b.UpdatedAt) with
  | nil =>
    rw [hrows] at hmem
    exact absurd hmem (List.not_mem_nil r)
  | cons x rest => exact scanWaterObjects_arity codec _ x rest (by decide)

/-- The scanner at work on 25 columns: under the `SELECT` list of `GetPending` a pending
row is read with its own `updated_at`; under the `SELECT` list of `GetPublished` the 25th
column is `published_at`, which lands in `UpdatedAt`; and under that of
`GetVersionHistory` a row that was never published, its `published_at` `NULL`, is
refused. -/
theorem scanRow_by_position :
    (scanRow sampleCodec getPendingColumns
        { sampleRow 1 "A" StatusPending 7 with Geometry := pointGeometry, UpdatedAt := 20 }).map
          (fun r => (r.ID, r.Status, r.UpdatedAt, r.Geometry)) =
      .ok (1, StatusPending, 20, pointGeometryStored) ∧
    (scanRow sampleCodec getPublishedColumns
        { sampleRow 1 "A" StatusPublished 7 with
          Geometry := pointGeometry, UpdatedAt := 20, PublishedAt := some 30 }).map
          (fun r => (r.ID, r.Status, r.UpdatedAt, r.PublishedAt)) =
      .ok (1, StatusPublished, 30, none) ∧
    scanRow sampleCodec getVersionHistoryColumns
        { sampleRow 1 "A" StatusDraft 7 with Geometry := pointGeometry } =
      .error (.storage "scan row") :=
  ⟨rfl, rfl, rfl⟩

/-- C30, evaluated at the failing input: `scanWaterObjects` has 25 destinations, the
queries `GetPublished`, `GetVersionHistory` and `GetPending` select 25 columns, and
`GetDraftsByUser` selects 26 (it adds `rejection_reason`); listing the drafts of a user
who has one fails with the scan error, whatever the JSON functions of the environment. -/
theorem drafts_query_arity_mismatch :
    scanWaterObjectsDests.length = 25 ∧ getPublishedColumns.length = 25 ∧
      getVersionHistoryColumns.length = 25 ∧ getPendingColumns.length = 25 ∧
      getDraftsByUserColumns.length = 26 ∧
      getDraftsByUserColumns.filter (fun c => !getPendingColumns.contains c) =
        ["rejection_reason"] ∧
      ∀ codec : Codec,
        GetDraftsByUser codec .none [sampleRow 1 "A" StatusDraft 7] 7 =
          .error (.storage "scan row") :=
  ⟨rfl, rfl, rfl, rfl, rfl, by decide, fun codec =>
    getDraftsByUser_fails codec [sampleRow 1 "A" StatusDraft 7] 7
      ⟨sampleRow 1 "A" StatusDraft 7, List.mem_singleton.mpr rfl, by decide⟩⟩

end WaterMap
